import Mathlib

/-!
# Authentication and authorization core of web3-ecommerce-app

A shallow embedding of

* `pkg/apierror/error.go` (the error taxonomy),
* `internal/middleware/auth.go` (`JWT`, `GenerateJWT`),
* `internal/middleware/admin.go` (`AdminRequired`),
* `internal/module/user/repository/user_repository.go` (the store adapter),
* `internal/module/user/service/user_service.go` (`Register`, `Login`),

followed by theorems about them.

Conventions.  Go strings are Lean strings.  `uint` is `Nat`, `int64` is `Int`
with `wrapInt64` applied where the source does arithmetic on it.  A clock
reading `time.Now()` is an argument of the function that reads it.  A Go
`error` is `GoError`: either a taxonomy error (`*apierror.APIError`) or any
other error, of which only the text is kept.  A nil pointer dereference is the
outcome `panic`.  The third-party libraries (jwt-go, bcrypt, gorm over MySQL)
are not part of the repository: their primitives are fields of the parameter
structures `JwtLib` and `Hasher`, and the table `users` is the explicit state
`DB`.
-/

namespace Web3Ecommerce

/-! ## pkg/apierror/error.go -/

/-- The Go type `ErrorCode` is a string type. -/
abbrev ErrorCode := String

def ErrorCodeBadRequest : ErrorCode := "BAD_REQUEST"
def ErrorCodeUnauthorized : ErrorCode := "UNAUTHORIZED"
def ErrorCodeForbidden : ErrorCode := "FORBIDDEN"
def ErrorCodeNotFound : ErrorCode := "NOT_FOUND"
def ErrorCodeInternalServerError : ErrorCode := "INTERNAL_SERVER_ERROR"
def ErrorCodeValidationFailed : ErrorCode := "VALIDATION_FAILED"
def ErrorCodeDuplicateEntity : ErrorCode := "DUPLICATE_ENTITY"
def ErrorCodeWeb3SignatureError : ErrorCode := "WEB3_SIGNATURE_ERROR"

def StatusBadRequest : Nat := 400
def StatusUnauthorized : Nat := 401
def StatusForbidden : Nat := 403
def StatusNotFound : Nat := 404
def StatusConflict : Nat := 409
def StatusInternalServerError : Nat := 500

/-- The struct `APIError`. -/
structure APIError where
  Code : ErrorCode
  Message : String
  Detail : String
  Status : Nat
  deriving DecidableEq, Repr

def NewBadRequestError (message detail : String) : APIError :=
  { Code := ErrorCodeBadRequest, Message := message, Detail := detail, Status := StatusBadRequest }

def NewUnauthorizedError (message detail : String) : APIError :=
  { Code := ErrorCodeUnauthorized, Message := message, Detail := detail,
    Status := StatusUnauthorized }

def NewForbiddenError (message detail : String) : APIError :=
  { Code := ErrorCodeForbidden, Message := message, Detail := detail, Status := StatusForbidden }

def NewNotFoundError (message detail : String) : APIError :=
  { Code := ErrorCodeNotFound, Message := message, Detail := detail, Status := StatusNotFound }

def NewInternalServerError (message detail : String) : APIError :=
  { Code := ErrorCodeInternalServerError, Message := message, Detail := detail,
    Status := StatusInternalServerError }

def NewValidationError (message detail : String) : APIError :=
  { Code := ErrorCodeValidationFailed, Message := message, Detail := detail,
    Status := StatusBadRequest }

def NewDuplicateEntityError (message detail : String) : APIError :=
  { Code := ErrorCodeDuplicateEntity, Message := message, Detail := detail,
    Status := StatusConflict }

def NewWeb3SignatureError (message detail : String) : APIError :=
  { Code := ErrorCodeWeb3SignatureError, Message := message, Detail := detail,
    Status := StatusBadRequest }

/-- A Go `error` value: a taxonomy error, or any other error (a library error,
or one built by `fmt.Errorf`), of which the text is kept. -/
inductive GoError where
  | api (e : APIError)
  | other (text : String)
  deriving DecidableEq, Repr

/-- The result of a call that may also end in a run-time panic. -/
inductive Outcome (α : Type) where
  | ok (a : α)
  | err (e : GoError)
  | panic (text : String)
  deriving DecidableEq, Repr

/-! ## internal/config/config.go -/

/-- The struct `JWTConfig`. -/
structure JWTConfig where
  Secret : String
  ExpireHours : Int
  deriving DecidableEq, Repr

/-! ## Machine integers and time -/

/-- Two's complement wrap-around of a 64-bit signed integer. -/
def wrapInt64 (x : Int) : Int := (x + 2 ^ 63) % 2 ^ 64 - 2 ^ 63

/-- A `time.Time`, as nanoseconds since the Unix epoch. -/
abbrev Time := Int

/-- The method `Time.Unix`: whole seconds since the epoch, rounded down. -/
def Time.Unix (t : Time) : Int := t / 1000000000

/-- The constant `time.Hour`, a `time.Duration` in nanoseconds. -/
def Hour : Int := 3600000000000

/-- The method `Time.Add` for a duration in nanoseconds. -/
def Time.Add (t : Time) (d : Int) : Time := t + d

/-! ## internal/middleware/auth.go: claims -/

/-- The struct `jwt.StandardClaims` of jwt-go. -/
structure StandardClaims where
  Audience : String
  ExpiresAt : Int
  Id : String
  IssuedAt : Int
  Issuer : String
  NotBefore : Int
  Subject : String
  deriving DecidableEq, Repr

/-- The struct `JWTClaims`: three fields and the embedded standard claims. -/
structure JWTClaims where
  UserID : Nat
  UserType : String
  WalletAddr : String
  StandardClaims : StandardClaims
  deriving DecidableEq, Repr

/-- The embedded field `ExpiresAt`, promoted as in Go. -/
def JWTClaims.ExpiresAt (c : JWTClaims) : Int := c.StandardClaims.ExpiresAt

/-- The embedded field `IssuedAt`, promoted as in Go. -/
def JWTClaims.IssuedAt (c : JWTClaims) : Int := c.StandardClaims.IssuedAt

/-- The zero value `&JWTClaims{}`. -/
def JWTClaims.zero : JWTClaims :=
  { UserID := 0, UserType := "", WalletAddr := "",
    StandardClaims :=
      { Audience := "", ExpiresAt := 0, Id := "", IssuedAt := 0, Issuer := "", NotBefore := 0,
        Subject := "" } }

/-! ## The jwt-go library -/

/-- The primitives of jwt-go that `ParseWithClaims` and `SignedString` are built
from.  They are parameters: the base64 and JSON codecs and HMAC-SHA256 are not
re-implemented. -/
structure JwtLib where
  /-- The encoded header segment of a token made by `NewWithClaims(SigningMethodHS256, _)`. -/
  encodeHeader : String
  /-- `EncodeSegment(json.Marshal(claims))`. -/
  encodeClaims : JWTClaims → String
  /-- `SigningMethodHS256.Sign(signingString, key)`. -/
  sign : String → String → Except String String
  /-- `DecodeSegment` and `json.Unmarshal` of a header segment: `none` when either
  fails, otherwise the header entry `alg` when it is a string. -/
  decodeHeader : String → Option (Option String)
  /-- `DecodeSegment` and JSON decoding of a claims segment into `&JWTClaims{}`:
  the claims value left behind, and whether decoding succeeded. -/
  decodeClaims : String → JWTClaims × Bool
  /-- `GetSigningMethod(alg) != nil`. -/
  methodAvailable : String → Bool
  /-- `GetSigningMethod(alg).Verify(signingString, signature, key) == nil`. -/
  verify : String → String → String → String → Bool

/-- The functions `verifyExp` of jwt-go, with `required = false`. -/
def verifyExp (exp now : Int) : Bool := if exp = 0 then true else decide (now ≤ exp)

/-- The functions `verifyIat` of jwt-go, with `required = false`. -/
def verifyIat (iat now : Int) : Bool := if iat = 0 then true else decide (iat ≤ now)

/-- The functions `verifyNbf` of jwt-go, with `required = false`. -/
def verifyNbf (nbf now : Int) : Bool := if nbf = 0 then true else decide (nbf ≤ now)

/-- The method `StandardClaims.Valid` (promoted to `JWTClaims`): `true` when it
returns nil. -/
def StandardClaims.Valid (c : StandardClaims) (now : Int) : Bool :=
  verifyExp c.ExpiresAt now && verifyIat c.IssuedAt now && verifyNbf c.NotBefore now

/-- Splitting of a character list at every occurrence of `sep`. -/
def splitChars (sep : Char) : List Char → List (List Char)
  | [] => [[]]
  | c :: cs =>
    if c = sep then [] :: splitChars sep cs
    else
      match splitChars sep cs with
      | [] => [[c]]
      | p :: ps => (c :: p) :: ps

/-- The call `strings.Split(s, ".")`. -/
def Split (s : String) : List String := (splitChars '.' s.data).map String.mk

/-- The call `strings.SplitN(s, " ", 2)`: at most two parts, cut at the first space. -/
def SplitN2 (s : String) : List String :=
  match s.data.span (fun c => c != ' ') with
  | (_, []) => [s]
  | (a, _ :: b) => [String.mk a, String.mk b]

/-- The fields of `*jwt.Token` the middleware reads. -/
structure Token where
  Valid : Bool
  deriving DecidableEq, Repr

/-- The call `jwt.ParseWithClaims(tokenString, claims, keyFunc)` with a key
function that returns `key`, run at clock reading `now` (seconds) on
`claims = &JWTClaims{}`: the returned token pointer (`none` for nil) and the
claims value afterwards. The returned error is dropped by the caller. -/
def ParseWithClaims (lib : JwtLib) (now : Int) (tokenString key : String) :
    Option Token × JWTClaims :=
  match Split tokenString with
  | [p0, p1, p2] =>
    match lib.decodeHeader p0 with
    | none => (some { Valid := false }, JWTClaims.zero)
    | some alg =>
      let dc := lib.decodeClaims p1
      if dc.2 = false then (some { Valid := false }, dc.1)
      else
        match alg with
        | none => (some { Valid := false }, dc.1)
        | some method =>
          if lib.methodAvailable method = false then (some { Valid := false }, dc.1)
          else
            let claimsOk := dc.1.StandardClaims.Valid now
            let sigOk := lib.verify method (p0 ++ "." ++ p1) p2 key
            (some { Valid := claimsOk && sigOk }, dc.1)
  | _ => (none, JWTClaims.zero)

/-- The method `Token.SignedString(key)` of a token made by
`NewWithClaims(SigningMethodHS256, claims)`. -/
def SignedString (lib : JwtLib) (claims : JWTClaims) (key : String) : Except String String :=
  let sstr := lib.encodeHeader ++ "." ++ lib.encodeClaims claims
  match lib.sign sstr key with
  | .error e => .error e
  | .ok sig => .ok (sstr ++ "." ++ sig)

/-- What jwt-go guarantees about its own primitives: segments are base64url text
(no dot), a header and a claims value decode to what was encoded, and an HS256
signature verifies under the key that made it. -/
structure JwtLib.Lawful (lib : JwtLib) : Prop where
  header_no_dot : '.' ∉ lib.encodeHeader.data
  claims_no_dot : ∀ c, '.' ∉ (lib.encodeClaims c).data
  sign_no_dot : ∀ m k s, lib.sign m k = .ok s → '.' ∉ s.data
  decode_header : lib.decodeHeader lib.encodeHeader = some (some "HS256")
  hs256_available : lib.methodAvailable "HS256" = true
  decode_claims : ∀ c, lib.decodeClaims (lib.encodeClaims c) = (c, true)
  verify_sign : ∀ m k s, lib.sign m k = .ok s → lib.verify "HS256" m s k = true

/-! ## A concrete instance of the library interface

`refLib` is a small, executable instance of `JwtLib`, used to run the
middleware on concrete tokens: numbers are written in binary, strings as a
length followed by code points, and the signature of a message is the key
followed by the message with the dots removed. -/

/-- Binary digits of `n`, least significant first; `fuel` bounds the recursion. -/
def encBits : Nat → Nat → List Char
  | 0, _ => []
  | fuel + 1, n =>
    if n = 0 then [] else (if n % 2 = 1 then '1' else '0') :: encBits fuel (n / 2)

/-- A natural number: its binary digits and a terminator. -/
def encNat (n : Nat) : List Char := encBits n n ++ [';']

/-- Reads a natural number written by `encNat`, and returns the rest. -/
def decNat : List Char → Option (Nat × List Char)
  | [] => none
  | c :: cs =>
    if c = ';' then some (0, cs)
    else if c = '0' then (decNat cs).map (fun r => (2 * r.1, r.2))
    else if c = '1' then (decNat cs).map (fun r => (2 * r.1 + 1, r.2))
    else none

/-- An integer: its positive part and its negative part. -/
def encInt (i : Int) : List Char := encNat i.toNat ++ encNat (-i).toNat

/-- Reads an integer written by `encInt`. -/
def decInt (cs : List Char) : Option (Int × List Char) :=
  match decNat cs with
  | none => none
  | some (a, r) =>
    match decNat r with
    | none => none
    | some (b, r2) => some ((a : Int) - (b : Int), r2)

/-- The code points of a character list, one after the other. -/
def encChars : List Char → List Char
  | [] => []
  | c :: cs => encNat c.toNat ++ encChars cs

/-- Reads `n` code points. -/
def decChars : Nat → List Char → Option (List Char × List Char)
  | 0, cs => some ([], cs)
  | n + 1, cs =>
    match decNat cs with
    | none => none
    | some (k, r) =>
      match decChars n r with
      | none => none
      | some (l, r2) => some (Char.ofNat k :: l, r2)

/-- A string: its length and its code points. -/
def encStr (s : String) : List Char := encNat s.data.length ++ encChars s.data

/-- Reads a string written by `encStr`. -/
def decStr (cs : List Char) : Option (String × List Char) :=
  match decNat cs with
  | none => none
  | some (n, r) =>
    match decChars n r with
    | none => none
    | some (l, r2) => some (String.mk l, r2)

/-- The claims segment of `refLib`. -/
def refEncodeClaims (c : JWTClaims) : List Char :=
  encNat c.UserID ++ (encStr c.UserType ++ (encStr c.WalletAddr ++
    (encStr c.StandardClaims.Audience ++ (encInt c.StandardClaims.ExpiresAt ++
    (encStr c.StandardClaims.Id ++ (encInt c.StandardClaims.IssuedAt ++
    (encStr c.StandardClaims.Issuer ++ (encInt c.StandardClaims.NotBefore ++
    encStr c.StandardClaims.Subject))))))))

/-- Reads a claims segment of `refLib`; the whole segment has to be consumed. -/
def refDecodeClaims (cs : List Char) : Option JWTClaims := do
  let (uid, r) ← decNat cs
  let (ut, r) ← decStr r
  let (wa, r) ← decStr r
  let (aud, r) ← decStr r
  let (exp, r) ← decInt r
  let (id, r) ← decStr r
  let (iat, r) ← decInt r
  let (iss, r) ← decStr r
  let (nbf, r) ← decInt r
  let (sub, r) ← decStr r
  if r = [] then
    some { UserID := uid, UserType := ut, WalletAddr := wa,
           StandardClaims :=
             { Audience := aud, ExpiresAt := exp, Id := id, IssuedAt := iat, Issuer := iss,
               NotBefore := nbf, Subject := sub } }
  else none

/-- The signature of `refLib`: the key, a mark, and the message without its dots. -/
def refMac (m k : String) : String :=
  String.mk ((k.data ++ '#' :: m.data).filter (fun c => c != '.'))

/-- A concrete instance of the library interface. -/
def refLib : JwtLib where
  encodeHeader := "HS256"
  encodeClaims := fun c => String.mk (refEncodeClaims c)
  sign := fun m k => .ok (refMac m k)
  decodeHeader := fun s => if s = "" then none else some (some s)
  decodeClaims := fun s =>
    match refDecodeClaims s.data with
    | some c => (c, true)
    | none => (JWTClaims.zero, false)
  methodAvailable := fun alg => alg == "HS256"
  verify := fun alg m s k => alg == "HS256" && s == refMac m k

/-! ## internal/middleware/auth.go and admin.go -/

/-- A value stored in the key map of a `gin.Context` (an `interface{}`). -/
inductive Value where
  | str (s : String)
  | uint (n : Nat)
  | claims (c : JWTClaims)
  deriving DecidableEq, Repr

/-- The key map `gin.Context.Keys`. -/
abbrev Keys := List (String × Value)

/-- The method `Context.Set`. -/
def Keys.Set (keys : Keys) (key : String) (v : Value) : Keys :=
  (key, v) :: keys.filter (fun kv => kv.1 != key)

/-- The method `Context.Get`. -/
def Keys.Get (keys : Keys) (key : String) : Option Value :=
  (keys.find? (fun kv => kv.1 == key)).map (fun kv => kv.2)

/-- What a middleware does with a request: it aborts with a status and an error
body, or it calls the next handler with the key map it has built, or it panics. -/
inductive Step where
  | abort (status : Nat) (error : APIError) (keys : Keys)
  | next (keys : Keys)
  | panic (text : String)
  deriving DecidableEq, Repr

/-- The handler returned by `JWT(jwtConfig)`.  `authHeader` is
`c.GetHeader("Authorization")`, `keys` the key map of the context on entry,
`nowParse` the clock reading (seconds) inside `ParseWithClaims` and `nowUnix`
the value of `time.Now().Unix()`. -/
def JWT (lib : JwtLib) (jwtConfig : JWTConfig) (nowParse nowUnix : Int) (authHeader : String)
    (keys : Keys) : Step :=
  if authHeader = "" then
    .abort StatusUnauthorized (NewUnauthorizedError "缺少认证信息" "未提供Authorization头") keys
  else
    match SplitN2 authHeader with
    | [scheme, tokenString] =>
      if scheme ≠ "Bearer" then
        .abort StatusUnauthorized
          (NewUnauthorizedError "认证格式错误" "Authorization头必须是Bearer格式") keys
      else
        let parsed := ParseWithClaims lib nowParse tokenString jwtConfig.Secret
        let claims := parsed.2
        let rejected : Bool :=
          match parsed.1 with
          | none => true
          | some token => !token.Valid && decide (claims.ExpiresAt = 0)
        if rejected then
          .abort StatusUnauthorized (NewUnauthorizedError "无效的token" "签名验证失败") keys
        else
          let gracePeriod : Int := 300
          if claims.ExpiresAt < wrapInt64 (nowUnix - gracePeriod) then
            .abort StatusUnauthorized (NewUnauthorizedError "无效的token" "token已超过宽限期过期")
              keys
          else
            let k1 := keys.Set "claims" (.claims claims)
            let k2 := k1.Set "user_id" (.uint claims.UserID)
            let k3 := k2.Set "user_type" (.str claims.UserType)
            let k4 := if claims.WalletAddr ≠ "" then k3.Set "wallet_addr" (.str claims.WalletAddr)
              else k3
            .next k4
    | _ =>
      .abort StatusUnauthorized
        (NewUnauthorizedError "认证格式错误" "Authorization头必须是Bearer格式") keys

/-- The function `GenerateJWT`.  `nowExp` and `nowIat` are its two readings of
`time.Now()`, in the order the source evaluates them. -/
def GenerateJWT (lib : JwtLib) (nowExp nowIat : Time) (userID : Nat) (userType walletAddr : String)
    (jwtConfig : JWTConfig) : Except String String :=
  let claims : JWTClaims :=
    { UserID := userID, UserType := userType, WalletAddr := walletAddr,
      StandardClaims :=
        { Audience := "",
          ExpiresAt := (nowExp.Add (wrapInt64 (Hour * jwtConfig.ExpireHours))).Unix,
          Id := "", IssuedAt := nowIat.Unix, Issuer := "", NotBefore := 0, Subject := "" } }
  SignedString lib claims jwtConfig.Secret

def UserTypeRegular : String := "regular"
def UserTypeAdmin : String := "admin"

/-- The handler returned by `AdminRequired()`. -/
def AdminRequired (keys : Keys) : Step :=
  match keys.Get "user_type" with
  | none => .abort StatusUnauthorized (NewUnauthorizedError "未授权" "请先登录") keys
  | some (.str userType) =>
    if userType ≠ UserTypeAdmin then
      .abort StatusForbidden (NewForbiddenError "权限不足" "需要管理员权限") keys
    else .next keys
  | some _ => .panic "interface conversion: interface is not string"

/-- The chain `adminRoutes.Use(JWT(jwtConfig)); adminRoutes.Use(AdminRequired())`
of `internal/module/admin/router.go`, on a fresh request context. -/
def adminChain (lib : JwtLib) (jwtConfig : JWTConfig) (nowParse nowUnix : Int)
    (authHeader : String) : Step :=
  match JWT lib jwtConfig nowParse nowUnix authHeader [] with
  | .next keys => AdminRequired keys
  | s => s

/-! ## internal/domain/user/user.go -/

/-- The struct `User`. -/
structure User where
  ID : Nat
  Username : String
  Email : String
  Password : String
  WalletAddr : String
  UserType : String
  CreatedAt : Time
  UpdatedAt : Time
  deriving DecidableEq, Repr

/-- The struct `CreateUserInput`. -/
structure CreateUserInput where
  Username : String
  Email : String
  Password : String
  WalletAddr : String
  deriving DecidableEq, Repr

/-- The struct `LoginUserInput`. -/
structure LoginUserInput where
  Email : String
  Password : String
  WalletAddr : String
  Message : String
  Signature : String
  deriving DecidableEq, Repr

/-- The struct `UserOutput`. -/
structure UserOutput where
  ID : Nat
  Username : String
  Email : String
  WalletAddr : String
  UserType : String
  CreatedAt : Time
  Token : String
  deriving DecidableEq, Repr

/-- The zero value of `time.Time` (1 January of year 1, UTC). -/
def zeroTime : Time := -62135596800000000000

/-! ## The table `users` behind gorm -/

/-- The struct `UserModel`: `gorm.Model` and the five columns. -/
structure UserModel where
  ID : Nat
  CreatedAt : Time
  UpdatedAt : Time
  DeletedAt : Option Time
  Username : String
  Email : String
  Password : String
  WalletAddr : String
  UserType : String
  deriving DecidableEq, Repr

/-- The database behind `*gorm.DB`: the rows of table `users` in primary-key
order (soft-deleted rows included), the auto-increment counter, and `fault`,
which is `some text` while every statement fails with that error (a lost
connection, say).  Column values are compared exactly. -/
structure DB where
  users : List UserModel
  autoIncrement : Nat
  fault : Option String
  deriving DecidableEq, Repr

/-- An error of gorm: `ErrRecordNotFound`, or another one. -/
inductive GormError where
  | ErrRecordNotFound
  | other (text : String)
  deriving DecidableEq, Repr

/-- The text of a gorm error. -/
def GormError.text : GormError → String
  | .ErrRecordNotFound => "record not found"
  | .other t => t

/-- The query `db.Where(cond).First(&model)`: the first row in primary-key order
that is not soft-deleted and meets the condition. -/
def DB.First (db : DB) (cond : UserModel → Bool) : Except GormError UserModel :=
  match db.fault with
  | some t => .error (.other t)
  | none =>
    match db.users.find? (fun m => m.DeletedAt.isNone && cond m) with
    | none => .error .ErrRecordNotFound
    | some m => .ok m

/-- Whether inserting `m` would break the primary key or one of the unique
indexes `idx_username`, `idx_email`, `idx_wallet_addr`. Soft-deleted rows count. -/
def DB.conflicts (db : DB) (m : UserModel) : Bool :=
  db.users.any (fun r =>
    r.ID == m.ID || r.Username == m.Username || r.Email == m.Email
      || r.WalletAddr == m.WalletAddr)

/-- Insertion of a row at its place in primary-key order. -/
def insertByID (m : UserModel) : List UserModel → List UserModel
  | [] => [m]
  | r :: rs => if m.ID < r.ID then m :: r :: rs else r :: insertByID m rs

/-- The row as the statement `db.Create(model)` stores it at clock reading
`now`: a zero `ID` is replaced by the next auto-increment value and zero time
stamps by `now`. -/
def DB.newRow (db : DB) (now : Time) (model : UserModel) : UserModel :=
  { model with
    ID := if model.ID = 0 then db.autoIncrement else model.ID
    CreatedAt := if model.CreatedAt = zeroTime then now else model.CreatedAt
    UpdatedAt := if model.UpdatedAt = zeroTime then now else model.UpdatedAt }

/-- Whether every text column of `m` holds its value: the widths are the ones
the tags of `UserModel` declare, `varchar(50)` for `username`, `varchar(100)`
for `email` and `password`, `varchar(42)` for `wallet_addr` and `varchar(20)`
for `user_type`, counted in characters. -/
def UserModel.fitsColumns (m : UserModel) : Bool :=
  decide (m.Username.length ≤ 50) && decide (m.Email.length ≤ 100)
    && decide (m.Password.length ≤ 100) && decide (m.WalletAddr.length ≤ 42)
    && decide (m.UserType.length ≤ 20)

/-- The statement `db.Create(model)` at clock reading `now`: the row is inserted
unless the connection fails, a value is longer than its column (which the
store refuses in its strict SQL mode) or a key is duplicated. A failed
statement leaves the table as it was. -/
def DB.Create (db : DB) (now : Time) (model : UserModel) : DB × Except GormError UserModel :=
  match db.fault with
  | some t => (db, .error (.other t))
  | none =>
    if !model.fitsColumns then
      (db, .error (.other "Error 1406: Data too long for column"))
    else if db.conflicts (db.newRow now model) then
      (db, .error (.other "Error 1062: Duplicate entry"))
    else
      ({ db with users := insertByID (db.newRow now model) db.users,
                 autoIncrement := max db.autoIncrement ((db.newRow now model).ID + 1) },
       .ok (db.newRow now model))

/-! ## internal/module/user/repository/user_repository.go -/

def domainToModel (u : User) : UserModel :=
  { ID := u.ID, CreatedAt := u.CreatedAt, UpdatedAt := u.UpdatedAt, DeletedAt := none,
    Username := u.Username, Email := u.Email, Password := u.Password,
    WalletAddr := u.WalletAddr, UserType := u.UserType }

def modelToDomain (m : UserModel) : User :=
  { ID := m.ID, Username := m.Username, Email := m.Email, Password := m.Password,
    WalletAddr := m.WalletAddr, UserType := m.UserType, CreatedAt := m.CreatedAt,
    UpdatedAt := m.UpdatedAt }

/-- The method `GormUserRepository.FindByID`. -/
def FindByID (db : DB) (id : Nat) : Except GoError User :=
  match db.First (fun m => m.ID == id) with
  | .error .ErrRecordNotFound =>
    .error (.api (NewNotFoundError "用户不存在" ("ID: " ++ toString id)))
  | .error e => .error (.other ("查询用户错误: " ++ e.text))
  | .ok m => .ok (modelToDomain m)

/-- The method `GormUserRepository.FindByEmail`. -/
def FindByEmail (db : DB) (email : String) : Except GoError User :=
  match db.First (fun m => m.Email == email) with
  | .error .ErrRecordNotFound =>
    .error (.api (NewNotFoundError "用户不存在" ("Email: " ++ email)))
  | .error e => .error (.other ("查询用户错误: " ++ e.text))
  | .ok m => .ok (modelToDomain m)

/-- The method `GormUserRepository.FindByWalletAddr`. -/
def FindByWalletAddr (db : DB) (walletAddr : String) : Except GoError User :=
  match db.First (fun m => m.WalletAddr == walletAddr) with
  | .error .ErrRecordNotFound =>
    .error (.api (NewNotFoundError "用户不存在" ("钱包地址: " ++ walletAddr)))
  | .error e => .error (.other ("查询用户错误: " ++ e.text))
  | .ok m => .ok (modelToDomain m)

/-- Whether `db.Where(cond).First(&UserModel{}).Error == nil`. -/
def DB.firstOk (db : DB) (cond : UserModel → Bool) : Bool :=
  match db.First cond with
  | .ok _ => true
  | .error _ => false

/-- The method `GormUserRepository.Create`: the database afterwards, and either
the error or the user with `ID`, `CreatedAt` and `UpdatedAt` filled in. -/
def Create (db : DB) (now : Time) (u : User) : DB × Except GoError User :=
  let model := domainToModel u
  match db.Create now model with
  | (db1, .error err) =>
    if db1.firstOk (fun m => m.Email == u.Email) then
      (db1, .error (.api (NewDuplicateEntityError "邮箱已被使用" u.Email)))
    else if u.WalletAddr ≠ "" && db1.firstOk (fun m => m.WalletAddr == u.WalletAddr) then
      (db1, .error (.api (NewDuplicateEntityError "钱包地址已被绑定" u.WalletAddr)))
    else if db1.firstOk (fun m => m.Username == u.Username) then
      (db1, .error (.api (NewDuplicateEntityError "用户名已被使用" u.Username)))
    else (db1, .error (.other ("创建用户错误: " ++ err.text)))
  | (db1, .ok row) =>
    (db1, .ok { u with ID := row.ID, CreatedAt := row.CreatedAt, UpdatedAt := row.UpdatedAt })

/-! ## The bcrypt library -/

/-- The two bcrypt functions the service calls. -/
structure Hasher where
  /-- `bcrypt.GenerateFromPassword(password, DefaultCost)`. -/
  GenerateFromPassword : String → Except String String
  /-- `bcrypt.CompareHashAndPassword(hash, password) == nil`. -/
  CompareHashAndPassword : String → String → Bool

/-- A concrete instance of `Hasher`, used to run the service on concrete input. -/
def refHasher : Hasher where
  GenerateFromPassword := fun p => .ok ("$2a$10$" ++ p)
  CompareHashAndPassword := fun h p => h == "$2a$10$" ++ p

/-! ## internal/module/user/service/user_service.go -/

/-- The method `DefaultUserService.Register`.  `nowDB` is the clock reading of
the insert, `nowExp` and `nowIat` those of `GenerateJWT`. -/
def Register (hs : Hasher) (lib : JwtLib) (jwtConfig : JWTConfig) (nowDB nowExp nowIat : Time)
    (db : DB) (input : CreateUserInput) : DB × Except GoError UserOutput :=
  match FindByEmail db input.Email with
  | .ok _ => (db, .error (.api (NewDuplicateEntityError "邮箱已被注册" input.Email)))
  | .error _ =>
    if input.WalletAddr ≠ "" && (FindByWalletAddr db input.WalletAddr).toBool then
      (db, .error (.api (NewDuplicateEntityError "钱包地址已被绑定" input.WalletAddr)))
    else
      match hs.GenerateFromPassword input.Password with
      | .error e => (db, .error (.other ("密码加密失败: " ++ e)))
      | .ok hashedPassword =>
        let newUser : User :=
          { ID := 0, Username := input.Username, Email := input.Email,
            Password := hashedPassword, WalletAddr := input.WalletAddr,
            UserType := UserTypeRegular, CreatedAt := zeroTime, UpdatedAt := zeroTime }
        match Create db nowDB newUser with
        | (db1, .error err) => (db1, .error err)
        | (db1, .ok newUser) =>
          match GenerateJWT lib nowExp nowIat newUser.ID newUser.UserType newUser.WalletAddr
              jwtConfig with
          | .error e => (db1, .error (.other ("生成token失败: " ++ e)))
          | .ok token =>
            (db1, .ok { ID := newUser.ID, Username := newUser.Username, Email := newUser.Email,
                        WalletAddr := newUser.WalletAddr, UserType := newUser.UserType,
                        CreatedAt := newUser.CreatedAt, Token := token })

/-- The credential check at the head of `Login`: the value of the pointer
`userEntity` when control reaches the token generation (`none` is nil), or the
error returned before. -/
def loginResolve (hs : Hasher) (db : DB) (input : LoginUserInput) : Except GoError (Option User) :=
  if input.Email ≠ "" && input.Password ≠ "" then
    match FindByEmail db input.Email with
    | .error _ => .error (.api (NewUnauthorizedError "登录失败" "邮箱或密码错误"))
    | .ok userEntity =>
      if hs.CompareHashAndPassword userEntity.Password input.Password then .ok (some userEntity)
      else .error (.api (NewUnauthorizedError "登录失败" "邮箱或密码错误"))
  else if input.WalletAddr ≠ "" && input.Message ≠ "" && input.Signature ≠ "" then
    .ok none
  else .error (.api (NewBadRequestError "登录失败" "请提供有效的登录凭证"))

/-- The method `DefaultUserService.Login`.  Reading a field of a nil
`userEntity` is a nil pointer dereference. -/
def Login (hs : Hasher) (lib : JwtLib) (jwtConfig : JWTConfig) (nowExp nowIat : Time) (db : DB)
    (input : LoginUserInput) : Outcome UserOutput :=
  match loginResolve hs db input with
  | .error e => .err e
  | .ok none => .panic "invalid memory address or nil pointer dereference"
  | .ok (some userEntity) =>
    match GenerateJWT lib nowExp nowIat userEntity.ID userEntity.UserType userEntity.WalletAddr
        jwtConfig with
    | .error e => .err (.other ("生成token失败: " ++ e))
    | .ok token =>
      .ok { ID := userEntity.ID, Username := userEntity.Username, Email := userEntity.Email,
            WalletAddr := userEntity.WalletAddr, UserType := userEntity.UserType,
            CreatedAt := userEntity.CreatedAt, Token := token }

/-- The method `DefaultUserService.GetUserByID`. -/
def GetUserByID (db : DB) (id : Nat) : Except GoError User := FindByID db id

/-! ## Derived notions used in the statements -/

/-- The key map the middleware hands on when it admits claims `c`: the four
`c.Set` calls at the end of `JWT`. -/
def attached (keys : Keys) (c : JWTClaims) : Keys :=
  let k3 := ((keys.Set "claims" (.claims c)).Set "user_id" (.uint c.UserID)).Set "user_type"
    (.str c.UserType)
  if c.WalletAddr ≠ "" then k3.Set "wallet_addr" (.str c.WalletAddr) else k3

/-- The first rejection test of `JWT`:
`token == nil || !token.Valid && claims.ExpiresAt == 0`. -/
def signatureRejected (parsed : Option Token × JWTClaims) : Bool :=
  match parsed.1 with
  | none => true
  | some token => !token.Valid && decide (parsed.2.ExpiresAt = 0)

/-- The library accepts the signature on `tok` under `key`: three segments, a
header that names an available method, a claims segment that decodes, and
`Verify` returns nil. -/
def signatureVerifies (lib : JwtLib) (tok key : String) : Bool :=
  match Split tok with
  | [p0, p1, p2] =>
    match lib.decodeHeader p0 with
    | some (some method) =>
      (lib.decodeClaims p1).2 && lib.methodAvailable method
        && lib.verify method (p0 ++ "." ++ p1) p2 key
    | _ => false
  | _ => false

/-- The claims value `ParseWithClaims` leaves behind for `tok`. -/
def tokenClaims (lib : JwtLib) (now : Int) (tok key : String) : JWTClaims :=
  (ParseWithClaims lib now tok key).2

/-! ## Concrete inputs -/

/-- The configuration of the server in the examples. -/
def serverConfig : JWTConfig := { Secret := "s3cret", ExpireHours := 24 }

/-- The token `GenerateJWT` of `refLib` issues for user 7 with role admin at
second 1700000000 under the key "attacker" (expires-at 1700086400). -/
def forgedToken : String :=
  "HS256.111;101;1000011;0010011;1011011;1001011;0111011;;;0000000101000010101010101010011;;;0000000010001111110010101010011;;;;;;.attacker#HS256111;101;1000011;0010011;1011011;1001011;0111011;;;0000000101000010101010101010011;;;0000000010001111110010101010011;;;;;;"

/-- The same claims, signed under the key of `serverConfig`. -/
def serverToken : String :=
  "HS256.111;101;1000011;0010011;1011011;1001011;0111011;;;0000000101000010101010101010011;;;0000000010001111110010101010011;;;;;;.s3cret#HS256111;101;1000011;0010011;1011011;1001011;0111011;;;0000000101000010101010101010011;;;0000000010001111110010101010011;;;;;;"

/-- The claims carried by `forgedToken` and `serverToken`. -/
def adminClaims : JWTClaims :=
  { UserID := 7, UserType := "admin", WalletAddr := "",
    StandardClaims :=
      { Audience := "", ExpiresAt := 1700086400, Id := "", IssuedAt := 1700000000, Issuer := "",
        NotBefore := 0, Subject := "" } }

/-- A token of `refLib` signed under the server key whose claims carry no
expires-at. -/
def noExpiryToken : String :=
  "HS256.111;101;1000011;0010011;1011011;1001011;0111011;;;;;;0000000010001111110010101010011;;;;;;.s3cret#HS256111;101;1000011;0010011;1011011;1001011;0111011;;;;;;0000000010001111110010101010011;;;;;;"

/-- The token `GenerateJWT` of `refLib` issues for user 7 with role regular and
wallet address 0xabc at second 1700000000 under the server key. -/
def regularToken : String :=
  "HS256.111;111;0100111;1010011;1110011;1010111;0011011;1000011;0100111;101;000011;0001111;1000011;0100011;1100011;;0000000101000010101010101010011;;;0000000010001111110010101010011;;;;;;.s3cret#HS256111;111;0100111;1010011;1110011;1010111;0011011;1000011;0100111;101;000011;0001111;1000011;0100011;1100011;;0000000101000010101010101010011;;;0000000010001111110010101010011;;;;;;"

/-- The claims carried by `regularToken`. -/
def regularClaims : JWTClaims :=
  { UserID := 7, UserType := "regular", WalletAddr := "0xabc",
    StandardClaims :=
      { Audience := "", ExpiresAt := 1700086400, Id := "", IssuedAt := 1700000000, Issuer := "",
        NotBefore := 0, Subject := "" } }

/-- A configuration whose `ExpireHours` exceeds what a `time.Duration` holds. -/
def overflowConfig : JWTConfig := { Secret := "s3cret", ExpireHours := 2562048 }

/-- The token `GenerateJWT` of `refLib` issues under `overflowConfig` for user 7
with role regular at second 1700000000. -/
def overflowToken : String :=
  "HS256.111;111;0100111;1010011;1110011;1010111;0011011;1000011;0100111;;;;010100001001000110110110000000111;;0000000010001111110010101010011;;;;;;.s3cret#HS256111;111;0100111;1010011;1110011;1010111;0011011;1000011;0100111;;;;010100001001000110110110000000111;;0000000010001111110010101010011;;;;;;"

/-- The claims `GenerateJWT` builds: what `issue` stamps into the token. -/
def issuedClaims (nowExp nowIat : Time) (userID : Nat) (userType walletAddr : String)
    (jwtConfig : JWTConfig) : JWTClaims :=
  { UserID := userID, UserType := userType, WalletAddr := walletAddr,
    StandardClaims :=
      { Audience := "",
        ExpiresAt := (nowExp.Add (wrapInt64 (Hour * jwtConfig.ExpireHours))).Unix,
        Id := "", IssuedAt := nowIat.Unix, Issuer := "", NotBefore := 0, Subject := "" } }

/-- An empty table over a working connection. -/
def emptyDB : DB := { users := [], autoIncrement := 1, fault := none }

/-- The table after alice registered with password "password1" through
`refHasher` at clock reading 1700000000000000000. -/
def aliceDB : DB :=
  { users :=
      [{ ID := 1, CreatedAt := 1700000000000000000, UpdatedAt := 1700000000000000000,
         DeletedAt := none, Username := "alice", Email := "a@x.io",
         Password := "$2a$10$password1", WalletAddr := "", UserType := "regular" }],
    autoIncrement := 2, fault := none }

/-- The token `GenerateJWT` of `refLib` issues for user 1 with role regular at
second 1700000000 under the server key. -/
def aliceToken : String :=
  "HS256.1;111;0100111;1010011;1110011;1010111;0011011;1000011;0100111;;;0000000101000010101010101010011;;;0000000010001111110010101010011;;;;;;.s3cret#HS2561;111;0100111;1010011;1110011;1010111;0011011;1000011;0100111;;;0000000101000010101010101010011;;;0000000010001111110010101010011;;;;;;"

/-- The registration input of alice. -/
def aliceInput : CreateUserInput :=
  { Username := "alice", Email := "a@x.io", Password := "password1", WalletAddr := "" }

/-- A password login of alice. -/
def aliceLogin : LoginUserInput :=
  { Email := "a@x.io", Password := "password1", WalletAddr := "", Message := "", Signature := "" }

/-- A password login for the email of alice with another password. -/
def wrongLogin : LoginUserInput :=
  { Email := "a@x.io", Password := "password2", WalletAddr := "", Message := "", Signature := "" }

/-- What `Register` and `Login` return for alice at clock reading
1700000000000000000. -/
def aliceOutput : UserOutput :=
  { ID := 1, Username := "alice", Email := "a@x.io", WalletAddr := "", UserType := "regular",
    CreatedAt := 1700000000000000000, Token := aliceToken }

/-- The identity of alice as the store returns it. -/
def aliceUser : User :=
  { ID := 1, Username := "alice", Email := "a@x.io", Password := "$2a$10$password1",
    WalletAddr := "", UserType := "regular", CreatedAt := 1700000000000000000,
    UpdatedAt := 1700000000000000000 }

/-! ## gorm: Save -/

/-- Whether storing `m` would break one of the unique indexes against a row
with another primary key. Soft-deleted rows count. -/
def DB.conflictsOther (db : DB) (m : UserModel) : Bool :=
  db.users.any (fun r =>
    r.ID != m.ID && (r.Username == m.Username || r.Email == m.Email
      || r.WalletAddr == m.WalletAddr))

/-- The row as the statement `db.Save(model)` leaves it at clock reading `now`,
given the row that has the primary key already (if any): `updated_at` becomes
`now`; an update of a live row writes every column; the upsert that gorm falls
back to when no live row was updated keeps `created_at` of a row that is there
and fills a zero `created_at` of a new one. -/
def DB.savedRow (now : Time) (model : UserModel) (existing : Option UserModel) : UserModel :=
  match existing with
  | some r =>
    if r.DeletedAt.isNone then { model with UpdatedAt := now }
    else { model with UpdatedAt := now, CreatedAt := r.CreatedAt }
  | none =>
    { model with
      UpdatedAt := now
      CreatedAt := if model.CreatedAt = zeroTime then now else model.CreatedAt }

/-- The statement `db.Save(model)` at clock reading `now`: a zero primary key
means `Create`; otherwise the row with that key is replaced (or inserted when
there is none), unless the connection fails, a value is longer than its column
or a unique index is broken. The model handed back carries the new
`updated_at`. -/
def DB.Save (db : DB) (now : Time) (model : UserModel) : DB × Except GormError UserModel :=
  if model.ID = 0 then db.Create now model
  else
    match db.fault with
    | some t => (db, .error (.other t))
    | none =>
      if !model.fitsColumns then
        (db, .error (.other "Error 1406: Data too long for column"))
      else if db.conflictsOther model then
        (db, .error (.other "Error 1062: Duplicate entry"))
      else
        let stored := DB.savedRow now model (db.users.find? (fun r => r.ID == model.ID))
        ({ db with users := insertByID stored (db.users.filter (fun r => r.ID != model.ID)),
                   autoIncrement := max db.autoIncrement (model.ID + 1) },
         .ok { model with UpdatedAt := now })

/-- The method `GormUserRepository.Update`. -/
def Update (db : DB) (now : Time) (u : User) : DB × Except GoError User :=
  match db.Save now (domainToModel u) with
  | (db1, .error err) => (db1, .error (.other ("更新用户错误: " ++ err.text)))
  | (db1, .ok model) => (db1, .ok { u with UpdatedAt := model.UpdatedAt })

/-- The statement `db.Delete(&UserModel{}, id)` at clock reading `now`: the
model embeds `gorm.Model`, which has `DeletedAt`, so the live row with the key
is not removed but gets `deleted_at = now`. -/
def DB.Delete (db : DB) (now : Time) (id : Nat) : DB × Option GormError :=
  match db.fault with
  | some t => (db, some (.other t))
  | none =>
    ({ db with users := db.users.map (fun r =>
        if r.ID == id && r.DeletedAt.isNone then { r with DeletedAt := some now } else r) },
     none)

/-- The method `GormUserRepository.Delete`: the database afterwards and the
error, if any. -/
def Delete (db : DB) (now : Time) (id : Nat) : DB × Option GoError :=
  match db.Delete now id with
  | (db1, some err) => (db1, some (.other ("删除用户错误: " ++ err.text)))
  | (db1, none) => (db1, none)

/-! ## internal/module/admin/service/admin_service.go -/

/-- A value of a decoded JSON object (`interface{}`): a string, or anything
else, of which the text is kept. -/
inductive JSONValue where
  | str (s : String)
  | nonString (text : String)
  deriving DecidableEq, Repr

/-- The payload `map[string]interface{}`: the value under each key, if any. -/
abbrev UserData := String → Option JSONValue

/-- The test `v, ok := userData[key].(string); ok && v != ""`: the string when it
passes. -/
def UserData.nonEmptyString (userData : UserData) (key : String) : Option String :=
  match userData key with
  | some (.str s) => if s ≠ "" then some s else none
  | _ => none

/-- The method `DefaultAdminService.UpdateUser`. -/
def UpdateUser (db : DB) (now : Time) (id : Nat) (userData : UserData) :
    DB × Except GoError User :=
  match FindByID db id with
  | .error err => (db, .error err)
  | .ok userEntity =>
    let u1 : User :=
      match userData.nonEmptyString "username" with
      | some username => { userEntity with Username := username }
      | none => userEntity
    let u2 : User :=
      match userData.nonEmptyString "email" with
      | some email => { u1 with Email := email }
      | none => u1
    let u3 : User :=
      match userData.nonEmptyString "user_type" with
      | some userType => { u2 with UserType := userType }
      | none => u2
    let u4 : User :=
      match userData.nonEmptyString "wallet_addr" with
      | some walletAddr => { u3 with WalletAddr := walletAddr }
      | none => u3
    Update db now u4

/-! ## The handlers: handleError -/

/-- The method `APIError.Error`. -/
def APIError.Error (e : APIError) : String :=
  if e.Detail ≠ "" then e.Code ++ ": " ++ e.Message ++ " (" ++ e.Detail ++ ")"
  else e.Code ++ ": " ++ e.Message

/-- The method `Error` of a Go error. -/
def GoError.Error : GoError → String
  | .api e => e.Error
  | .other text => text

/-- The JSON object an `APIError` is serialised to: `code`, `message`, and
`detail` unless it is empty (`omitempty`); `Status` is not serialised. -/
structure ErrorBody where
  code : String
  message : String
  detail : Option String
  deriving DecidableEq, Repr

/-- The JSON encoding of an `APIError`. -/
def APIError.toJSON (e : APIError) : ErrorBody :=
  { code := e.Code, message := e.Message, detail := if e.Detail = "" then none else some e.Detail }

/-- The response `c.JSON(status, gin.H("error": body))`. -/
structure Response where
  status : Nat
  error : ErrorBody
  deriving DecidableEq, Repr

/-- The function `handleError` of the admin handler and the method of the same
name and body of the user handler. -/
def handleError (err : GoError) : Response :=
  match err with
  | .api apiErr => { status := apiErr.Status, error := apiErr.toJSON }
  | .other _ =>
    { status := StatusInternalServerError,
      error := (NewInternalServerError "服务器内部错误" err.Error).toJSON }

/-! ## Register in two parts -/

/-- The two lookups at the head of `Register` (lines 43 to 55): the error they
return, if any. -/
def registerPrecheck (db : DB) (input : CreateUserInput) : Option GoError :=
  match FindByEmail db input.Email with
  | .ok _ => some (.api (NewDuplicateEntityError "邮箱已被注册" input.Email))
  | .error _ =>
    if input.WalletAddr ≠ "" && (FindByWalletAddr db input.WalletAddr).toBool then
      some (.api (NewDuplicateEntityError "钱包地址已被绑定" input.WalletAddr))
    else none

/-- The user `Register` builds from the input and the hash. -/
def registerUser (input : CreateUserInput) (hashedPassword : String) : User :=
  { ID := 0, Username := input.Username, Email := input.Email, Password := hashedPassword,
    WalletAddr := input.WalletAddr, UserType := UserTypeRegular, CreatedAt := zeroTime,
    UpdatedAt := zeroTime }

/-- The rest of `Register` (lines 57 to 92), run on the store as it is at the
time of the insert. -/
def registerInsert (hs : Hasher) (lib : JwtLib) (jwtConfig : JWTConfig)
    (nowDB nowExp nowIat : Time) (db : DB) (input : CreateUserInput) :
    DB × Except GoError UserOutput :=
  match hs.GenerateFromPassword input.Password with
  | .error e => (db, .error (.other ("密码加密失败: " ++ e)))
  | .ok hashedPassword =>
    match Create db nowDB (registerUser input hashedPassword) with
    | (db1, .error err) => (db1, .error err)
    | (db1, .ok newUser) =>
      match GenerateJWT lib nowExp nowIat newUser.ID newUser.UserType newUser.WalletAddr
          jwtConfig with
      | .error e => (db1, .error (.other ("生成token失败: " ++ e)))
      | .ok token =>
        (db1, .ok { ID := newUser.ID, Username := newUser.Username, Email := newUser.Email,
                    WalletAddr := newUser.WalletAddr, UserType := newUser.UserType,
                    CreatedAt := newUser.CreatedAt, Token := token })

/-! ## More derived notions -/

/-- A live row of the table meets the condition. -/
def DB.hasLive (db : DB) (cond : UserModel → Bool) : Prop :=
  ∃ m ∈ db.users, m.DeletedAt = none ∧ cond m = true

/-- Every stored role is regular or admin. -/
def DB.rolesValid (db : DB) : Prop :=
  ∀ m ∈ db.users, m.UserType = UserTypeRegular ∨ m.UserType = UserTypeAdmin

/-- HS256 signing with a byte-string key does not fail. -/
def JwtLib.signs (lib : JwtLib) : Prop := ∀ m k, ∃ s, lib.sign m k = .ok s

/-- The error is a taxonomy error carrying one of the defined codes. -/
def GoError.isTaxonomy : GoError → Bool
  | .api e =>
    [ErrorCodeBadRequest, ErrorCodeUnauthorized, ErrorCodeForbidden, ErrorCodeNotFound,
      ErrorCodeInternalServerError, ErrorCodeValidationFailed, ErrorCodeDuplicateEntity,
      ErrorCodeWeb3SignatureError].contains e.Code
  | .other _ => false

/-- The error `GormUserRepository.Create` returns when the insert failed with
`err`: the three lookups of lines 108 to 117 on the store `db`. -/
def createFailure (db : DB) (u : User) (err : GormError) : GoError :=
  if db.firstOk (fun m => m.Email == u.Email) then
    .api (NewDuplicateEntityError "邮箱已被使用" u.Email)
  else if u.WalletAddr ≠ "" && db.firstOk (fun m => m.WalletAddr == u.WalletAddr) then
    .api (NewDuplicateEntityError "钱包地址已被绑定" u.WalletAddr)
  else if db.firstOk (fun m => m.Username == u.Username) then
    .api (NewDuplicateEntityError "用户名已被使用" u.Username)
  else .other ("创建用户错误: " ++ err.text)

/-! ## More concrete inputs -/

/-- The wallet address of bob. -/
def bobWallet : String := "0x52908400098527886E0F7030069857D2E4169EE7"

/-- The row of bob, who has a wallet address. -/
def bobRow : UserModel :=
  { ID := 2, CreatedAt := 1700000500000000000, UpdatedAt := 1700000500000000000,
    DeletedAt := none, Username := "bob", Email := "b@x.io", Password := "$2a$10$password2",
    WalletAddr := bobWallet, UserType := "regular" }

/-- The table that holds alice and bob. -/
def twoDB : DB :=
  { users := aliceDB.users ++ [bobRow], autoIncrement := 3, fault := none }

/-- A registration input that collides with alice on the email and with bob on
the username and the wallet address. -/
def clashAll : CreateUserInput :=
  { Username := "bob", Email := "a@x.io", Password := "password3", WalletAddr := bobWallet }

/-- A registration input with a free email that collides with bob on the
username and the wallet address. -/
def clashBob : CreateUserInput :=
  { Username := "bob", Email := "c@x.io", Password := "password3", WalletAddr := bobWallet }

/-- A wallet login for the wallet address of bob. -/
def walletLogin : LoginUserInput :=
  { Email := "", Password := "", WalletAddr := bobWallet, Message := "Sign in to the shop",
    Signature := "0x5f2c" }

/-- A login input with an email only. -/
def emailOnlyLogin : LoginUserInput :=
  { Email := "a@x.io", Password := "", WalletAddr := "", Message := "", Signature := "" }

/-- The identity of bob as the store returns it. -/
def bobUser : User := modelToDomain bobRow

/-- An admin payload that sets the role to the string root. -/
def rootPayload : UserData := fun key => if key = "user_type" then some (.str "root") else none

/-- The table after the admin update of alice with `rootPayload` at clock
reading 1700000900000000000. -/
def rootDB : DB :=
  { users :=
      [{ ID := 1, CreatedAt := 1700000000000000000, UpdatedAt := 1700000900000000000,
         DeletedAt := none, Username := "alice", Email := "a@x.io",
         Password := "$2a$10$password1", WalletAddr := "", UserType := "root" }],
    autoIncrement := 2, fault := none }

/-- A store whose connection is lost. -/
def faultyDB : DB :=
  { users := aliceDB.users, autoIncrement := 2,
    fault := some "dial tcp 10.0.0.5:3306: connect: connection refused" }

/-- The four conditional assignments of `UpdateUser` (lines 93 to 104), applied
to the user that was loaded. -/
def patchUser (userEntity : User) (userData : UserData) : User :=
  { userEntity with
    Username := (userData.nonEmptyString "username").getD userEntity.Username
    Email := (userData.nonEmptyString "email").getD userEntity.Email
    UserType := (userData.nonEmptyString "user_type").getD userEntity.UserType
    WalletAddr := (userData.nonEmptyString "wallet_addr").getD userEntity.WalletAddr }

/-- An admin payload that sets the role to admin. -/
def adminPayload : UserData := fun key => if key = "user_type" then some (.str "admin") else none

/-- The registration input of carol, who like alice gives no wallet address. -/
def carolInput : CreateUserInput :=
  { Username := "carol", Email := "c@x.io", Password := "password4", WalletAddr := "" }

/-- An admin payload with a new username, an empty email, a number as role and
no wallet address. -/
def mixedPayload : UserData := fun key =>
  if key = "username" then some (.str "alice2")
  else if key = "email" then some (.str "")
  else if key = "user_type" then some (.nonString "7")
  else none

/-! ## Two concurrent calls of Register

`Register` touches the store in single statements: the lookup by email, the
lookup by wallet address, the insert, and after a failed insert the three
lookups of `GormUserRepository.Create`. Each statement is atomic in the store;
between two statements of one call a statement of another call may run. -/

/-- One call of `Register`: the service it runs in, its clock readings and its
input. -/
structure RegCall where
  hs : Hasher
  lib : JwtLib
  jwtConfig : JWTConfig
  nowDB : Time
  nowExp : Time
  nowIat : Time
  input : CreateUserInput

/-- Where a call of `Register` stands between two statements on the store. -/
inductive RegTask where
  /-- Before the lookup by email (line 44). -/
  | findEmail
  /-- Before the lookup by wallet address (lines 50 to 55). -/
  | findWallet
  /-- Before the hash and the insert (lines 58 to 73). -/
  | insert
  /-- The insert of `u` failed with `err`; before the lookup of line 108. -/
  | lookupEmail (u : User) (err : GormError)
  /-- Before the lookup of line 111. -/
  | lookupWallet (u : User) (err : GormError)
  /-- Before the lookup of line 114. -/
  | lookupUsername (u : User) (err : GormError)
  /-- The call has returned. -/
  | done (result : Except GoError UserOutput)

/-- The next statement of a call on the store as it is now, and where the call
stands afterwards. A call that has returned stays where it is. -/
def RegCall.step (c : RegCall) (db : DB) : RegTask → DB × RegTask
  | .findEmail =>
    match FindByEmail db c.input.Email with
    | .ok _ => (db, .done (.error (.api (NewDuplicateEntityError "邮箱已被注册" c.input.Email))))
    | .error _ => (db, .findWallet)
  | .findWallet =>
    if c.input.WalletAddr ≠ "" && (FindByWalletAddr db c.input.WalletAddr).toBool then
      (db, .done (.error (.api (NewDuplicateEntityError "钱包地址已被绑定" c.input.WalletAddr))))
    else (db, .insert)
  | .insert =>
    match c.hs.GenerateFromPassword c.input.Password with
    | .error e => (db, .done (.error (.other ("密码加密失败: " ++ e))))
    | .ok hashedPassword =>
      match db.Create c.nowDB (domainToModel (registerUser c.input hashedPassword)) with
      | (db1, .error err) => (db1, .lookupEmail (registerUser c.input hashedPassword) err)
      | (db1, .ok row) =>
        match GenerateJWT c.lib c.nowExp c.nowIat row.ID UserTypeRegular c.input.WalletAddr
            c.jwtConfig with
        | .error e => (db1, .done (.error (.other ("生成token失败: " ++ e))))
        | .ok token =>
          (db1, .done (.ok { ID := row.ID, Username := c.input.Username, Email := c.input.Email,
                             WalletAddr := c.input.WalletAddr, UserType := UserTypeRegular,
                             CreatedAt := row.CreatedAt, Token := token }))
  | .lookupEmail u err =>
    if db.firstOk (fun m => m.Email == u.Email) then
      (db, .done (.error (.api (NewDuplicateEntityError "邮箱已被使用" u.Email))))
    else (db, .lookupWallet u err)
  | .lookupWallet u err =>
    if u.WalletAddr ≠ "" && db.firstOk (fun m => m.WalletAddr == u.WalletAddr) then
      (db, .done (.error (.api (NewDuplicateEntityError "钱包地址已被绑定" u.WalletAddr))))
    else (db, .lookupUsername u err)
  | .lookupUsername u err =>
    if db.firstOk (fun m => m.Username == u.Username) then
      (db, .done (.error (.api (NewDuplicateEntityError "用户名已被使用" u.Username))))
    else (db, .done (.error (.other ("创建用户错误: " ++ err.text))))
  | .done result => (db, .done result)

/-- `n` statements of one call in a row. -/
def RegCall.run (c : RegCall) : Nat → DB × RegTask → DB × RegTask
  | 0, s => s
  | n + 1, s => RegCall.run c n (c.step s.1 s.2)

/-- One statement of call `a` (when `first` is true) or of call `b`, on the
shared store. -/
def stepPair (a b : RegCall) (first : Bool) (s : DB × RegTask × RegTask) :
    DB × RegTask × RegTask :=
  if first then ((a.step s.1 s.2.1).1, (a.step s.1 s.2.1).2, s.2.2)
  else ((b.step s.1 s.2.2).1, s.2.1, (b.step s.1 s.2.2).2)

/-- The two calls run under a schedule that says whose statement is next. -/
def runSchedule (a b : RegCall) (schedule : List Bool) (s : DB × RegTask × RegTask) :
    DB × RegTask × RegTask :=
  schedule.foldl (fun st first => stepPair a b first st) s

/-- An interleaving of two calls started on `db`: the statements are taken in
the order of `schedule`, and what is left of either call afterwards is run to
its end (a call has at most six statements). -/
def interleave (a b : RegCall) (schedule : List Bool) (db : DB) : DB × RegTask × RegTask :=
  runSchedule a b (schedule ++ List.replicate 6 true ++ List.replicate 6 false)
    (db, .findEmail, .findEmail)

/-- No row of the table has the next auto-increment key, the username, the
email or the wallet address of the input. -/
def DB.freshFor (db : DB) (input : CreateUserInput) : Prop :=
  ∀ r ∈ db.users, r.ID ≠ db.autoIncrement ∧ r.Username ≠ input.Username
    ∧ r.Email ≠ input.Email ∧ r.WalletAddr ≠ input.WalletAddr

/-- The call of dave, who registers with a wallet address. -/
def daveCall : RegCall :=
  { hs := refHasher, lib := refLib, jwtConfig := serverConfig,
    nowDB := 1700000900000000000, nowExp := 1700000900000000000,
    nowIat := 1700000900000000000,
    input := { Username := "dave", Email := "d@x.io", Password := "password5",
               WalletAddr := bobWallet } }

/-- The call of erin, who registers with the same wallet address. -/
def erinCall : RegCall :=
  { hs := refHasher, lib := refLib, jwtConfig := serverConfig,
    nowDB := 1700000900000000001, nowExp := 1700000900000000001,
    nowIat := 1700000900000000001,
    input := { Username := "erin", Email := "e@x.io", Password := "password6",
               WalletAddr := bobWallet } }

/-- The row a call inserts into `db` when its password hash is `hashed`. -/
def RegCall.row (c : RegCall) (db : DB) (hashed : String) : UserModel :=
  db.newRow c.nowDB (domainToModel (registerUser c.input hashed))

/-- The store after the insert of a call into `db` succeeded. -/
def RegCall.after (c : RegCall) (db : DB) (hashed : String) : DB :=
  { db with users := insertByID (c.row db hashed) db.users,
            autoIncrement := max db.autoIncrement ((c.row db hashed).ID + 1) }

/-- The error of a call that finds its wallet address taken. -/
def RegCall.walletTaken (c : RegCall) : Except GoError UserOutput :=
  .error (.api (NewDuplicateEntityError "钱包地址已被绑定" c.input.WalletAddr))

/-- The setting of two calls that race for one wallet address on the store
`db`: the connection works, the store is fresh for both inputs, the inputs
carry the same non-empty wallet address and different emails, the hashes are
made (`hashedA`, `hashedB`), the rows to insert fit their columns and signing
does not fail. -/
structure Race (a b : RegCall) (db : DB) (hashedA hashedB : String) : Prop where
  conn : db.fault = none
  freshA : db.freshFor a.input
  freshB : db.freshFor b.input
  fitsA : (domainToModel (registerUser a.input hashedA)).fitsColumns = true
  fitsB : (domainToModel (registerUser b.input hashedB)).fitsColumns = true
  wallet : a.input.WalletAddr = b.input.WalletAddr
  present : a.input.WalletAddr ≠ ""
  email : a.input.Email ≠ b.input.Email
  hashA : a.hs.GenerateFromPassword a.input.Password = .ok hashedA
  hashB : b.hs.GenerateFromPassword b.input.Password = .ok hashedB
  signA : a.lib.signs
  signB : b.lib.signs

/-- Where a call can stand while nothing has been inserted. -/
def Early (t : RegTask) : Prop := t = .findEmail ∨ t = .findWallet ∨ t = .insert

/-- Where a call can stand once the other call has inserted its row. -/
def Late (c : RegCall) (hashed : String) (t : RegTask) : Prop :=
  t = .findEmail ∨ t = .findWallet ∨ t = .insert
    ∨ (∃ err, t = .lookupEmail (registerUser c.input hashed) err)
    ∨ (∃ err, t = .lookupWallet (registerUser c.input hashed) err)
    ∨ t = .done c.walletTaken

/-- The states two racing calls can be in: nothing inserted yet, or one of
them has inserted and returned and the other has not succeeded. -/
def RaceInv (a b : RegCall) (db : DB) (hashedA hashedB : String)
    (s : DB × RegTask × RegTask) : Prop :=
  (s.1 = db ∧ Early s.2.1 ∧ Early s.2.2)
  ∨ (s.1 = a.after db hashedA ∧ (∃ out, s.2.1 = .done (.ok out)) ∧ Late b hashedB s.2.2)
  ∨ (s.1 = b.after db hashedB ∧ Late a hashedA s.2.1 ∧ (∃ out, s.2.2 = .done (.ok out)))

/-- An upper bound on the statements a call still has to run. -/
def RegTask.rank : RegTask → Nat
  | .findEmail => 6
  | .findWallet => 5
  | .insert => 4
  | .lookupEmail _ _ => 3
  | .lookupWallet _ _ => 2
  | .lookupUsername _ _ => 1
  | .done _ => 0

/-! ## More concrete stores and inputs -/

/-- The table after alice registered and was deleted at clock reading
1700000600000000000: the row is still there, with `deleted_at` set. -/
def deletedDB : DB :=
  { users :=
      [{ ID := 1, CreatedAt := 1700000000000000000, UpdatedAt := 1700000000000000000,
         DeletedAt := some 1700000600000000000, Username := "alice", Email := "a@x.io",
         Password := "$2a$10$password1", WalletAddr := "", UserType := "regular" }],
    autoIncrement := 2, fault := none }

/-- A registration input with the email of alice, another username and a wallet
address. -/
def aliciaInput : CreateUserInput :=
  { Username := "alicia", Email := "a@x.io", Password := "password7", WalletAddr := bobWallet }

/-- A registration input with the username of bob, a free email and a free
wallet address. -/
def robertInput : CreateUserInput :=
  { Username := "bob", Email := "r@x.io", Password := "password8",
    WalletAddr := "0xde709f2102306220921060314715629080e2fb77" }

/-- An email address of 101 characters: 96 times the character, then "@x.io". -/
def longEmail (c : Char) : String := String.mk (List.replicate 96 c) ++ "@x.io"

/-- The call of dave with an email address of 101 characters. -/
def daveLongCall : RegCall :=
  { daveCall with input := { daveCall.input with Email := longEmail 'd' } }

/-- The call of erin with an email address of 101 characters. -/
def erinLongCall : RegCall :=
  { erinCall with input := { erinCall.input with Email := longEmail 'e' } }

/-! # Theorems -/

/-! ## Strings and machine integers -/

theorem bearer_data (tok : String) :
    ("Bearer " ++ tok).data = 'B' :: 'e' :: 'a' :: 'r' :: 'e' :: 'r' :: ' ' :: tok.data := by
  simp [String.data_append]

theorem bearer_ne_empty (tok : String) : "Bearer " ++ tok ≠ "" := by
  intro h
  have := congrArg String.data h
  rw [bearer_data] at this
  simp at this

theorem bearer_assoc (tok : String) : "Bearer" ++ " " ++ tok = "Bearer " ++ tok := by
  apply String.ext
  simp [String.data_append]

theorem SplitN2_bearer (tok : String) : SplitN2 ("Bearer " ++ tok) = ["Bearer", tok] := by
  unfold SplitN2
  rw [bearer_data]
  simp [List.span, List.span.loop]

/-- The result of `SplitN2` has two parts only when the string is the first
part, a space, and the second part. -/
theorem SplitN2_two (s a b : String) (h : SplitN2 s = [a, b]) : s = a ++ " " ++ b := by
  unfold SplitN2 at h
  rw [List.span_eq_take_drop] at h
  have hcat := List.takeWhile_append_dropWhile (fun c => c != ' ') s.data
  cases hd : List.dropWhile (fun c => c != ' ') s.data with
  | nil => simp [hd] at h
  | cons c y =>
    have hc := List.head_dropWhile_not (fun c => c != ' ') s.data (by simp [hd])
    simp only [hd, List.head_cons] at hc
    have hc2 : c = ' ' := by simpa using hc
    rw [hd] at h hcat
    simp only [List.cons.injEq, and_true] at h
    obtain ⟨ha, hb⟩ := h
    apply String.ext
    rw [← ha, ← hb]
    simp only [String.data_append]
    rw [hc2] at hcat
    simpa using hcat.symm

theorem splitChars_no_sep (sep : Char) (l : List Char) (h : sep ∉ l) :
    splitChars sep l = [l] := by
  induction l with
  | nil => rfl
  | cons c cs ih =>
    have hc : c ≠ sep := fun e => h (by simp [e])
    have hcs : sep ∉ cs := fun e => h (List.mem_cons_of_mem _ e)
    simp [splitChars, hc, ih hcs]

theorem splitChars_append (sep : Char) (a r : List Char) (h : sep ∉ a) :
    splitChars sep (a ++ sep :: r) = a :: splitChars sep r := by
  induction a with
  | nil => simp [splitChars]
  | cons c cs ih =>
    have hc : c ≠ sep := fun e => h (by simp [e])
    have hcs : sep ∉ cs := fun e => h (List.mem_cons_of_mem _ e)
    simp [splitChars, hc, ih hcs]

/-- A token assembled from three dot-free segments splits into them. -/
theorem Split_three (a b c : String) (ha : '.' ∉ a.data) (hb : '.' ∉ b.data)
    (hc : '.' ∉ c.data) : Split (a ++ "." ++ b ++ "." ++ c) = [a, b, c] := by
  unfold Split
  have hd : (a ++ "." ++ b ++ "." ++ c).data = a.data ++ '.' :: (b.data ++ '.' :: c.data) := by
    simp [String.data_append]
  rw [hd, splitChars_append _ _ _ ha, splitChars_append _ _ _ hb, splitChars_no_sep _ _ hc]
  rfl

theorem wrapInt64_eq (x : Int) (h1 : -(2 ^ 63) ≤ x) (h2 : x < 2 ^ 63) : wrapInt64 x = x := by
  unfold wrapInt64
  omega

/-! ## The key map -/

theorem Keys.Get_Set_same (keys : Keys) (k : String) (v : Value) :
    (keys.Set k v).Get k = some v := by
  simp [Keys.Get, Keys.Set]

theorem Keys.Get_Set_other (keys : Keys) (k k2 : String) (v : Value) (h : k2 ≠ k) :
    (keys.Set k v).Get k2 = keys.Get k2 := by
  have h1 : (k == k2) = false := by
    simp only [beq_eq_false_iff_ne, ne_eq]
    exact fun e => h e.symm
  have h2 : (fun (a : String × Value) => decide ((a.1 != k) = true ∧ (a.1 == k2) = true))
      = fun a => a.1 == k2 := by
    funext a
    by_cases e : a.1 = k2
    · simp [e, h]
    · simp [e]
  unfold Keys.Get Keys.Set
  rw [List.find?_cons]
  simp only [h1]
  rw [List.find?_filter, h2]

theorem attached_Get_claims (keys : Keys) (c : JWTClaims) :
    (attached keys c).Get "claims" = some (.claims c) := by
  have hne4 : ("claims" : String) ≠ "wallet_addr" := by decide
  have hne5 : ("claims" : String) ≠ "user_type" := by decide
  have hne6 : ("claims" : String) ≠ "user_id" := by decide
  unfold attached
  split
  · rw [Keys.Get_Set_other _ _ _ _ hne4, Keys.Get_Set_other _ _ _ _ hne5,
      Keys.Get_Set_other _ _ _ _ hne6, Keys.Get_Set_same]
  · rw [Keys.Get_Set_other _ _ _ _ hne5, Keys.Get_Set_other _ _ _ _ hne6, Keys.Get_Set_same]

theorem attached_Get_user_id (keys : Keys) (c : JWTClaims) :
    (attached keys c).Get "user_id" = some (.uint c.UserID) := by
  have hne1 : ("user_id" : String) ≠ "user_type" := by decide
  have hne2 : ("user_id" : String) ≠ "wallet_addr" := by decide
  unfold attached
  split
  · rw [Keys.Get_Set_other _ _ _ _ hne2, Keys.Get_Set_other _ _ _ _ hne1, Keys.Get_Set_same]
  · rw [Keys.Get_Set_other _ _ _ _ hne1, Keys.Get_Set_same]

theorem attached_Get_user_type (keys : Keys) (c : JWTClaims) :
    (attached keys c).Get "user_type" = some (.str c.UserType) := by
  have hne3 : ("user_type" : String) ≠ "wallet_addr" := by decide
  unfold attached
  split
  · rw [Keys.Get_Set_other _ _ _ _ hne3, Keys.Get_Set_same]
  · rw [Keys.Get_Set_same]

theorem attached_Get_wallet_addr (keys : Keys) (c : JWTClaims) :
    (attached keys c).Get "wallet_addr"
      = if c.WalletAddr ≠ "" then some (.str c.WalletAddr) else keys.Get "wallet_addr" := by
  have hne2 : ("wallet_addr" : String) ≠ "user_id" := by decide
  have hne3 : ("wallet_addr" : String) ≠ "user_type" := by decide
  have hne4 : ("wallet_addr" : String) ≠ "claims" := by decide
  unfold attached
  by_cases hw : c.WalletAddr ≠ ""
  · rw [if_pos hw, if_pos hw, Keys.Get_Set_same]
  · rw [if_neg hw, if_neg hw, Keys.Get_Set_other _ _ _ _ hne3, Keys.Get_Set_other _ _ _ _ hne2,
      Keys.Get_Set_other _ _ _ _ hne4]

/-! ## The JWT middleware, step by step -/

theorem JWT_bearer (lib : JwtLib) (cfg : JWTConfig) (np now : Int) (tok : String) (keys : Keys) :
    JWT lib cfg np now ("Bearer " ++ tok) keys =
      if signatureRejected (ParseWithClaims lib np tok cfg.Secret) then
        .abort StatusUnauthorized (NewUnauthorizedError "无效的token" "签名验证失败") keys
      else if (tokenClaims lib np tok cfg.Secret).ExpiresAt < wrapInt64 (now - 300) then
        .abort StatusUnauthorized (NewUnauthorizedError "无效的token" "token已超过宽限期过期") keys
      else .next (attached keys (tokenClaims lib np tok cfg.Secret)) := by
  unfold JWT
  rw [if_neg (bearer_ne_empty tok), SplitN2_bearer]
  simp only [ne_eq, not_true_eq_false, if_false, signatureRejected, attached, tokenClaims]

/-- Without a header of the form Bearer, space, rest, the middleware aborts at
one of its two header checks. -/
theorem JWT_header_checks (lib : JwtLib) (cfg : JWTConfig) (np now : Int) (hdr : String)
    (keys : Keys) (h : hdr = "" ∨ ∀ rest, hdr ≠ "Bearer " ++ rest) :
    JWT lib cfg np now hdr keys =
      .abort StatusUnauthorized
        (if hdr = "" then NewUnauthorizedError "缺少认证信息" "未提供Authorization头"
         else NewUnauthorizedError "认证格式错误" "Authorization头必须是Bearer格式") keys := by
  unfold JWT
  by_cases h0 : hdr = ""
  · simp [h0]
  · have hb : ∀ rest, hdr ≠ "Bearer " ++ rest := by
      rcases h with h | h
      · exact absurd h h0
      · exact h
    rw [if_neg h0, if_neg h0]
    split
    · rename_i scheme tokenString hs
      by_cases hsch : scheme = "Bearer"
      · exfalso
        have := SplitN2_two hdr scheme tokenString hs
        rw [hsch, bearer_assoc] at this
        exact hb tokenString this
      · rw [if_pos hsch]
    · rfl

/-- A token whose signature the library accepts is a non-nil token. -/
theorem parsed_some_of_signatureVerifies (lib : JwtLib) (np : Int) (tok key : String)
    (h : signatureVerifies lib tok key = true) :
    ∃ t, (ParseWithClaims lib np tok key).1 = some t := by
  unfold signatureVerifies at h
  unfold ParseWithClaims
  split at h
  · rename_i p0 p1 p2 hs
    simp only [hs]
    split at h
    · rename_i method hh
      simp only [hh]
      simp only [Bool.and_eq_true] at h
      obtain ⟨⟨h1, h2⟩, _⟩ := h
      simp [h1, h2]
    · exact absurd h (by simp)
  · exact absurd h (by simp)

/-- The claims a token carries when the first rejection test lets it pass. -/
theorem claims_of_not_rejected (lib : JwtLib) (np : Int) (tok key : String)
    (h : signatureRejected (ParseWithClaims lib np tok key) = false) :
    ∃ p0 p1 p2, Split tok = [p0, p1, p2]
      ∧ tokenClaims lib np tok key = (lib.decodeClaims p1).1 := by
  unfold tokenClaims
  unfold ParseWithClaims at h ⊢
  split at h
  · rename_i p0 p1 p2 hs
    refine ⟨p0, p1, p2, hs, ?_⟩
    simp only [hs]
    split at h
    · simp [signatureRejected, JWTClaims.zero, JWTClaims.ExpiresAt] at h
    · rename_i alg hh
      split
      · rfl
      · split
        · rfl
        · split <;> rfl
  · simp [signatureRejected] at h

/-- What is known when the middleware calls the next handler: the header is
Bearer, a space and a token of three segments, and the key map is the one on
entry with the claims decoded from the second segment attached. -/
theorem JWT_next_inv (lib : JwtLib) (cfg : JWTConfig) (np now : Int) (hdr : String)
    (keys ks : Keys) (h : JWT lib cfg np now hdr keys = .next ks) :
    ∃ tok p0 p1 p2, hdr = "Bearer " ++ tok ∧ Split tok = [p0, p1, p2]
      ∧ ks = attached keys (lib.decodeClaims p1).1 := by
  have hb : ∃ tok, hdr = "Bearer " ++ tok := by
    by_contra hne
    have hne2 : ∀ rest, hdr ≠ "Bearer " ++ rest := fun rest e => hne ⟨rest, e⟩
    rw [JWT_header_checks lib cfg np now hdr keys (Or.inr hne2)] at h
    cases h
  obtain ⟨tok, rfl⟩ := hb
  rw [JWT_bearer] at h
  by_cases hr : signatureRejected (ParseWithClaims lib np tok cfg.Secret) = true
  · rw [if_pos hr] at h
    cases h
  · rw [if_neg hr] at h
    have hr2 : signatureRejected (ParseWithClaims lib np tok cfg.Secret) = false := by
      simpa using hr
    obtain ⟨p0, p1, p2, hs, hc⟩ := claims_of_not_rejected lib np tok cfg.Secret hr2
    split at h
    · cases h
    · rw [hc] at h
      injection h with hk
      exact ⟨tok, p0, p1, p2, rfl, hs, hk.symm⟩

/-! ## The reference library instance meets the laws -/

theorem decNat_encBits (fuel : Nat) : ∀ (n : Nat) (rest : List Char), n ≤ fuel →
    decNat (encBits fuel n ++ ';' :: rest) = some (n, rest) := by
  induction fuel with
  | zero =>
    intro n rest hn
    have : n = 0 := by omega
    subst this
    simp [encBits, decNat]
  | succ f ih =>
    intro n rest hn
    unfold encBits
    by_cases h0 : n = 0
    · subst h0
      simp [decNat]
    · rw [if_neg h0]
      have hle : n / 2 ≤ f := by omega
      by_cases h1 : n % 2 = 1
      · rw [if_pos h1]
        simp only [List.cons_append]
        unfold decNat
        rw [if_neg (by decide), if_neg (by decide), if_pos rfl, ih _ _ hle]
        simp only [Option.map_some']
        congr 2
        omega
      · rw [if_neg h1]
        simp only [List.cons_append]
        unfold decNat
        rw [if_neg (by decide), if_pos rfl, ih _ _ hle]
        simp only [Option.map_some']
        congr 2
        omega

theorem decNat_encNat (n : Nat) (rest : List Char) : decNat (encNat n ++ rest) = some (n, rest) := by
  unfold encNat
  rw [List.append_assoc]
  exact decNat_encBits n n rest (Nat.le_refl n)

theorem decInt_encInt (i : Int) (rest : List Char) :
    decInt (encInt i ++ rest) = some (i, rest) := by
  unfold decInt encInt
  rw [List.append_assoc, decNat_encNat]
  simp only
  rw [decNat_encNat]
  simp only
  congr 2
  omega

theorem decChars_encChars (l : List Char) (rest : List Char) :
    decChars l.length (encChars l ++ rest) = some (l, rest) := by
  induction l with
  | nil => simp [decChars, encChars]
  | cons c cs ih =>
    simp only [List.length_cons, encChars, decChars, List.append_assoc]
    rw [decNat_encNat]
    simp only
    rw [ih]
    simp

theorem decStr_encStr (s : String) (rest : List Char) :
    decStr (encStr s ++ rest) = some (s, rest) := by
  unfold decStr encStr
  rw [List.append_assoc, decNat_encNat]
  simp only
  rw [decChars_encChars]

theorem refDecodeClaims_encode (c : JWTClaims) : refDecodeClaims (refEncodeClaims c) = some c := by
  unfold refDecodeClaims refEncodeClaims
  simp only [bind, Option.bind]
  rw [decNat_encNat]
  simp only
  rw [decStr_encStr]
  simp only
  rw [decStr_encStr]
  simp only
  rw [decStr_encStr]
  simp only
  rw [decInt_encInt]
  simp only
  rw [decStr_encStr]
  simp only
  rw [decInt_encInt]
  simp only
  rw [decStr_encStr]
  simp only
  rw [decInt_encInt]
  simp only
  have := decStr_encStr c.StandardClaims.Subject []
  rw [List.append_nil] at this
  rw [this]
  simp

theorem encBits_no_dot (fuel n : Nat) : '.' ∉ encBits fuel n := by
  induction fuel generalizing n with
  | zero => simp [encBits]
  | succ f ih =>
    unfold encBits
    by_cases h0 : n = 0
    · simp [h0]
    · rw [if_neg h0]
      intro hmem
      rcases List.mem_cons.mp hmem with h | h
      · by_cases h1 : n % 2 = 1
        · rw [if_pos h1] at h
          exact absurd h (by decide)
        · rw [if_neg h1] at h
          exact absurd h (by decide)
      · exact ih _ h

theorem encNat_no_dot (n : Nat) : '.' ∉ encNat n := by
  unfold encNat
  intro h
  rcases List.mem_append.mp h with h | h
  · exact encBits_no_dot _ _ h
  · simp at h

theorem encInt_no_dot (i : Int) : '.' ∉ encInt i := by
  unfold encInt
  intro h
  rcases List.mem_append.mp h with h | h
  · exact encNat_no_dot _ h
  · exact encNat_no_dot _ h

theorem encChars_no_dot (l : List Char) : '.' ∉ encChars l := by
  induction l with
  | nil => simp [encChars]
  | cons c cs ih =>
    unfold encChars
    intro h
    rcases List.mem_append.mp h with h | h
    · exact encNat_no_dot _ h
    · exact ih h

theorem encStr_no_dot (s : String) : '.' ∉ encStr s := by
  unfold encStr
  intro h
  rcases List.mem_append.mp h with h | h
  · exact encNat_no_dot _ h
  · exact encChars_no_dot _ h

theorem refEncodeClaims_no_dot (c : JWTClaims) : '.' ∉ refEncodeClaims c := by
  unfold refEncodeClaims
  simp only [List.mem_append, not_or]
  exact ⟨encNat_no_dot _, encStr_no_dot _, encStr_no_dot _, encStr_no_dot _, encInt_no_dot _,
    encStr_no_dot _, encInt_no_dot _, encStr_no_dot _, encInt_no_dot _, encStr_no_dot _⟩

/-- The instance `refLib` meets the laws of the library. -/
theorem refLib_lawful : refLib.Lawful where
  header_no_dot := by decide
  claims_no_dot := fun c => refEncodeClaims_no_dot c
  sign_no_dot := by
    intro m k s h
    simp only [refLib, Except.ok.injEq] at h
    rw [← h]
    simp [refMac]
  decode_header := by decide
  hs256_available := by decide
  decode_claims := by
    intro c
    simp only [refLib]
    rw [refDecodeClaims_encode]
  verify_sign := by
    intro m k s h
    simp only [refLib, Except.ok.injEq] at h
    simp [refLib, h]

/-! ## Issuing and parsing -/

/-- Parsing a token under the key it was signed with gives back the claims; the
token is valid when the claims are. -/
theorem ParseWithClaims_SignedString (lib : JwtLib) (hl : lib.Lawful) (np : Int)
    (c : JWTClaims) (key tok : String) (h : SignedString lib c key = .ok tok) :
    ParseWithClaims lib np tok key = (some { Valid := c.StandardClaims.Valid np }, c) := by
  unfold SignedString at h
  cases hs : lib.sign (lib.encodeHeader ++ "." ++ lib.encodeClaims c) key with
  | error e => simp [hs] at h
  | ok sig =>
    simp only [hs, Except.ok.injEq] at h
    subst h
    unfold ParseWithClaims
    rw [Split_three _ _ _ hl.header_no_dot (hl.claims_no_dot c) (hl.sign_no_dot _ _ _ hs)]
    simp only [hl.decode_header, hl.decode_claims, hl.hs256_available,
      hl.verify_sign _ _ _ hs]
    simp

theorem GenerateJWT_eq (lib : JwtLib) (nowExp nowIat : Time) (userID : Nat)
    (userType walletAddr : String) (cfg : JWTConfig) :
    GenerateJWT lib nowExp nowIat userID userType walletAddr cfg
      = SignedString lib (issuedClaims nowExp nowIat userID userType walletAddr cfg) cfg.Secret :=
  rfl

/-- While the duration does not overflow, the expiry is `3600 * ExpireHours`
seconds after the clock reading. -/
theorem issuedClaims_ExpiresAt (nowExp nowIat : Time) (userID : Nat)
    (userType walletAddr : String) (cfg : JWTConfig)
    (h0 : -2562047 ≤ cfg.ExpireHours) (h1 : cfg.ExpireHours ≤ 2562047) :
    (issuedClaims nowExp nowIat userID userType walletAddr cfg).ExpiresAt
      = nowExp.Unix + 3600 * cfg.ExpireHours := by
  unfold issuedClaims JWTClaims.ExpiresAt Time.Add Time.Unix Hour
  simp only
  rw [wrapInt64_eq _ (by omega) (by omega)]
  omega

/-! ## The store and the service -/

theorem mem_insertByID (m : UserModel) (l : List UserModel) : m ∈ insertByID m l := by
  induction l with
  | nil => simp [insertByID]
  | cons r rs ih =>
    unfold insertByID
    split
    · simp
    · exact List.mem_cons_of_mem _ ih

/-- On a lost connection the insert fails with the error of the connection. -/
theorem dbCreate_fault (db : DB) (now : Time) (model : UserModel) (t : String)
    (hf : db.fault = some t) : db.Create now model = (db, .error (.other t)) := by
  unfold DB.Create
  rw [hf]

/-- With a working connection, a row with a value longer than its column is
refused. -/
theorem dbCreate_too_long (db : DB) (now : Time) (model : UserModel) (hf : db.fault = none)
    (hl : model.fitsColumns = false) :
    db.Create now model = (db, .error (.other "Error 1406: Data too long for column")) := by
  unfold DB.Create
  rw [hf]
  simp only [hl, Bool.not_false, if_true]

/-- With a working connection, a row that fits its columns and duplicates a key
is refused. -/
theorem dbCreate_duplicate (db : DB) (now : Time) (model : UserModel) (hf : db.fault = none)
    (hl : model.fitsColumns = true) (hc : db.conflicts (db.newRow now model) = true) :
    db.Create now model = (db, .error (.other "Error 1062: Duplicate entry")) := by
  unfold DB.Create
  rw [hf]
  simp only [hl, hc, Bool.not_true, if_true, Bool.false_eq_true, if_false]

/-- With a working connection, a row that fits its columns and duplicates no
key is inserted. -/
theorem dbCreate_inserts (db : DB) (now : Time) (model : UserModel) (hf : db.fault = none)
    (hl : model.fitsColumns = true) (hc : db.conflicts (db.newRow now model) = false) :
    db.Create now model
      = ({ db with users := insertByID (db.newRow now model) db.users,
                   autoIncrement := max db.autoIncrement ((db.newRow now model).ID + 1) },
         .ok (db.newRow now model)) := by
  unfold DB.Create
  rw [hf]
  simp only [hl, hc, Bool.not_true, Bool.false_eq_true, if_false]

/-- A successful insert: the connection works, the row fits its columns, no key
is duplicated, and the stored row is the one `DB.newRow` builds. -/
theorem dbCreate_ok_eq (db db1 : DB) (now : Time) (model row : UserModel)
    (h : db.Create now model = (db1, .ok row)) :
    db.fault = none ∧ db.conflicts (db.newRow now model) = false
      ∧ row = db.newRow now model
      ∧ db1 = { db with users := insertByID (db.newRow now model) db.users,
                        autoIncrement := max db.autoIncrement ((db.newRow now model).ID + 1) } := by
  cases hf : db.fault with
  | some t =>
    rw [dbCreate_fault db now model t hf] at h
    simp at h
  | none =>
    cases hl : model.fitsColumns with
    | false =>
      rw [dbCreate_too_long db now model hf hl] at h
      simp at h
    | true =>
      cases hc : db.conflicts (db.newRow now model) with
      | true =>
        rw [dbCreate_duplicate db now model hf hl hc] at h
        simp at h
      | false =>
        rw [dbCreate_inserts db now model hf hl hc] at h
        simp only [Prod.mk.injEq, Except.ok.injEq] at h
        obtain ⟨h1, h2⟩ := h
        refine ⟨rfl, rfl, h2.symm, ?_⟩
        rw [← h1, hf]

/-- A successful insert stores a row that fits its columns. -/
theorem dbCreate_ok_fits (db db1 : DB) (now : Time) (model row : UserModel)
    (h : db.Create now model = (db1, .ok row)) : model.fitsColumns = true := by
  cases hl : model.fitsColumns with
  | true => rfl
  | false =>
    cases hf : db.fault with
    | some t =>
      rw [dbCreate_fault db now model t hf] at h
      simp at h
    | none =>
      rw [dbCreate_too_long db now model hf hl] at h
      simp at h

/-- A successful insert leaves a working connection and the new row in the table. -/
theorem dbCreate_ok (db db1 : DB) (now : Time) (model row : UserModel)
    (h : db.Create now model = (db1, .ok row)) :
    db1.fault = none ∧ row ∈ db1.users ∧ row.Email = model.Email
      ∧ row.DeletedAt = model.DeletedAt := by
  obtain ⟨hf, _, h2, h1⟩ := dbCreate_ok_eq db db1 now model row h
  subst h1
  subst h2
  exact ⟨hf, mem_insertByID _ _, rfl, rfl⟩

/-- A successful repository `Create` leaves a working connection and a live row
with the email of the user in the table. -/
theorem Create_ok (db db1 : DB) (now : Time) (u u1 : User)
    (h : Create db now u = (db1, .ok u1)) :
    db1.fault = none ∧ ∃ m ∈ db1.users, m.Email = u.Email ∧ m.DeletedAt = none := by
  unfold Create at h
  cases hc : db.Create now (domainToModel u) with
  | mk db2 r =>
    cases r with
    | error e =>
      simp only [hc] at h
      split at h
      · simp at h
      · split at h
        · simp at h
        · split at h <;> simp at h
    | ok row =>
      simp only [hc, Prod.mk.injEq, Except.ok.injEq] at h
      obtain ⟨h1, _⟩ := h
      subst h1
      obtain ⟨hf, hm, he, hd⟩ := dbCreate_ok _ _ _ _ _ hc
      exact ⟨hf, row, hm, he, hd⟩

/-- With a working connection and a live row that has the email, the lookup by
email succeeds. -/
theorem FindByEmail_ok_of_mem (db : DB) (email : String) (hf : db.fault = none)
    (h : ∃ m ∈ db.users, m.Email = email ∧ m.DeletedAt = none) :
    ∃ u, FindByEmail db email = .ok u := by
  obtain ⟨m, hm, he, hd⟩ := h
  unfold FindByEmail DB.First
  rw [hf]
  simp only
  cases hfind : db.users.find? (fun m => m.DeletedAt.isNone && m.Email == email) with
  | none =>
    rw [List.find?_eq_none] at hfind
    have := hfind m hm
    simp [he, hd] at this
  | some r => exact ⟨_, rfl⟩

/-- A lookup by email that succeeds returns a live row of the table with that
email. -/
theorem FindByEmail_ok (db : DB) (email : String) (u : User)
    (h : FindByEmail db email = .ok u) :
    ∃ m ∈ db.users, m.Email = email ∧ m.DeletedAt = none ∧ u = modelToDomain m := by
  unfold FindByEmail DB.First at h
  cases hf : db.fault with
  | some t => simp [hf] at h
  | none =>
    simp only [hf] at h
    cases hfind : db.users.find? (fun m => m.DeletedAt.isNone && m.Email == email) with
    | none => simp [hfind] at h
    | some r =>
      simp only [hfind, Except.ok.injEq] at h
      have hp := List.find?_some hfind
      have hm := List.mem_of_find?_eq_some hfind
      simp only [Bool.and_eq_true, Option.isNone_iff_eq_none, beq_iff_eq] at hp
      exact ⟨r, hm, hp.2, hp.1, h.symm⟩

/-- With no row that has the email, the lookup by email fails. -/
theorem FindByEmail_error_of_absent (db : DB) (email : String)
    (h : ∀ m ∈ db.users, m.Email ≠ email) : ∃ e, FindByEmail db email = .error e := by
  cases hfe : FindByEmail db email with
  | error e => exact ⟨e, rfl⟩
  | ok u =>
    obtain ⟨m, hm, he, _⟩ := FindByEmail_ok db email u hfe
    exact absurd he (h m hm)

/-- A successful `Register` leaves a working connection and a live row with the
email of the input in the table. -/
theorem Register_ok (hs : Hasher) (lib : JwtLib) (cfg : JWTConfig) (nowDB nowExp nowIat : Time)
    (db db1 : DB) (input : CreateUserInput) (out : UserOutput)
    (h : Register hs lib cfg nowDB nowExp nowIat db input = (db1, .ok out)) :
    db1.fault = none ∧ ∃ m ∈ db1.users, m.Email = input.Email ∧ m.DeletedAt = none := by
  unfold Register at h
  cases hfe : FindByEmail db input.Email with
  | ok u => simp [hfe] at h
  | error e =>
    simp only [hfe] at h
    split at h
    · simp at h
    · cases hg : hs.GenerateFromPassword input.Password with
      | error e2 => simp [hg] at h
      | ok hashedPassword =>
        simp only [hg] at h
        split at h
        · simp at h
        · rename_i db2 newUser hc
          split at h
          · simp at h
          · simp only [Prod.mk.injEq] at h
            obtain ⟨h1, _⟩ := h
            subst h1
            exact Create_ok _ _ _ _ _ hc

/-- Without both an email and a password the first test of `Login` fails. -/
theorem shape_false (input : LoginUserInput) (h : input.Email = "" ∨ input.Password = "") :
    ¬ ((decide (input.Email ≠ "") && decide (input.Password ≠ "")) = true) := by
  rcases h with h | h <;> simp [h]

/-- The credential check does not read the store unless both email and
password are given. -/
theorem loginResolve_no_password (hs : Hasher) (db1 db2 : DB) (input : LoginUserInput)
    (h : input.Email = "" ∨ input.Password = "") :
    loginResolve hs db1 input = loginResolve hs db2 input := by
  unfold loginResolve
  rw [if_neg (shape_false input h), if_neg (shape_false input h)]

/-! ## C1 to C4: token verification and the round trip -/

set_option maxRecDepth 100000 in
/-- C1, evaluated at the failing input: a token issued for role admin under the
key "attacker" does not verify under the server key "s3cret" (the parsed token
is not valid), and yet the middleware configured with "s3cret" calls the next
handler with the forged claims attached, and so does the admin chain. -/
theorem JWT_admits_forged_token :
    GenerateJWT refLib 1700000000000000000 1700000000000000000 7 "admin" ""
        { Secret := "attacker", ExpireHours := 24 } = .ok forgedToken
    ∧ signatureVerifies refLib forgedToken serverConfig.Secret = false
    ∧ ParseWithClaims refLib 1700000000 forgedToken serverConfig.Secret
        = (some { Valid := false }, adminClaims)
    ∧ JWT refLib serverConfig 1700000000 1700000000 ("Bearer " ++ forgedToken) []
        = .next [("user_type", .str "admin"), ("user_id", .uint 7), ("claims", .claims adminClaims)]
    ∧ adminChain refLib serverConfig 1700000000 1700000000 ("Bearer " ++ forgedToken)
        = .next [("user_type", .str "admin"), ("user_id", .uint 7), ("claims", .claims adminClaims)] := by
  refine ⟨by rfl, by rfl, by rfl, by rfl, by rfl⟩

/-- C2: for a token whose signature verifies and whose expires-at `E` is not
zero, at every verification time `now` (an int64 at least 300 above the
minimum), the middleware admits the request exactly when `now - E ≤ 300`:
it then calls the next handler with the claims attached, and otherwise it
aborts with status 401 and an Unauthorized error. -/
theorem JWT_grace_window (lib : JwtLib) (cfg : JWTConfig) (np now : Int) (tok : String)
    (keys : Keys) (E : Int)
    (hsig : signatureVerifies lib tok cfg.Secret = true)
    (hE : (tokenClaims lib np tok cfg.Secret).ExpiresAt = E) (hE0 : E ≠ 0)
    (hlo : -(2 ^ 63) + 300 ≤ now) (hhi : now < 2 ^ 63) :
    ((∃ ks, JWT lib cfg np now ("Bearer " ++ tok) keys = .next ks) ↔ now - E ≤ 300)
    ∧ (now - E ≤ 300 →
        JWT lib cfg np now ("Bearer " ++ tok) keys
          = .next (attached keys (tokenClaims lib np tok cfg.Secret)))
    ∧ (¬ now - E ≤ 300 →
        JWT lib cfg np now ("Bearer " ++ tok) keys
          = .abort 401 (NewUnauthorizedError "无效的token" "token已超过宽限期过期") keys) := by
  obtain ⟨t, ht⟩ := parsed_some_of_signatureVerifies lib np tok cfg.Secret hsig
  have hrej : signatureRejected (ParseWithClaims lib np tok cfg.Secret) = false := by
    have hE' : (ParseWithClaims lib np tok cfg.Secret).2.ExpiresAt ≠ 0 := by
      rw [← hE] at hE0; exact hE0
    simp [signatureRejected, ht, hE']
  have hw : wrapInt64 (now - 300) = now - 300 := wrapInt64_eq _ (by omega) (by omega)
  have hJ := JWT_bearer lib cfg np now tok keys
  rw [hrej, hw, hE] at hJ
  simp only [Bool.false_eq_true, if_false] at hJ
  by_cases hc : now - E ≤ 300
  · have hlt : ¬ E < now - 300 := by omega
    rw [if_neg hlt] at hJ
    exact ⟨⟨fun _ => hc, fun _ => ⟨_, hJ⟩⟩, fun _ => hJ, fun h => absurd hc h⟩
  · have hlt : E < now - 300 := by omega
    rw [if_pos hlt] at hJ
    refine ⟨⟨fun ⟨ks, hks⟩ => ?_, fun h => absurd h hc⟩, fun h => absurd h hc, fun _ => hJ⟩
    rw [hJ] at hks
    cases hks

set_option maxRecDepth 100000 in
/-- Witness of C2: the token signed under the server key, with expires-at
1700086400, presented exactly 300 seconds after it expired. -/
theorem JWT_grace_window_witness :
    ((∃ ks, JWT refLib serverConfig 1700086700 1700086700 ("Bearer " ++ serverToken) []
        = .next ks) ↔ (1700086700 : Int) - 1700086400 ≤ 300)
    ∧ ((1700086700 : Int) - 1700086400 ≤ 300 →
        JWT refLib serverConfig 1700086700 1700086700 ("Bearer " ++ serverToken) []
          = .next (attached [] (tokenClaims refLib 1700086700 serverToken serverConfig.Secret)))
    ∧ (¬ (1700086700 : Int) - 1700086400 ≤ 300 →
        JWT refLib serverConfig 1700086700 1700086700 ("Bearer " ++ serverToken) []
          = .abort 401 (NewUnauthorizedError "无效的token" "token已超过宽限期过期") []) :=
  JWT_grace_window refLib serverConfig 1700086700 1700086700 serverToken [] 1700086400
    (by rfl) (by rfl) (by decide) (by decide) (by decide)

/-- C3: a token whose expires-at claim is absent or zero is rejected at every
verification time `now > 300`, whether or not its signature verifies: the
middleware aborts with status 401 and an Unauthorized error, and the key map
is left as it was. -/
theorem JWT_rejects_zero_expiry (lib : JwtLib) (cfg : JWTConfig) (np now : Int) (tok : String)
    (keys : Keys)
    (hE : (tokenClaims lib np tok cfg.Secret).ExpiresAt = 0)
    (h300 : 300 < now) (hhi : now < 2 ^ 63) :
    ∃ detail, JWT lib cfg np now ("Bearer " ++ tok) keys
      = .abort 401 (NewUnauthorizedError "无效的token" detail) keys := by
  have hw : wrapInt64 (now - 300) = now - 300 := wrapInt64_eq _ (by omega) (by omega)
  have hJ := JWT_bearer lib cfg np now tok keys
  rw [hw, hE] at hJ
  by_cases hr : signatureRejected (ParseWithClaims lib np tok cfg.Secret) = true
  · rw [if_pos hr] at hJ
    exact ⟨_, hJ⟩
  · rw [if_neg hr, if_pos (by omega)] at hJ
    exact ⟨_, hJ⟩

set_option maxRecDepth 100000 in
/-- Witness of C3: a token signed under the server key and carrying no
expires-at, presented at second 1700000000. -/
theorem JWT_rejects_zero_expiry_witness :
    ∃ detail, JWT refLib serverConfig 1700000000 1700000000 ("Bearer " ++ noExpiryToken) []
      = .abort 401 (NewUnauthorizedError "无效的token" detail) [] :=
  JWT_rejects_zero_expiry refLib serverConfig 1700000000 1700000000 noExpiryToken [] (by rfl)
    (by decide) (by decide)

set_option maxRecDepth 100000 in
/-- C4 as stated fails: with `ExpireHours = 2562048` the duration
`time.Hour * 2562048` overflows, the token issued at second 1700000000 carries
the expires-at -7523371274, and presented at that same second (which lies
between the time of issue and `3600 * ExpireHours` seconds later) it is
rejected with status 401. -/
theorem roundtrip_fails_on_duration_overflow :
    refLib.Lawful
    ∧ 0 < overflowConfig.ExpireHours
    ∧ GenerateJWT refLib 1700000000000000000 1700000000000000000 7 "regular" "" overflowConfig
        = .ok overflowToken
    ∧ Time.Unix 1700000000000000000 ≤ 1700000000
    ∧ (1700000000 : Int) ≤ Time.Unix 1700000000000000000 + 3600 * overflowConfig.ExpireHours
    ∧ (tokenClaims refLib 1700000000 overflowToken overflowConfig.Secret).ExpiresAt = -7523371274
    ∧ JWT refLib overflowConfig 1700000000 1700000000 ("Bearer " ++ overflowToken) []
        = .abort 401 (NewUnauthorizedError "无效的token" "token已超过宽限期过期") [] :=
  ⟨refLib_lawful, by decide, by rfl, by decide, by decide, by rfl, by rfl⟩

/-- C4, amended: for a library that meets its laws, every user id, role, wallet
address and secret, and `0 < ExpireHours ≤ 2562047` (the range in which
`time.Hour * ExpireHours` fits a `time.Duration`), the token `GenerateJWT`
returns at clock reading `nowExp`, presented as Bearer token to the middleware
with the same configuration at any second `t ≤ nowExp.Unix + 3600 * ExpireHours`
(so at any `t` from the time of issue up to that bound), parsed no earlier
than it was issued, is admitted, and the claims stored in the context are the
issued ones: same user id, role, wallet address, issued-at and expires-at. -/
theorem issue_then_admit_roundtrip (lib : JwtLib) (hl : lib.Lawful) (cfg : JWTConfig)
    (nowExp nowIat : Time) (userID : Nat) (userType walletAddr tok : String) (np t : Int)
    (keys : Keys)
    (hh : 0 < cfg.ExpireHours) (hmax : cfg.ExpireHours ≤ 2562047)
    (hgen : GenerateJWT lib nowExp nowIat userID userType walletAddr cfg = .ok tok)
    (hiat : nowIat.Unix ≤ np) (ht1 : t ≤ nowExp.Unix + 3600 * cfg.ExpireHours)
    (hlo : -(2 ^ 63) + 300 ≤ t) (hhi : t < 2 ^ 63) :
    ∃ ks c, JWT lib cfg np t ("Bearer " ++ tok) keys = .next ks
      ∧ ks.Get "claims" = some (.claims c)
      ∧ c = issuedClaims nowExp nowIat userID userType walletAddr cfg
      ∧ c.UserID = userID ∧ c.UserType = userType ∧ c.WalletAddr = walletAddr
      ∧ c.IssuedAt = nowIat.Unix
      ∧ c.ExpiresAt = nowExp.Unix + 3600 * cfg.ExpireHours := by
  have hE := issuedClaims_ExpiresAt nowExp nowIat userID userType walletAddr cfg (by omega) hmax
  rw [GenerateJWT_eq] at hgen
  have hp := ParseWithClaims_SignedString lib hl np _ _ _ hgen
  have hJ := JWT_bearer lib cfg np t tok keys
  have hw : wrapInt64 (t - 300) = t - 300 := wrapInt64_eq _ (by omega) (by omega)
  have hrej : signatureRejected (ParseWithClaims lib np tok cfg.Secret) = false := by
    rw [hp]
    simp only [signatureRejected, Bool.and_eq_false_imp, Bool.not_eq_true',
      decide_eq_false_iff_not]
    intro hv he
    have hexp : (issuedClaims nowExp nowIat userID userType walletAddr cfg).StandardClaims.ExpiresAt
        = 0 := he
    have hv2 : (issuedClaims nowExp nowIat userID userType walletAddr cfg).StandardClaims.Valid np
        = true := by
      unfold StandardClaims.Valid verifyExp verifyIat verifyNbf
      rw [hexp]
      have hi : (issuedClaims nowExp nowIat userID userType walletAddr cfg).StandardClaims.IssuedAt
          = nowIat.Unix := rfl
      have hn : (issuedClaims nowExp nowIat userID userType walletAddr cfg).StandardClaims.NotBefore
          = 0 := rfl
      rw [hi, hn]
      by_cases hz : nowIat.Unix = 0
      · simp [hz]
      · simp [hz, hiat]
    rw [hv2] at hv
    cases hv
  rw [hrej, hw] at hJ
  unfold tokenClaims at hJ
  rw [hp] at hJ
  simp only [Bool.false_eq_true, if_false] at hJ
  rw [hE, if_neg (by omega)] at hJ
  exact ⟨_, _, hJ, attached_Get_claims _ _, rfl, rfl, rfl, rfl, rfl, hE⟩

set_option maxRecDepth 100000 in
/-- Witness of C4: the token issued for user 7 at second 1700000000 with
`ExpireHours = 24`, presented one hour later. -/
theorem issue_then_admit_roundtrip_witness :
    ∃ ks c, JWT refLib serverConfig 1700003600 1700003600 ("Bearer " ++ regularToken) []
        = .next ks
      ∧ ks.Get "claims" = some (.claims c)
      ∧ c = issuedClaims 1700000000000000000 1700000000000000000 7 "regular" "0xabc" serverConfig
      ∧ c.UserID = 7 ∧ c.UserType = "regular" ∧ c.WalletAddr = "0xabc"
      ∧ c.IssuedAt = Time.Unix 1700000000000000000
      ∧ c.ExpiresAt = Time.Unix 1700000000000000000 + 3600 * serverConfig.ExpireHours :=
  issue_then_admit_roundtrip refLib refLib_lawful serverConfig 1700000000000000000
    1700000000000000000 7 "regular" "0xabc" regularToken 1700003600 1700003600 []
    (by decide) (by decide) (by rfl) (by decide) (by decide) (by decide) (by decide)

/-! ## C5 and C6: login -/

/-- C5: whenever `Login` returns a result, email and password were both
supplied, the store resolved an identity (a live row of the table) for that
email, the password verified against its stored hash, and the result describes
that identity; without a complete email and password pair `Login` never
returns a result, and a wallet login ends in a nil pointer panic. -/
theorem Login_success_is_authenticated (hs : Hasher) (lib : JwtLib) (cfg : JWTConfig)
    (nowExp nowIat : Time) (db : DB) (input : LoginUserInput) :
    (∀ out, Login hs lib cfg nowExp nowIat db input = .ok out →
      input.Email ≠ "" ∧ input.Password ≠ ""
      ∧ ∃ u, FindByEmail db input.Email = .ok u
          ∧ (∃ m ∈ db.users, m.Email = input.Email ∧ m.DeletedAt = none ∧ u = modelToDomain m)
          ∧ hs.CompareHashAndPassword u.Password input.Password = true
          ∧ out.ID = u.ID ∧ out.Username = u.Username ∧ out.Email = u.Email
          ∧ out.WalletAddr = u.WalletAddr ∧ out.UserType = u.UserType)
    ∧ ((input.Email = "" ∨ input.Password = "") →
        ∀ out, Login hs lib cfg nowExp nowIat db input ≠ .ok out)
    ∧ ((input.Email = "" ∨ input.Password = "") →
        input.WalletAddr ≠ "" → input.Message ≠ "" → input.Signature ≠ "" →
        Login hs lib cfg nowExp nowIat db input
          = .panic "invalid memory address or nil pointer dereference") := by
  have key : ∀ out, Login hs lib cfg nowExp nowIat db input = .ok out →
      input.Email ≠ "" ∧ input.Password ≠ ""
      ∧ ∃ u, FindByEmail db input.Email = .ok u
          ∧ (∃ m ∈ db.users, m.Email = input.Email ∧ m.DeletedAt = none ∧ u = modelToDomain m)
          ∧ hs.CompareHashAndPassword u.Password input.Password = true
          ∧ out.ID = u.ID ∧ out.Username = u.Username ∧ out.Email = u.Email
          ∧ out.WalletAddr = u.WalletAddr ∧ out.UserType = u.UserType := by
    intro out h
    unfold Login at h
    split at h
    · cases h
    · cases h
    · rename_i userEntity hres
      unfold loginResolve at hres
      split at hres
      · rename_i hshape
        simp only [Bool.and_eq_true, decide_eq_true_eq] at hshape
        split at hres
        · cases hres
        · rename_i u hfind
          split at hres
          · rename_i hcmp
            simp only [Except.ok.injEq, Option.some.injEq] at hres
            subst hres
            split at h
            · cases h
            · simp only [Outcome.ok.injEq] at h
              subst h
              exact ⟨hshape.1, hshape.2, u, hfind, FindByEmail_ok _ _ _ hfind, hcmp,
                rfl, rfl, rfl, rfl, rfl⟩
          · cases hres
      · split at hres
        · cases hres
        · cases hres
  refine ⟨key, ?_, ?_⟩
  · intro hno out h
    obtain ⟨he, hp, _⟩ := key out h
    rcases hno with h0 | h0
    · exact he h0
    · exact hp h0
  · intro hno hw hm hsig
    unfold Login loginResolve
    rw [if_neg (shape_false input hno)]
    rw [if_pos (by simp [hw, hm, hsig])]

set_option maxRecDepth 100000 in
/-- Witness of C5: the password login of alice against the table that holds her. -/
theorem Login_success_is_authenticated_witness :
    aliceLogin.Email ≠ "" ∧ aliceLogin.Password ≠ ""
      ∧ ∃ u, FindByEmail aliceDB aliceLogin.Email = .ok u
          ∧ (∃ m ∈ aliceDB.users, m.Email = aliceLogin.Email ∧ m.DeletedAt = none
              ∧ u = modelToDomain m)
          ∧ refHasher.CompareHashAndPassword u.Password aliceLogin.Password = true
          ∧ aliceOutput.ID = u.ID ∧ aliceOutput.Username = u.Username
          ∧ aliceOutput.Email = u.Email ∧ aliceOutput.WalletAddr = u.WalletAddr
          ∧ aliceOutput.UserType = u.UserType :=
  (Login_success_is_authenticated refHasher refLib serverConfig 1700000000000000000
    1700000000000000000 aliceDB aliceLogin).1 aliceOutput (by rfl)

/-- C6: with the same input, a store in which no row has the email and a store
that resolves an identity for the email whose stored hash does not verify the
password give the same `Login` result; when email and password are both given
it is the error with code UNAUTHORIZED, status 401 and one fixed message and
detail. -/
theorem Login_failure_indistinguishable (hs : Hasher) (lib : JwtLib) (cfg : JWTConfig)
    (nowExp nowIat nowExp2 nowIat2 : Time) (db1 db2 : DB) (input : LoginUserInput) (u : User)
    (habsent : ∀ m ∈ db1.users, m.Email ≠ input.Email)
    (hfound : FindByEmail db2 input.Email = .ok u)
    (hbad : hs.CompareHashAndPassword u.Password input.Password = false) :
    Login hs lib cfg nowExp nowIat db1 input = Login hs lib cfg nowExp2 nowIat2 db2 input
    ∧ (input.Email ≠ "" → input.Password ≠ "" →
        Login hs lib cfg nowExp nowIat db1 input
          = .err (.api { Code := "UNAUTHORIZED", Message := "登录失败",
                         Detail := "邮箱或密码错误", Status := 401 })) := by
  obtain ⟨e, he⟩ := FindByEmail_error_of_absent db1 input.Email habsent
  by_cases hshape : input.Email ≠ "" ∧ input.Password ≠ ""
  · have hc : (decide (input.Email ≠ "") && decide (input.Password ≠ "")) = true := by
      simp [hshape.1, hshape.2]
    have h1 : loginResolve hs db1 input
        = .error (.api (NewUnauthorizedError "登录失败" "邮箱或密码错误")) := by
      unfold loginResolve
      rw [if_pos hc, he]
    have h2 : loginResolve hs db2 input
        = .error (.api (NewUnauthorizedError "登录失败" "邮箱或密码错误")) := by
      unfold loginResolve
      rw [if_pos hc, hfound]
      simp [hbad]
    have hL1 : Login hs lib cfg nowExp nowIat db1 input
        = .err (.api (NewUnauthorizedError "登录失败" "邮箱或密码错误")) := by
      unfold Login
      rw [h1]
    have hL2 : Login hs lib cfg nowExp2 nowIat2 db2 input
        = .err (.api (NewUnauthorizedError "登录失败" "邮箱或密码错误")) := by
      unfold Login
      rw [h2]
    exact ⟨by rw [hL1, hL2], fun _ _ => hL1⟩
  · have hno : input.Email = "" ∨ input.Password = "" := by
      by_cases h0 : input.Email = ""
      · exact Or.inl h0
      · right
        by_contra h1
        exact hshape ⟨h0, h1⟩
    have hr := loginResolve_no_password hs db1 db2 input hno
    have hcases : ∀ (nE nI : Time) (d : DB), Login hs lib cfg nE nI d input
        = match loginResolve hs d input with
          | .error e => .err e
          | .ok none => .panic "invalid memory address or nil pointer dereference"
          | .ok (some _) => Login hs lib cfg nE nI d input := by
      intro nE nI d
      unfold Login
      split <;> rfl
    have hnone : ∀ d x, loginResolve hs d input ≠ .ok (some x) := by
      intro d x hx
      unfold loginResolve at hx
      rw [if_neg (shape_false input hno)] at hx
      split at hx <;> cases hx
    refine ⟨?_, fun h0 h1 => absurd ⟨h0, h1⟩ hshape⟩
    rw [hcases nowExp nowIat db1, hcases nowExp2 nowIat2 db2, hr]
    cases hres : loginResolve hs db2 input with
    | error e => rfl
    | ok o =>
      cases o with
      | none => rfl
      | some x => exact absurd hres (hnone db2 x)

set_option maxRecDepth 100000 in
/-- Witness of C6: the email of alice with a wrong password, against an empty
table and against the table that holds her. -/
theorem Login_failure_indistinguishable_witness :
    Login refHasher refLib serverConfig 1700000000000000000 1700000000000000000 emptyDB wrongLogin
      = Login refHasher refLib serverConfig 1700000000000000000 1700000000000000000 aliceDB
          wrongLogin
    ∧ (wrongLogin.Email ≠ "" → wrongLogin.Password ≠ "" →
        Login refHasher refLib serverConfig 1700000000000000000 1700000000000000000 emptyDB
            wrongLogin
          = .err (.api { Code := "UNAUTHORIZED", Message := "登录失败",
                         Detail := "邮箱或密码错误", Status := 401 })) :=
  Login_failure_indistinguishable refHasher refLib serverConfig 1700000000000000000
    1700000000000000000 1700000000000000000 1700000000000000000 emptyDB aliceDB wrongLogin
    aliceUser (fun m hm => by cases hm) (by rfl) (by rfl)

/-! ## C7 to C9: the admission gate -/

/-- C7: `AdminRequired` calls the next handler exactly when the key map holds
the string admin under `user_type`; a `user_type` holding another string gives
status 403 with a Forbidden error, a missing `user_type` gives status 401;
behind the JWT middleware an admitted token reaches the handler when its role
claim is admin and is refused with Forbidden, status 403, when it is anything
else, regular included. -/
theorem AdminRequired_gate :
    (∀ keys, (∃ ks, AdminRequired keys = .next ks) ↔ keys.Get "user_type" = some (.str "admin"))
    ∧ (∀ keys, keys.Get "user_type" = some (.str "admin") → AdminRequired keys = .next keys)
    ∧ (∀ keys role, keys.Get "user_type" = some (.str role) → role ≠ "admin" →
        AdminRequired keys = .abort 403
          { Code := "FORBIDDEN", Message := "权限不足", Detail := "需要管理员权限", Status := 403 }
          keys)
    ∧ (∀ keys, keys.Get "user_type" = none →
        AdminRequired keys = .abort 401
          { Code := "UNAUTHORIZED", Message := "未授权", Detail := "请先登录", Status := 401 } keys)
    ∧ (∀ (lib : JwtLib) (cfg : JWTConfig) (np now : Int) (hdr : String) (ks : Keys),
        JWT lib cfg np now hdr [] = .next ks →
        ∃ role, ks.Get "user_type" = some (.str role)
          ∧ (role = "admin" → adminChain lib cfg np now hdr = .next ks)
          ∧ (role ≠ "admin" → adminChain lib cfg np now hdr = .abort 403
              { Code := "FORBIDDEN", Message := "权限不足", Detail := "需要管理员权限",
                Status := 403 } ks)) := by
  have hadmin : ∀ keys, keys.Get "user_type" = some (.str "admin") →
      AdminRequired keys = .next keys := by
    intro keys h
    unfold AdminRequired
    rw [h]
    simp [UserTypeAdmin]
  have hother : ∀ keys role, keys.Get "user_type" = some (.str role) → role ≠ "admin" →
      AdminRequired keys = .abort 403
        { Code := "FORBIDDEN", Message := "权限不足", Detail := "需要管理员权限", Status := 403 }
        keys := by
    intro keys role h hne
    unfold AdminRequired
    rw [h]
    simp only [UserTypeAdmin, ne_eq, hne, not_false_eq_true, if_true]
    rfl
  refine ⟨?_, hadmin, hother, ?_, ?_⟩
  · intro keys
    constructor
    · rintro ⟨ks, h⟩
      unfold AdminRequired at h
      split at h
      · cases h
      · rename_i userType hg
        by_cases hu : userType = UserTypeAdmin
        · rw [hg, hu]
          rfl
        · rw [if_pos hu] at h
          cases h
      · cases h
    · intro h
      exact ⟨keys, hadmin keys h⟩
  · intro keys h
    unfold AdminRequired
    rw [h]
    rfl
  · intro lib cfg np now hdr ks h
    obtain ⟨tok, p0, p1, p2, _, _, hk⟩ := JWT_next_inv lib cfg np now hdr [] ks h
    have hut : ks.Get "user_type" = some (.str (lib.decodeClaims p1).1.UserType) := by
      rw [hk]
      exact attached_Get_user_type _ _
    refine ⟨_, hut, ?_, ?_⟩
    · intro hr
      unfold adminChain
      rw [h]
      exact hadmin ks (by rw [hut, hr])
    · intro hr
      unfold adminChain
      rw [h]
      exact hother ks _ hut hr

set_option maxRecDepth 100000 in
/-- Witness of C7: a key map with role regular is refused with status 403, and
behind the JWT middleware the token of a regular user is refused while the
token of an admin reaches the handler. -/
theorem AdminRequired_gate_witness :
    AdminRequired [("user_type", .str "regular")]
      = .abort 403
          { Code := "FORBIDDEN", Message := "权限不足", Detail := "需要管理员权限", Status := 403 }
          [("user_type", .str "regular")]
    ∧ (∃ role, (attached [] regularClaims).Get "user_type" = some (.str role)
        ∧ (role = "admin" →
            adminChain refLib serverConfig 1700000000 1700000000 ("Bearer " ++ regularToken)
              = .next (attached [] regularClaims))
        ∧ (role ≠ "admin" →
            adminChain refLib serverConfig 1700000000 1700000000 ("Bearer " ++ regularToken)
              = .abort 403
                  { Code := "FORBIDDEN", Message := "权限不足", Detail := "需要管理员权限",
                    Status := 403 } (attached [] regularClaims)))
    ∧ AdminRequired (attached [] adminClaims) = .next (attached [] adminClaims) :=
  ⟨AdminRequired_gate.2.2.1 [("user_type", .str "regular")] "regular" (by rfl) (by decide),
   AdminRequired_gate.2.2.2.2 refLib serverConfig 1700000000 1700000000
     ("Bearer " ++ regularToken) (attached [] regularClaims) (by rfl),
   AdminRequired_gate.2.1 (attached [] adminClaims) (by rfl)⟩

/-- C8: when the Authorization header is empty, or is not the scheme Bearer, one
space and a remainder, the middleware aborts with status 401 and an
Unauthorized error, leaves the key map as it was, and does not call the next
handler; the response is the same for every library, configuration and clock,
so no token is parsed. -/
theorem JWT_rejects_bad_header (lib : JwtLib) (cfg : JWTConfig) (np now : Int) (hdr : String)
    (keys : Keys) (h : hdr = "" ∨ ∀ rest, hdr ≠ "Bearer " ++ rest) :
    (∃ message detail, JWT lib cfg np now hdr keys
        = .abort 401 { Code := "UNAUTHORIZED", Message := message, Detail := detail,
                       Status := 401 } keys)
    ∧ (∀ ks, JWT lib cfg np now hdr keys ≠ .next ks)
    ∧ (∀ (lib2 : JwtLib) (cfg2 : JWTConfig) (np2 now2 : Int),
        JWT lib2 cfg2 np2 now2 hdr keys = JWT lib cfg np now hdr keys) := by
  have hJ := JWT_header_checks lib cfg np now hdr keys h
  refine ⟨?_, ?_, ?_⟩
  · by_cases h0 : hdr = ""
    · exact ⟨_, _, by rw [hJ, if_pos h0]; rfl⟩
    · exact ⟨_, _, by rw [hJ, if_neg h0]; rfl⟩
  · intro ks hks
    rw [hJ] at hks
    cases hks
  · intro lib2 cfg2 np2 now2
    rw [hJ, JWT_header_checks lib2 cfg2 np2 now2 hdr keys h]

/-- Witness of C8: the header Token abc. -/
theorem JWT_rejects_bad_header_witness :
    (∃ message detail, JWT refLib serverConfig 1700000000 1700000000 "Token abc" []
        = .abort 401 { Code := "UNAUTHORIZED", Message := message, Detail := detail,
                       Status := 401 } [])
    ∧ (∀ ks, JWT refLib serverConfig 1700000000 1700000000 "Token abc" [] ≠ .next ks)
    ∧ (∀ (lib2 : JwtLib) (cfg2 : JWTConfig) (np2 now2 : Int),
        JWT lib2 cfg2 np2 now2 "Token abc" []
          = JWT refLib serverConfig 1700000000 1700000000 "Token abc" []) :=
  JWT_rejects_bad_header refLib serverConfig 1700000000 1700000000 "Token abc" []
    (Or.inr (fun rest h => by
      have := congrArg String.data h
      rw [bearer_data] at this
      simp at this))

/-- C9: when the middleware admits a request, the header is Bearer, a space and
a token of three segments, and with `c` the claims decoded from its second
segment the key map handed on has `user_id = c.UserID`, `user_type =
c.UserType`, `wallet_addr = c.WalletAddr` when that is not empty and the
entry it had on entry otherwise (none on a fresh context), and under `claims`
the value `c` itself, expires-at included. -/
theorem JWT_context_on_admit (lib : JwtLib) (cfg : JWTConfig) (np now : Int) (hdr : String)
    (keys ks : Keys) (h : JWT lib cfg np now hdr keys = .next ks) :
    ∃ tok p0 p1 p2, hdr = "Bearer " ++ tok ∧ Split tok = [p0, p1, p2]
      ∧ ks.Get "user_id" = some (.uint (lib.decodeClaims p1).1.UserID)
      ∧ ks.Get "user_type" = some (.str (lib.decodeClaims p1).1.UserType)
      ∧ ((lib.decodeClaims p1).1.WalletAddr ≠ "" →
          ks.Get "wallet_addr" = some (.str (lib.decodeClaims p1).1.WalletAddr))
      ∧ ((lib.decodeClaims p1).1.WalletAddr = "" →
          ks.Get "wallet_addr" = keys.Get "wallet_addr")
      ∧ (keys.Get "wallet_addr" = none →
          ((ks.Get "wallet_addr").isSome ↔ (lib.decodeClaims p1).1.WalletAddr ≠ ""))
      ∧ ks.Get "claims" = some (.claims (lib.decodeClaims p1).1)
      ∧ (∀ c, ks.Get "claims" = some (.claims c) →
          c.ExpiresAt = (lib.decodeClaims p1).1.ExpiresAt) := by
  obtain ⟨tok, p0, p1, p2, hh, hs, hk⟩ := JWT_next_inv lib cfg np now hdr keys ks h
  subst hk
  have hw := attached_Get_wallet_addr keys (lib.decodeClaims p1).1
  refine ⟨tok, p0, p1, p2, hh, hs, attached_Get_user_id _ _, attached_Get_user_type _ _,
    ?_, ?_, ?_, attached_Get_claims _ _, ?_⟩
  · intro hne
    rw [hw, if_pos hne]
  · intro he
    rw [hw, if_neg (by simpa using he)]
  · intro hnone
    rw [hw]
    by_cases he : (lib.decodeClaims p1).1.WalletAddr = ""
    · rw [if_neg (by simpa using he), hnone]
      simp [he]
    · rw [if_pos he]
      simp [he]
  · intro c hc2
    rw [attached_Get_claims] at hc2
    injection hc2 with hc3
    injection hc3 with hc4
    rw [hc4]

set_option maxRecDepth 100000 in
/-- Witness of C9: the token signed under the server key, on a fresh context. -/
theorem JWT_context_on_admit_witness :
    ∃ tok p0 p1 p2, "Bearer " ++ serverToken = "Bearer " ++ tok ∧ Split tok = [p0, p1, p2]
      ∧ (attached [] adminClaims).Get "user_id" = some (.uint (refLib.decodeClaims p1).1.UserID)
      ∧ (attached [] adminClaims).Get "user_type"
          = some (.str (refLib.decodeClaims p1).1.UserType)
      ∧ ((refLib.decodeClaims p1).1.WalletAddr ≠ "" →
          (attached [] adminClaims).Get "wallet_addr"
            = some (.str (refLib.decodeClaims p1).1.WalletAddr))
      ∧ ((refLib.decodeClaims p1).1.WalletAddr = "" →
          (attached [] adminClaims).Get "wallet_addr" = Keys.Get [] "wallet_addr")
      ∧ (Keys.Get [] "wallet_addr" = none →
          (((attached [] adminClaims).Get "wallet_addr").isSome
            ↔ (refLib.decodeClaims p1).1.WalletAddr ≠ ""))
      ∧ (attached [] adminClaims).Get "claims" = some (.claims (refLib.decodeClaims p1).1)
      ∧ (∀ c, (attached [] adminClaims).Get "claims" = some (.claims c) →
          c.ExpiresAt = (refLib.decodeClaims p1).1.ExpiresAt) :=
  JWT_context_on_admit refLib serverConfig 1700000000 1700000000 ("Bearer " ++ serverToken) []
    (attached [] adminClaims) (by rfl)

/-! ## C10: registration -/

/-- C10: after a `Register` that succeeded, a second `Register` whose input has
the same email fails with a DUPLICATE_ENTITY error of status 409 whose detail
is that email, and leaves the store exactly as it was. -/
theorem Register_same_email_twice (hs hs2 : Hasher) (lib lib2 : JwtLib) (cfg cfg2 : JWTConfig)
    (nowDB nowExp nowIat nowDB2 nowExp2 nowIat2 : Time) (db db1 : DB)
    (in1 in2 : CreateUserInput) (out : UserOutput)
    (hemail : in2.Email = in1.Email)
    (h1 : Register hs lib cfg nowDB nowExp nowIat db in1 = (db1, .ok out)) :
    Register hs2 lib2 cfg2 nowDB2 nowExp2 nowIat2 db1 in2
      = (db1, .error (.api { Code := "DUPLICATE_ENTITY", Message := "邮箱已被注册",
                             Detail := in2.Email, Status := 409 })) := by
  obtain ⟨hf, hm⟩ := Register_ok _ _ _ _ _ _ _ _ _ _ h1
  rw [← hemail] at hm
  obtain ⟨u, hu⟩ := FindByEmail_ok_of_mem db1 in2.Email hf hm
  unfold Register
  rw [hu]
  rfl

set_option maxRecDepth 100000 in
/-- Witness of C10: alice registers into an empty table, then a second input
with her email is registered. -/
theorem Register_same_email_twice_witness :
    Register refHasher refLib serverConfig 1700000000000000000 1700000000000000000
        1700000000000000000 aliceDB
        { Username := "alice2", Email := "a@x.io", Password := "password3", WalletAddr := "" }
      = (aliceDB, .error (.api { Code := "DUPLICATE_ENTITY", Message := "邮箱已被注册",
                                 Detail := "a@x.io", Status := 409 })) :=
  Register_same_email_twice refHasher refHasher refLib refLib serverConfig serverConfig
    1700000000000000000 1700000000000000000 1700000000000000000 1700000000000000000
    1700000000000000000 1700000000000000000 emptyDB aliceDB aliceInput
    { Username := "alice2", Email := "a@x.io", Password := "password3", WalletAddr := "" }
    aliceOutput rfl (by rfl)

/-! ## The insert and its failure -/

theorem firstOk_iff (db : DB) (cond : UserModel → Bool) :
    db.firstOk cond = true ↔ db.fault = none ∧ db.hasLive cond := by
  unfold DB.firstOk DB.First DB.hasLive
  cases hf : db.fault with
  | some t => simp
  | none =>
    simp only [true_and]
    cases hfind : db.users.find? (fun m => m.DeletedAt.isNone && cond m) with
    | none =>
      rw [List.find?_eq_none] at hfind
      simp only [Bool.false_eq_true, false_iff, not_exists, not_and]
      intro m hm hd hc
      exact hfind m hm (by simp [hd, hc])
    | some r =>
      have hp := List.find?_some hfind
      have hm := List.mem_of_find?_eq_some hfind
      simp only [Bool.and_eq_true, Option.isNone_iff_eq_none] at hp
      simp only [true_iff]
      exact ⟨r, hm, hp.1, hp.2⟩

/-- A failed insert leaves the store as it was. -/
theorem dbCreate_error (db : DB) (now : Time) (model : UserModel) (err : GormError)
    (h : (db.Create now model).2 = .error err) : db.Create now model = (db, .error err) := by
  cases hf : db.fault with
  | some t =>
    rw [dbCreate_fault db now model t hf] at h ⊢
    simp only at h
    rw [h]
  | none =>
    cases hl : model.fitsColumns with
    | false =>
      rw [dbCreate_too_long db now model hf hl] at h ⊢
      simp only at h
      rw [h]
    | true =>
      cases hc : db.conflicts (db.newRow now model) with
      | true =>
        rw [dbCreate_duplicate db now model hf hl hc] at h ⊢
        simp only at h
        rw [h]
      | false =>
        rw [dbCreate_inserts db now model hf hl hc] at h
        simp at h

/-- When the insert fails, the repository returns the error of its three
lookups and leaves the store as it was. -/
theorem Create_of_insert_error (db : DB) (now : Time) (u : User) (err : GormError)
    (h : (db.Create now (domainToModel u)).2 = .error err) :
    Create db now u = (db, .error (createFailure db u err)) := by
  have h2 := dbCreate_error db now _ err h
  unfold Create createFailure
  simp only [h2]
  split
  · rfl
  · split
    · rfl
    · split <;> rfl

/-- With a working connection, an insert that shares a unique column with a row
of the table fails. -/
theorem dbCreate_conflict (db : DB) (now : Time) (model : UserModel) (hf : db.fault = none)
    (h : ∃ r ∈ db.users, r.Username = model.Username ∨ r.Email = model.Email
      ∨ r.WalletAddr = model.WalletAddr) :
    ∃ err, (db.Create now model).2 = .error err := by
  obtain ⟨r, hr, hc⟩ := h
  have hconf : db.conflicts (db.newRow now model) = true := by
    unfold DB.conflicts
    rw [List.any_eq_true]
    refine ⟨r, hr, ?_⟩
    simp only [DB.newRow, Bool.or_eq_true, beq_iff_eq]
    rcases hc with hc | hc | hc
    · exact Or.inl (Or.inl (Or.inr hc))
    · exact Or.inl (Or.inr hc)
    · exact Or.inr hc
  cases hl : model.fitsColumns with
  | false => exact ⟨_, by rw [dbCreate_too_long db now model hf hl]⟩
  | true => exact ⟨_, by rw [dbCreate_duplicate db now model hf hl hconf]⟩

/-- The second part of `Register` when the hash is made and the insert fails. -/
theorem registerInsert_of_insert_error (hs : Hasher) (lib : JwtLib) (cfg : JWTConfig)
    (nowDB nowExp nowIat : Time) (db : DB) (input : CreateUserInput) (hashed : String)
    (err : GormError) (hhash : hs.GenerateFromPassword input.Password = .ok hashed)
    (hfail : (db.Create nowDB (domainToModel (registerUser input hashed))).2 = .error err) :
    registerInsert hs lib cfg nowDB nowExp nowIat db input
      = (db, .error (createFailure db (registerUser input hashed) err)) := by
  unfold registerInsert
  simp only [hhash, Create_of_insert_error db nowDB _ err hfail]

/-- `Register` is its two lookups followed by the rest. -/
theorem Register_split (hs : Hasher) (lib : JwtLib) (cfg : JWTConfig)
    (nowDB nowExp nowIat : Time) (db : DB) (input : CreateUserInput) :
    Register hs lib cfg nowDB nowExp nowIat db input
      = match registerPrecheck db input with
        | some e => (db, .error e)
        | none => registerInsert hs lib cfg nowDB nowExp nowIat db input := by
  unfold Register registerPrecheck registerInsert registerUser
  cases hfe : FindByEmail db input.Email with
  | ok u => rfl
  | error e =>
    simp only
    by_cases hw : (decide (input.WalletAddr ≠ "")
        && (FindByWalletAddr db input.WalletAddr).toBool) = true
    · rw [if_pos hw, if_pos hw]
    · rw [if_neg hw, if_neg hw]

/-! ## C11 and C12: which field a failed insert names -/

/-- The lookup by wallet address succeeds exactly when the query finds a row. -/
theorem FindByWalletAddr_toBool (db : DB) (w : String) :
    (FindByWalletAddr db w).toBool = db.firstOk (fun m => m.WalletAddr == w) := by
  unfold FindByWalletAddr DB.firstOk
  cases h : db.First (fun m => m.WalletAddr == w) with
  | ok m => rfl
  | error e => cases e <;> rfl

/-- The two lookups at the head of `Register` in terms of what they find. -/
theorem registerPrecheck_eq (db : DB) (input : CreateUserInput) :
    registerPrecheck db input
      = if db.firstOk (fun m => m.Email == input.Email) = true then
          some (.api (NewDuplicateEntityError "邮箱已被注册" input.Email))
        else if input.WalletAddr ≠ ""
            ∧ db.firstOk (fun m => m.WalletAddr == input.WalletAddr) = true then
          some (.api (NewDuplicateEntityError "钱包地址已被绑定" input.WalletAddr))
        else none := by
  unfold registerPrecheck
  rw [FindByWalletAddr_toBool]
  unfold FindByEmail DB.firstOk
  cases db.First (fun m => m.Email == input.Email) with
  | ok m =>
    simp only [if_true]
  | error e =>
    cases e with
    | ErrRecordNotFound =>
      simp only [Bool.false_eq_true, if_false, Bool.and_eq_true, decide_eq_true_eq]
    | other t =>
      simp only [Bool.false_eq_true, if_false, Bool.and_eq_true, decide_eq_true_eq]

/-- The error of the repository after a failed insert in terms of what its
three lookups find. -/
theorem createFailure_eq (db : DB) (u : User) (err : GormError) :
    createFailure db u err
      = if db.firstOk (fun m => m.Email == u.Email) = true then
          .api { Code := "DUPLICATE_ENTITY", Message := "邮箱已被使用", Detail := u.Email,
                 Status := 409 }
        else if u.WalletAddr ≠ ""
            ∧ db.firstOk (fun m => m.WalletAddr == u.WalletAddr) = true then
          .api { Code := "DUPLICATE_ENTITY", Message := "钱包地址已被绑定",
                 Detail := u.WalletAddr, Status := 409 }
        else if db.firstOk (fun m => m.Username == u.Username) = true then
          .api { Code := "DUPLICATE_ENTITY", Message := "用户名已被使用", Detail := u.Username,
                 Status := 409 }
        else .other ("创建用户错误: " ++ err.text) := by
  unfold createFailure
  simp only [Bool.and_eq_true, decide_eq_true_eq]
  rfl

/-- C11 as stated fails: the insert of `Register` can fail and the error
returned be the wrapped insert error, which is no DUPLICATE_ENTITY error. With
the connection lost the insert of robert fails and `Register` returns the
wrapped connection error. On the table that the repository `Delete` of alice
leaves, which holds her soft-deleted row, the insert of alicia is refused for
her email, the three lookups find no live row, and `Register` returns the
wrapped error of the store. -/
theorem insert_failure_not_always_DuplicateEntity :
    (faultyDB.Create 1700000900000000000
        (domainToModel (registerUser robertInput "$2a$10$password8"))).2
      = .error (.other "dial tcp 10.0.0.5:3306: connect: connection refused")
    ∧ Register refHasher refLib serverConfig 1700000900000000000 1700000900000000000
          1700000900000000000 faultyDB robertInput
        = (faultyDB,
           .error (.other "创建用户错误: dial tcp 10.0.0.5:3306: connect: connection refused"))
    ∧ Delete aliceDB 1700000600000000000 1 = (deletedDB, none)
    ∧ (deletedDB.Create 1700000900000000000
        (domainToModel (registerUser aliciaInput "$2a$10$password7"))).2
      = .error (.other "Error 1062: Duplicate entry")
    ∧ Register refHasher refLib serverConfig 1700000900000000000 1700000900000000000
          1700000900000000000 deletedDB aliciaInput
        = (deletedDB, .error (.other "创建用户错误: Error 1062: Duplicate entry")) :=
  ⟨by rfl, by rfl, by rfl, by rfl, by rfl⟩

/-- C11, amended: when the hash is made and the insert of `Register` fails on
the store, the repository `Create` leaves the store as it was and returns the
DUPLICATE_ENTITY error of status 409 that names the first field its lookups
find with a live identity, in the order email, wallet address (not looked up
when empty), username, and the wrapped insert error when they find none.
`Register` returns the error for the same store in the same order: the email
and the wallet address are caught by its own two lookups before the insert,
the username and the wrapped insert error come from the repository unchanged.
A lookup finds an identity exactly when the connection works and a live row
of the table meets the condition. -/
theorem Register_insert_failure_error (hs : Hasher) (lib : JwtLib) (cfg : JWTConfig)
    (nowDB nowExp nowIat : Time) (db : DB) (input : CreateUserInput) (hashed : String)
    (err : GormError)
    (hhash : hs.GenerateFromPassword input.Password = .ok hashed)
    (hfail : (db.Create nowDB (domainToModel (registerUser input hashed))).2 = .error err) :
    Create db nowDB (registerUser input hashed)
      = (db, .error
          (if db.firstOk (fun m => m.Email == input.Email) = true then
            .api { Code := "DUPLICATE_ENTITY", Message := "邮箱已被使用",
                   Detail := input.Email, Status := 409 }
          else if input.WalletAddr ≠ ""
              ∧ db.firstOk (fun m => m.WalletAddr == input.WalletAddr) = true then
            .api { Code := "DUPLICATE_ENTITY", Message := "钱包地址已被绑定",
                   Detail := input.WalletAddr, Status := 409 }
          else if db.firstOk (fun m => m.Username == input.Username) = true then
            .api { Code := "DUPLICATE_ENTITY", Message := "用户名已被使用",
                   Detail := input.Username, Status := 409 }
          else .other ("创建用户错误: " ++ err.text)))
    ∧ Register hs lib cfg nowDB nowExp nowIat db input
      = (db, .error
          (if db.firstOk (fun m => m.Email == input.Email) = true then
            .api { Code := "DUPLICATE_ENTITY", Message := "邮箱已被注册",
                   Detail := input.Email, Status := 409 }
          else if input.WalletAddr ≠ ""
              ∧ db.firstOk (fun m => m.WalletAddr == input.WalletAddr) = true then
            .api { Code := "DUPLICATE_ENTITY", Message := "钱包地址已被绑定",
                   Detail := input.WalletAddr, Status := 409 }
          else if db.firstOk (fun m => m.Username == input.Username) = true then
            .api { Code := "DUPLICATE_ENTITY", Message := "用户名已被使用",
                   Detail := input.Username, Status := 409 }
          else .other ("创建用户错误: " ++ err.text)))
    ∧ (∀ cond, db.firstOk cond = true ↔ (db.fault = none ∧ db.hasLive cond)) := by
  have hC := Create_of_insert_error db nowDB (registerUser input hashed) err hfail
  have hF := createFailure_eq db (registerUser input hashed) err
  simp only [registerUser] at hF
  refine ⟨?_, ?_, fun cond => firstOk_iff db cond⟩
  · rw [hC, createFailure_eq]
    rfl
  · rw [Register_split, registerPrecheck_eq]
    by_cases hE : db.firstOk (fun m => m.Email == input.Email) = true
    · rw [if_pos hE, if_pos hE]
      rfl
    · rw [if_neg hE, if_neg hE]
      by_cases hW : input.WalletAddr ≠ ""
          ∧ db.firstOk (fun m => m.WalletAddr == input.WalletAddr) = true
      · rw [if_pos hW, if_pos hW]
        rfl
      · rw [if_neg hW, if_neg hW]
        simp only
        rw [registerInsert_of_insert_error hs lib cfg nowDB nowExp nowIat db input hashed err
          hhash hfail, createFailure_eq]
        simp only [registerUser]
        rw [if_neg hE, if_neg hW]

set_option maxRecDepth 100000 in
/-- Witness of C11: on the table that holds alice and bob the insert of robert,
who has the username of bob, a free email and a free wallet address, is
refused, and `Register` returns the error that names the username. -/
theorem Register_insert_failure_error_witness :
    Register refHasher refLib serverConfig 1700000900000000000 1700000900000000000
        1700000900000000000 twoDB robertInput
      = (twoDB, .error (.api { Code := "DUPLICATE_ENTITY", Message := "用户名已被使用",
                               Detail := "bob", Status := 409 })) :=
  (Register_insert_failure_error refHasher refLib serverConfig 1700000900000000000
    1700000900000000000 1700000900000000000 twoDB robertInput "$2a$10$password8"
    (.other "Error 1062: Duplicate entry") (by rfl) (by rfl)).2.1.trans (by rfl)

/-- C12 as stated fails: with a free email and both the username and the
wallet address of bob, the insert fails and the repository names the wallet
address of bob, not the username bob; so does `Register`, at its second lookup. -/
theorem wallet_named_before_username :
    ¬ twoDB.hasLive (fun m => m.Email == clashBob.Email)
    ∧ twoDB.hasLive (fun m => m.Username == clashBob.Username)
    ∧ twoDB.hasLive (fun m => m.WalletAddr == clashBob.WalletAddr)
    ∧ clashBob.WalletAddr ≠ ""
    ∧ Create twoDB 1700000900000000000 (registerUser clashBob "$2a$10$password3")
        = (twoDB, .error (.api { Code := "DUPLICATE_ENTITY", Message := "钱包地址已被绑定",
                                 Detail := bobWallet, Status := 409 }))
    ∧ Register refHasher refLib serverConfig 1700000900000000000 1700000900000000000
          1700000900000000000 twoDB clashBob
        = (twoDB, .error (.api { Code := "DUPLICATE_ENTITY", Message := "钱包地址已被绑定",
                                 Detail := bobWallet, Status := 409 }))
    ∧ clashBob.Username ≠ bobWallet := by
  refine ⟨?_, ⟨bobRow, by simp [twoDB], rfl, by rfl⟩, ⟨bobRow, by simp [twoDB], rfl, by rfl⟩,
    by decide, by rfl, by rfl, by decide⟩
  rintro ⟨m, hm, _, hc⟩
  simp only [twoDB, aliceDB, List.cons_append, List.nil_append, List.mem_cons,
    List.mem_singleton, List.not_mem_nil, or_false] at hm
  rcases hm with rfl | rfl
  · exact absurd hc (by decide)
  · exact absurd hc (by decide)

/-- C12, amended: the order is email, then wallet address, then username. On a
working connection, for every insert whose email no live identity has and
whose non-empty wallet address is held by a live identity, the repository
returns the DUPLICATE_ENTITY error that names the wallet address, whether or
not the username is held too, and the store is left as it was. -/
theorem Create_names_wallet_before_username (db : DB) (now : Time) (u : User)
    (hconn : db.fault = none)
    (hemail : ¬ db.hasLive (fun m => m.Email == u.Email))
    (hne : u.WalletAddr ≠ "")
    (hwallet : db.hasLive (fun m => m.WalletAddr == u.WalletAddr)) :
    Create db now u
      = (db, .error (.api { Code := "DUPLICATE_ENTITY", Message := "钱包地址已被绑定",
                            Detail := u.WalletAddr, Status := 409 })) := by
  have hfail : ∃ err, (db.Create now (domainToModel u)).2 = .error err := by
    apply dbCreate_conflict db now _ hconn
    obtain ⟨r, hr, _, hc⟩ := hwallet
    exact ⟨r, hr, Or.inr (Or.inr (by simpa [domainToModel] using hc))⟩
  obtain ⟨err, hfail⟩ := hfail
  rw [Create_of_insert_error db now u _ hfail]
  have hE := firstOk_iff db (fun m => m.Email == u.Email)
  have hW := firstOk_iff db (fun m => m.WalletAddr == u.WalletAddr)
  simp only [hconn, true_and] at hE hW
  unfold createFailure
  rw [if_neg (fun h => hemail (hE.mp h)), if_pos (by simp [hne, hW.mpr hwallet])]
  rfl

/-- Witness of C12: the input with a free email and the username and wallet
address of bob. -/
theorem Create_names_wallet_before_username_witness :
    Create twoDB 1700000900000000000 (registerUser clashBob "$2a$10$password3")
      = (twoDB, .error (.api { Code := "DUPLICATE_ENTITY", Message := "钱包地址已被绑定",
                               Detail := (registerUser clashBob "$2a$10$password3").WalletAddr,
                               Status := 409 })) :=
  Create_names_wallet_before_username twoDB 1700000900000000000
    (registerUser clashBob "$2a$10$password3") rfl
    (by
      rintro ⟨m, hm, _, hc⟩
      simp only [twoDB, aliceDB, List.cons_append, List.nil_append, List.mem_cons,
        List.mem_singleton, List.not_mem_nil, or_false] at hm
      rcases hm with rfl | rfl
      · exact absurd hc (by decide)
      · exact absurd hc (by decide))
    (by decide) ⟨bobRow, by simp [twoDB], rfl, by rfl⟩

/-! ## What a successful registration leaves behind -/

/-- A successful repository `Create`: the insert succeeded and the user carries
the key and the time stamps of the stored row. -/
theorem Create_ok_eq (db db1 : DB) (now : Time) (u u1 : User)
    (h : Create db now u = (db1, .ok u1)) :
    ∃ row, db.Create now (domainToModel u) = (db1, .ok row)
      ∧ u1 = { u with ID := row.ID, CreatedAt := row.CreatedAt, UpdatedAt := row.UpdatedAt } := by
  unfold Create at h
  cases hc : db.Create now (domainToModel u) with
  | mk db2 r =>
    cases r with
    | error e =>
      simp only [hc] at h
      split at h
      · simp at h
      · split at h
        · simp at h
        · split at h <;> simp at h
    | ok row =>
      simp only [hc, Prod.mk.injEq, Except.ok.injEq] at h
      obtain ⟨h1, h2⟩ := h
      subst h1
      exact ⟨row, rfl, h2.symm⟩

/-- What is known when `Register` succeeds. -/
theorem Register_success_inv (hs : Hasher) (lib : JwtLib) (cfg : JWTConfig)
    (nowDB nowExp nowIat : Time) (db db1 : DB) (input : CreateUserInput) (out : UserOutput)
    (h : Register hs lib cfg nowDB nowExp nowIat db input = (db1, .ok out)) :
    ∃ hashed, hs.GenerateFromPassword input.Password = .ok hashed
      ∧ registerPrecheck db input = none
      ∧ db.Create nowDB (domainToModel (registerUser input hashed))
          = (db1, .ok (db.newRow nowDB (domainToModel (registerUser input hashed))))
      ∧ GenerateJWT lib nowExp nowIat
            (db.newRow nowDB (domainToModel (registerUser input hashed))).ID UserTypeRegular
            input.WalletAddr cfg = .ok out.Token
      ∧ out = { ID := (db.newRow nowDB (domainToModel (registerUser input hashed))).ID,
                Username := input.Username, Email := input.Email,
                WalletAddr := input.WalletAddr, UserType := UserTypeRegular,
                CreatedAt := (db.newRow nowDB (domainToModel (registerUser input hashed))).CreatedAt,
                Token := out.Token } := by
  rw [Register_split] at h
  cases hpre : registerPrecheck db input with
  | some e => simp [hpre] at h
  | none =>
    simp only [hpre] at h
    unfold registerInsert at h
    cases hg : hs.GenerateFromPassword input.Password with
    | error e => simp [hg] at h
    | ok hashed =>
      simp only [hg] at h
      cases hc : Create db nowDB (registerUser input hashed) with
      | mk db2 r =>
        cases r with
        | error e => simp [hc] at h
        | ok newUser =>
          simp only [hc] at h
          obtain ⟨row, hrow, hu⟩ := Create_ok_eq _ _ _ _ _ hc
          obtain ⟨_, _, hr, _⟩ := dbCreate_ok_eq _ _ _ _ _ hrow
          subst hr
          cases hj : GenerateJWT lib nowExp nowIat newUser.ID newUser.UserType
              newUser.WalletAddr cfg with
          | error e => simp [hj] at h
          | ok token =>
            simp only [hj, Prod.mk.injEq, Except.ok.injEq] at h
            obtain ⟨h1, h2⟩ := h
            subst h1
            subst hu
            refine ⟨hashed, rfl, rfl, hrow, ?_, ?_⟩
            · rw [← h2]
              exact hj
            · rw [← h2]
              rfl

/-! ## C13: what Register stores and returns -/

/-- C13: whenever `Register` succeeds, the row handed to the store (the table
afterwards is the table before with that row inserted) has role regular, the
username, email and wallet address of the input and, as password, the hash the
hasher returned for the input password; its key is the auto-increment value of
the store; the output carries that key, and its token is the signed encoding
of claims with that key as user id, role regular and the wallet address of the
input, which a lawful library decodes back to exactly these claims. -/
theorem Register_success_stores_regular (hs : Hasher) (lib : JwtLib) (cfg : JWTConfig)
    (nowDB nowExp nowIat : Time) (db db1 : DB) (input : CreateUserInput) (out : UserOutput)
    (h : Register hs lib cfg nowDB nowExp nowIat db input = (db1, .ok out)) :
    ∃ hashed row claims,
      hs.GenerateFromPassword input.Password = .ok hashed
      ∧ db1.users = insertByID row db.users
      ∧ row.UserType = "regular" ∧ row.Username = input.Username ∧ row.Email = input.Email
      ∧ row.WalletAddr = input.WalletAddr ∧ row.Password = hashed
      ∧ row.ID = db.autoIncrement ∧ out.ID = row.ID
      ∧ out.Username = input.Username ∧ out.Email = input.Email
      ∧ out.WalletAddr = input.WalletAddr ∧ out.UserType = "regular"
      ∧ SignedString lib claims cfg.Secret = .ok out.Token
      ∧ claims.UserID = row.ID ∧ claims.UserType = "regular"
      ∧ claims.WalletAddr = input.WalletAddr
      ∧ (lib.Lawful → ∀ np, tokenClaims lib np out.Token cfg.Secret = claims) := by
  obtain ⟨hashed, hg, _, hc, hj, ho⟩ :=
    Register_success_inv hs lib cfg nowDB nowExp nowIat db db1 input out h
  obtain ⟨_, _, _, hdb⟩ := dbCreate_ok_eq _ _ _ _ _ hc
  rw [GenerateJWT_eq] at hj
  refine ⟨hashed, db.newRow nowDB (domainToModel (registerUser input hashed)), _, hg, ?_,
    rfl, rfl, rfl, rfl, rfl, ?_, ?_, ?_, ?_, ?_, ?_, hj, rfl, rfl, rfl, ?_⟩
  · rw [hdb]
  · simp [DB.newRow, domainToModel, registerUser]
  · rw [ho]
  · rw [ho]
  · rw [ho]
  · rw [ho]
  · rw [ho]
    rfl
  · intro hl np
    unfold tokenClaims
    rw [ParseWithClaims_SignedString lib hl np _ _ _ hj]

set_option maxRecDepth 100000 in
/-- Witness of C13: alice registers into the empty table. -/
theorem Register_success_stores_regular_witness :
    ∃ hashed row claims,
      refHasher.GenerateFromPassword aliceInput.Password = .ok hashed
      ∧ aliceDB.users = insertByID row emptyDB.users
      ∧ row.UserType = "regular" ∧ row.Username = aliceInput.Username
      ∧ row.Email = aliceInput.Email
      ∧ row.WalletAddr = aliceInput.WalletAddr ∧ row.Password = hashed
      ∧ row.ID = emptyDB.autoIncrement ∧ aliceOutput.ID = row.ID
      ∧ aliceOutput.Username = aliceInput.Username ∧ aliceOutput.Email = aliceInput.Email
      ∧ aliceOutput.WalletAddr = aliceInput.WalletAddr ∧ aliceOutput.UserType = "regular"
      ∧ SignedString refLib claims serverConfig.Secret = .ok aliceOutput.Token
      ∧ claims.UserID = row.ID ∧ claims.UserType = "regular"
      ∧ claims.WalletAddr = aliceInput.WalletAddr
      ∧ (refLib.Lawful → ∀ np, tokenClaims refLib np aliceOutput.Token serverConfig.Secret
          = claims) :=
  Register_success_stores_regular refHasher refLib serverConfig 1700000000000000000
    1700000000000000000 1700000000000000000 emptyDB aliceDB aliceInput aliceOutput (by rfl)

/-! ## C14 to C16: login -/

/-- `Login` once the credential check has resolved an identity. -/
theorem Login_of_resolved (hs : Hasher) (lib : JwtLib) (cfg : JWTConfig) (nowExp nowIat : Time)
    (db : DB) (input : LoginUserInput) (u : User) (tok : String)
    (hres : loginResolve hs db input = .ok (some u))
    (hgen : GenerateJWT lib nowExp nowIat u.ID u.UserType u.WalletAddr cfg = .ok tok) :
    Login hs lib cfg nowExp nowIat db input
      = .ok { ID := u.ID, Username := u.Username, Email := u.Email, WalletAddr := u.WalletAddr,
              UserType := u.UserType, CreatedAt := u.CreatedAt, Token := tok } := by
  unfold Login
  simp only [hres, hgen]

/-- The credential check of a password login that finds the identity and
verifies the password. -/
theorem loginResolve_password (hs : Hasher) (db : DB) (input : LoginUserInput) (u : User)
    (hE : input.Email ≠ "") (hP : input.Password ≠ "")
    (hfound : FindByEmail db input.Email = .ok u)
    (hver : hs.CompareHashAndPassword u.Password input.Password = true) :
    loginResolve hs db input = .ok (some u) := by
  unfold loginResolve
  rw [if_pos (by simp [hE, hP]), hfound]
  simp only [hver, if_true]

/-- A library that always signs makes `GenerateJWT` succeed. -/
theorem GenerateJWT_ok_of_signs (lib : JwtLib) (hsign : lib.signs) (nowExp nowIat : Time)
    (userID : Nat) (userType walletAddr : String) (cfg : JWTConfig) :
    ∃ tok, GenerateJWT lib nowExp nowIat userID userType walletAddr cfg = .ok tok := by
  rw [GenerateJWT_eq]
  unfold SignedString
  obtain ⟨sig, hs⟩ := hsign (lib.encodeHeader ++ "."
    ++ lib.encodeClaims (issuedClaims nowExp nowIat userID userType walletAddr cfg)) cfg.Secret
  simp only [hs]
  exact ⟨_, rfl⟩

/-- C14: for a login with non-empty email and password, when the store
resolves an identity for the email and the password verifies against its
stored hash (and HS256 signing does not fail), `Login` succeeds; the result
carries the id, username, email, wallet address and role of that identity, a
live row of the table, and its token is the signed encoding of claims with the
stored id, the stored role and the stored wallet address, which a lawful
library decodes back to exactly these claims. -/
theorem Login_password_success (hs : Hasher) (lib : JwtLib) (cfg : JWTConfig)
    (nowExp nowIat : Time) (db : DB) (input : LoginUserInput) (u : User)
    (hsign : lib.signs) (hE : input.Email ≠ "") (hP : input.Password ≠ "")
    (hfound : FindByEmail db input.Email = .ok u)
    (hver : hs.CompareHashAndPassword u.Password input.Password = true) :
    ∃ tok claims,
      Login hs lib cfg nowExp nowIat db input
        = .ok { ID := u.ID, Username := u.Username, Email := u.Email,
                WalletAddr := u.WalletAddr, UserType := u.UserType, CreatedAt := u.CreatedAt,
                Token := tok }
      ∧ (∃ m ∈ db.users, m.Email = input.Email ∧ m.DeletedAt = none ∧ u = modelToDomain m)
      ∧ SignedString lib claims cfg.Secret = .ok tok
      ∧ claims.UserID = u.ID ∧ claims.UserType = u.UserType ∧ claims.WalletAddr = u.WalletAddr
      ∧ (lib.Lawful → ∀ np, tokenClaims lib np tok cfg.Secret = claims) := by
  obtain ⟨tok, hgen⟩ :=
    GenerateJWT_ok_of_signs lib hsign nowExp nowIat u.ID u.UserType u.WalletAddr cfg
  have hres := loginResolve_password hs db input u hE hP hfound hver
  refine ⟨tok, issuedClaims nowExp nowIat u.ID u.UserType u.WalletAddr cfg,
    Login_of_resolved hs lib cfg nowExp nowIat db input u tok hres hgen,
    FindByEmail_ok _ _ _ hfound, ?_, rfl, rfl, rfl, ?_⟩
  · rw [← GenerateJWT_eq]
    exact hgen
  · intro hl np
    rw [GenerateJWT_eq] at hgen
    unfold tokenClaims
    rw [ParseWithClaims_SignedString lib hl np _ _ _ hgen]

set_option maxRecDepth 100000 in
/-- Witness of C14: the password login of alice. -/
theorem Login_password_success_witness :
    ∃ tok claims,
      Login refHasher refLib serverConfig 1700000000000000000 1700000000000000000 aliceDB
          aliceLogin
        = .ok { ID := aliceUser.ID, Username := aliceUser.Username, Email := aliceUser.Email,
                WalletAddr := aliceUser.WalletAddr, UserType := aliceUser.UserType,
                CreatedAt := aliceUser.CreatedAt, Token := tok }
      ∧ (∃ m ∈ aliceDB.users, m.Email = aliceLogin.Email ∧ m.DeletedAt = none
          ∧ aliceUser = modelToDomain m)
      ∧ SignedString refLib claims serverConfig.Secret = .ok tok
      ∧ claims.UserID = aliceUser.ID ∧ claims.UserType = aliceUser.UserType
      ∧ claims.WalletAddr = aliceUser.WalletAddr
      ∧ (refLib.Lawful → ∀ np, tokenClaims refLib np tok serverConfig.Secret = claims) :=
  Login_password_success refHasher refLib serverConfig 1700000000000000000 1700000000000000000
    aliceDB aliceLogin aliceUser (fun m k => ⟨refMac m k, rfl⟩) (by decide) (by decide) (by rfl)
    (by rfl)

/-- C15: `Login` returns the BAD_REQUEST error of status 400 for every input in
which email or password is empty and one of wallet address, message and
signature is empty, whatever the store, the libraries, the configuration and
the clock; and whenever `Login` returns a taxonomy error with code BAD_REQUEST
or status 400 the input is of that kind. -/
theorem Login_bad_request_iff (hs : Hasher) (lib : JwtLib) (cfg : JWTConfig)
    (nowExp nowIat : Time) (db : DB) (input : LoginUserInput) :
    ((input.Email = "" ∨ input.Password = "") →
      (input.WalletAddr = "" ∨ input.Message = "" ∨ input.Signature = "") →
      Login hs lib cfg nowExp nowIat db input
        = .err (.api { Code := "BAD_REQUEST", Message := "登录失败",
                       Detail := "请提供有效的登录凭证", Status := 400 }))
    ∧ (∀ e, Login hs lib cfg nowExp nowIat db input = .err (.api e) →
        (e.Code = "BAD_REQUEST" ∨ e.Status = 400) →
        (input.Email = "" ∨ input.Password = "")
          ∧ (input.WalletAddr = "" ∨ input.Message = "" ∨ input.Signature = "")) := by
  constructor
  · intro hno hw
    unfold Login loginResolve
    have hwf : ¬ ((decide (input.WalletAddr ≠ "") && decide (input.Message ≠ "")
        && decide (input.Signature ≠ "")) = true) := by
      rcases hw with h | h | h <;> simp [h]
    rw [if_neg (shape_false input hno), if_neg hwf]
    rfl
  · intro e he hcode
    unfold Login at he
    cases hres : loginResolve hs db input with
    | error e2 =>
      simp only [hres, Outcome.err.injEq] at he
      subst he
      unfold loginResolve at hres
      by_cases hshape : (decide (input.Email ≠ "") && decide (input.Password ≠ "")) = true
      · exfalso
        rw [if_pos hshape] at hres
        cases hfe : FindByEmail db input.Email with
        | error e3 =>
          simp only [hfe, Except.error.injEq, GoError.api.injEq] at hres
          subst hres
          rcases hcode with h | h
          · exact absurd h (by decide)
          · exact absurd h (by decide)
        | ok u =>
          simp only [hfe] at hres
          split at hres
          · cases hres
          · simp only [Except.error.injEq, GoError.api.injEq] at hres
            subst hres
            rcases hcode with h | h
            · exact absurd h (by decide)
            · exact absurd h (by decide)
      · rw [if_neg hshape] at hres
        by_cases hwal : (decide (input.WalletAddr ≠ "") && decide (input.Message ≠ "")
            && decide (input.Signature ≠ "")) = true
        · rw [if_pos hwal] at hres
          cases hres
        · constructor
          · by_contra hc
            apply hshape
            simp only [not_or] at hc
            simp [hc.1, hc.2]
          · by_contra hc
            apply hwal
            simp only [not_or] at hc
            simp [hc.1, hc.2.1, hc.2.2]
    | ok o =>
      cases o with
      | none => simp [hres] at he
      | some u =>
        simp only [hres] at he
        split at he <;> cases he

/-- Witness of C15: an input with an email and nothing else. -/
theorem Login_bad_request_iff_witness :
    Login refHasher refLib serverConfig 1700000000000000000 1700000000000000000 aliceDB
        emailOnlyLogin
      = .err (.api { Code := "BAD_REQUEST", Message := "登录失败",
                     Detail := "请提供有效的登录凭证", Status := 400 }) :=
  (Login_bad_request_iff refHasher refLib serverConfig 1700000000000000000 1700000000000000000
    aliceDB emailOnlyLogin).1 (Or.inr rfl) (Or.inl rfl)

/-- C16, evaluated at the failing input: a wallet login for the wallet address
of bob, whom the store would resolve by that address, does not return: the
credential check leaves the identity nil and `Login` ends in a nil pointer
panic. -/
theorem Login_wallet_panics :
    FindByWalletAddr twoDB walletLogin.WalletAddr = .ok bobUser
    ∧ loginResolve refHasher twoDB walletLogin = .ok none
    ∧ Login refHasher refLib serverConfig 1700000900000000000 1700000900000000000 twoDB
        walletLogin
      = .panic "invalid memory address or nil pointer dereference" := by
  refine ⟨by rfl, by rfl, by rfl⟩

/-! ## C17: registration, then login -/

theorem find?_insertByID (p : UserModel → Bool) (m : UserModel) (l : List UserModel)
    (hnone : l.find? p = none) (hp : p m = true) : (insertByID m l).find? p = some m := by
  induction l with
  | nil => simp [insertByID, hp]
  | cons r rs ih =>
    rw [List.find?_cons] at hnone
    cases hr : p r with
    | true => simp [hr] at hnone
    | false =>
      simp only [hr] at hnone
      unfold insertByID
      split
      · simp [hp]
      · rw [List.find?_cons]
        simp only [hr]
        exact ih hnone

/-- After a successful `Register` the lookup by the email of the input returns
the row that was inserted. -/
theorem FindByEmail_after_Register (hs : Hasher) (lib : JwtLib) (cfg : JWTConfig)
    (nowDB nowExp nowIat : Time) (db db1 : DB) (input : CreateUserInput) (out : UserOutput)
    (h : Register hs lib cfg nowDB nowExp nowIat db input = (db1, .ok out)) :
    ∃ hashed, hs.GenerateFromPassword input.Password = .ok hashed
      ∧ FindByEmail db1 input.Email
          = .ok { ID := out.ID, Username := input.Username, Email := input.Email,
                  Password := hashed, WalletAddr := input.WalletAddr,
                  UserType := UserTypeRegular, CreatedAt := out.CreatedAt,
                  UpdatedAt := (db.newRow nowDB
                    (domainToModel (registerUser input hashed))).UpdatedAt }
      ∧ out.UserType = UserTypeRegular ∧ out.WalletAddr = input.WalletAddr := by
  obtain ⟨hashed, hg, hpre, hc, _, ho⟩ :=
    Register_success_inv hs lib cfg nowDB nowExp nowIat db db1 input out h
  obtain ⟨hf, _, _, hdb⟩ := dbCreate_ok_eq _ _ _ _ _ hc
  have hnone : db.users.find? (fun m => m.DeletedAt.isNone && m.Email == input.Email) = none := by
    unfold registerPrecheck at hpre
    cases hfe : FindByEmail db input.Email with
    | ok u => simp [hfe] at hpre
    | error e =>
      unfold FindByEmail DB.First at hfe
      simp only [hf] at hfe
      cases hfind : db.users.find? (fun m => m.DeletedAt.isNone && m.Email == input.Email) with
      | none => rfl
      | some r => simp [hfind] at hfe
  have hfind := find?_insertByID (fun m => m.DeletedAt.isNone && m.Email == input.Email)
    (db.newRow nowDB (domainToModel (registerUser input hashed))) db.users hnone
    (by simp [DB.newRow, domainToModel, registerUser])
  refine ⟨hashed, hg, ?_, by rw [ho], by rw [ho]⟩
  unfold FindByEmail DB.First
  rw [hdb]
  simp only [hf, hfind]
  rw [ho]
  rfl

/-- C17: when the hasher verifies the hash it made for the password, for every
registration input with a non-empty email and a password of length at least 8
on which `Register` succeeds, a later `Login` on the resulting store with the
same email and password succeeds (HS256 signing not failing) and returns the
id, role and wallet address that `Register` returned. -/
theorem Register_then_Login (hs : Hasher) (lib lib2 : JwtLib) (cfg cfg2 : JWTConfig)
    (nowDB nowExp nowIat nowExp2 nowIat2 : Time) (db db1 : DB) (input : CreateUserInput)
    (out : UserOutput) (login : LoginUserInput)
    (hver : ∀ hashed, hs.GenerateFromPassword input.Password = .ok hashed →
      hs.CompareHashAndPassword hashed input.Password = true)
    (hsign : lib2.signs)
    (hemail : input.Email ≠ "") (hlen : 8 ≤ input.Password.length)
    (hreg : Register hs lib cfg nowDB nowExp nowIat db input = (db1, .ok out))
    (hle : login.Email = input.Email) (hlp : login.Password = input.Password) :
    ∃ out2, Login hs lib2 cfg2 nowExp2 nowIat2 db1 login = .ok out2
      ∧ out2.ID = out.ID ∧ out2.UserType = out.UserType ∧ out2.WalletAddr = out.WalletAddr := by
  obtain ⟨hashed, hg, hfind, hut, hwa⟩ :=
    FindByEmail_after_Register hs lib cfg nowDB nowExp nowIat db db1 input out hreg
  have hpw : input.Password ≠ "" := by
    intro h0
    rw [h0] at hlen
    exact absurd hlen (by decide)
  rw [← hle] at hfind hemail
  rw [← hlp] at hpw
  have hres := loginResolve_password hs db1 login _ hemail hpw hfind
    (by rw [hlp]; exact hver hashed hg)
  obtain ⟨tok, hgen⟩ := GenerateJWT_ok_of_signs lib2 hsign nowExp2 nowIat2 out.ID
    UserTypeRegular input.WalletAddr cfg2
  refine ⟨_, Login_of_resolved hs lib2 cfg2 nowExp2 nowIat2 db1 login _ tok hres hgen,
    rfl, hut.symm, hwa.symm⟩

set_option maxRecDepth 100000 in
/-- Witness of C17: alice registers into the empty table and logs in. -/
theorem Register_then_Login_witness :
    ∃ out2, Login refHasher refLib serverConfig 1700000300000000000 1700000300000000000 aliceDB
        aliceLogin = .ok out2
      ∧ out2.ID = aliceOutput.ID ∧ out2.UserType = aliceOutput.UserType
      ∧ out2.WalletAddr = aliceOutput.WalletAddr :=
  Register_then_Login refHasher refLib refLib serverConfig serverConfig 1700000000000000000
    1700000000000000000 1700000000000000000 1700000300000000000 1700000300000000000 emptyDB
    aliceDB aliceInput aliceOutput aliceLogin
    (fun hashed h => by
      have h2 : hashed = "$2a$10$password1" := by
        have h3 : refHasher.GenerateFromPassword aliceInput.Password = .ok "$2a$10$password1" :=
          rfl
        rw [h3] at h
        injection h with h4
        exact h4.symm
      rw [h2]
      rfl)
    (fun m k => ⟨refMac m k, rfl⟩) (by decide) (by decide) (by rfl) rfl rfl

/-! ## C18: the stored roles -/

theorem mem_insertByID_iff (x m : UserModel) (l : List UserModel) :
    x ∈ insertByID m l ↔ x = m ∨ x ∈ l := by
  induction l with
  | nil => simp [insertByID]
  | cons r rs ih =>
    unfold insertByID
    split
    · simp
    · simp only [List.mem_cons, ih]
      constructor
      · rintro (h | h | h)
        · exact Or.inr (Or.inl h)
        · exact Or.inl h
        · exact Or.inr (Or.inr h)
      · rintro (h | h | h)
        · exact Or.inr (Or.inl h)
        · exact Or.inl h
        · exact Or.inr (Or.inr h)

/-- An insert of a row with a valid role keeps the roles valid. -/
theorem dbCreate_rolesValid (db : DB) (now : Time) (model : UserModel) (h : db.rolesValid)
    (hm : model.UserType = UserTypeRegular ∨ model.UserType = UserTypeAdmin) :
    (db.Create now model).1.rolesValid := by
  unfold DB.Create
  cases hf : db.fault with
  | some t => exact h
  | none =>
    simp only
    split
    · exact h
    · split
      · exact h
      · intro x hx
        simp only [mem_insertByID_iff] at hx
        rcases hx with rfl | hx
        · exact hm
        · exact h x hx

/-- The repository `Create` leaves the store the insert leaves. -/
theorem Create_fst (db : DB) (now : Time) (u : User) :
    (Create db now u).1 = (db.Create now (domainToModel u)).1 := by
  cases hc : db.Create now (domainToModel u) with
  | mk db2 r =>
    cases r with
    | error e =>
      rw [Create_of_insert_error db now u e (by rw [hc])]
      have := dbCreate_error db now (domainToModel u) e (by rw [hc])
      rw [hc] at this
      simp only [Prod.mk.injEq] at this
      exact this.1.symm
    | ok row =>
      unfold Create
      simp only [hc]

/-- `Register` keeps the roles valid, whatever it returns. -/
theorem Register_rolesValid (hs : Hasher) (lib : JwtLib) (cfg : JWTConfig)
    (nowDB nowExp nowIat : Time) (db : DB) (input : CreateUserInput) (h : db.rolesValid) :
    (Register hs lib cfg nowDB nowExp nowIat db input).1.rolesValid := by
  rw [Register_split]
  cases hpre : registerPrecheck db input with
  | some e => exact h
  | none =>
    simp only
    unfold registerInsert
    cases hg : hs.GenerateFromPassword input.Password with
    | error e => exact h
    | ok hashed =>
      simp only
      have hc := dbCreate_rolesValid db nowDB (domainToModel (registerUser input hashed)) h
        (Or.inl rfl)
      rw [← Create_fst] at hc
      cases hcr : Create db nowDB (registerUser input hashed) with
      | mk db2 r =>
        rw [hcr] at hc
        cases r with
        | error e => exact hc
        | ok newUser =>
          simp only
          split
          · exact hc
          · exact hc

/-- A `Save` of a row with a valid role keeps the roles valid. -/
theorem dbSave_rolesValid (db : DB) (now : Time) (model : UserModel) (h : db.rolesValid)
    (hm : model.UserType = UserTypeRegular ∨ model.UserType = UserTypeAdmin) :
    (db.Save now model).1.rolesValid := by
  unfold DB.Save
  split
  · exact dbCreate_rolesValid db now model h hm
  · cases hf : db.fault with
    | some t => exact h
    | none =>
      simp only
      split
      · exact h
      · split
        · exact h
        · intro x hx
          simp only [mem_insertByID_iff, List.mem_filter] at hx
          rcases hx with rfl | hx
          · unfold DB.savedRow
            split
            · split <;> exact hm
            · exact hm
          · exact h x hx.1

/-- `UpdateUser` is the lookup by key followed by `Update` of the patched user. -/
theorem UpdateUser_eq (db : DB) (now : Time) (id : Nat) (userData : UserData) :
    UpdateUser db now id userData
      = match FindByID db id with
        | .error err => (db, .error err)
        | .ok userEntity => Update db now (patchUser userEntity userData) := by
  unfold UpdateUser patchUser
  cases FindByID db id with
  | error e => rfl
  | ok u =>
    simp only
    cases userData.nonEmptyString "username" <;> cases userData.nonEmptyString "email" <;>
      cases userData.nonEmptyString "user_type" <;>
      cases userData.nonEmptyString "wallet_addr" <;> rfl

/-- The repository `Update` leaves the store `Save` leaves. -/
theorem Update_fst (db : DB) (now : Time) (u : User) :
    (Update db now u).1 = (db.Save now (domainToModel u)).1 := by
  unfold Update
  cases hs : db.Save now (domainToModel u) with
  | mk db2 r =>
    cases r with
    | error e => rfl
    | ok row => rfl

/-- A `Save` that succeeds leaves a row with the role of the model in the table. -/
theorem dbSave_ok_mem (db db1 : DB) (now : Time) (model row : UserModel)
    (h : db.Save now model = (db1, .ok row)) :
    ∃ m ∈ db1.users, m.UserType = model.UserType := by
  unfold DB.Save at h
  by_cases hid : model.ID = 0
  · rw [if_pos hid] at h
    obtain ⟨_, _, _, hdb⟩ := dbCreate_ok_eq _ _ _ _ _ h
    subst hdb
    exact ⟨db.newRow now model, mem_insertByID _ _, rfl⟩
  · rw [if_neg hid] at h
    cases hf : db.fault with
    | some t =>
      rw [hf] at h
      simp at h
    | none =>
      rw [hf] at h
      simp only at h
      by_cases hl : (!model.fitsColumns) = true
      · rw [if_pos hl] at h
        simp at h
      · rw [if_neg hl] at h
        by_cases hc : db.conflictsOther model = true
        · rw [if_pos hc] at h
          simp at h
        · rw [if_neg hc] at h
          simp only [Prod.mk.injEq] at h
          obtain ⟨hdb, _⟩ := h
          subst hdb
          refine ⟨_, mem_insertByID _ _, ?_⟩
          unfold DB.savedRow
          split
          · split <;> rfl
          · rfl

/-- A lookup by key that succeeds returns a row of the table. -/
theorem FindByID_ok (db : DB) (id : Nat) (u : User) (h : FindByID db id = .ok u) :
    ∃ m ∈ db.users, u = modelToDomain m := by
  unfold FindByID DB.First at h
  cases hf : db.fault with
  | some t => simp [hf] at h
  | none =>
    simp only [hf] at h
    cases hfind : db.users.find? (fun m => m.DeletedAt.isNone && m.ID == id) with
    | none => simp [hfind] at h
    | some r =>
      simp only [hfind, Except.ok.injEq] at h
      exact ⟨r, List.mem_of_find?_eq_some hfind, h.symm⟩

theorem aliceDB_rolesValid : aliceDB.rolesValid := by
  intro m hm
  simp only [aliceDB, List.mem_singleton] at hm
  subst hm
  exact Or.inl rfl

/-- C18 as stated fails: the admin update of alice with the payload that maps
`user_type` to the string root succeeds, and the table, in which every role
was regular or admin, now holds the role root. -/
theorem UpdateUser_stores_any_role :
    aliceDB.rolesValid
    ∧ UpdateUser aliceDB 1700000900000000000 1 rootPayload
        = (rootDB, .ok { aliceUser with UserType := "root", UpdatedAt := 1700000900000000000 })
    ∧ ¬ rootDB.rolesValid := by
  refine ⟨aliceDB_rolesValid, by rfl, ?_⟩
  intro h
  rcases h _ (List.mem_cons_self _ _) with h1 | h1
  · exact absurd h1 (by decide)
  · exact absurd h1 (by decide)

/-- C18, amended: starting from a store in which every role is regular or
admin, `Register` leaves such a store on every input (it stores the role
regular), and the admin `UpdateUser` leaves such a store whenever the payload
has no non-empty string under `user_type` or has the string regular or admin
there; with any other non-empty string an update that succeeds returns the
user with that string as the role and has stored a row with it. -/
theorem writes_keep_roles_valid (db : DB) (h : db.rolesValid) :
    (∀ (hs : Hasher) (lib : JwtLib) (cfg : JWTConfig) (nowDB nowExp nowIat : Time)
        (input : CreateUserInput),
        (Register hs lib cfg nowDB nowExp nowIat db input).1.rolesValid)
    ∧ (∀ (now : Time) (id : Nat) (userData : UserData),
        (userData.nonEmptyString "user_type" = none
          ∨ userData.nonEmptyString "user_type" = some "regular"
          ∨ userData.nonEmptyString "user_type" = some "admin") →
        (UpdateUser db now id userData).1.rolesValid)
    ∧ (∀ (now : Time) (id : Nat) (userData : UserData) (db1 : DB) (u : User) (role : String),
        userData.nonEmptyString "user_type" = some role →
        UpdateUser db now id userData = (db1, .ok u) →
        u.UserType = role ∧ ∃ m ∈ db1.users, m.UserType = role) := by
  refine ⟨fun hs lib cfg nowDB nowExp nowIat input =>
    Register_rolesValid hs lib cfg nowDB nowExp nowIat db input h, ?_, ?_⟩
  · intro now id userData hrole
    rw [UpdateUser_eq]
    cases hfid : FindByID db id with
    | error e => exact h
    | ok u =>
      simp only
      rw [Update_fst]
      apply dbSave_rolesValid db now _ h
      obtain ⟨m, hm, hu⟩ := FindByID_ok db id u hfid
      have hmv := h m hm
      have hut : (domainToModel (patchUser u userData)).UserType
          = (userData.nonEmptyString "user_type").getD u.UserType := rfl
      rw [hut]
      rcases hrole with hr | hr | hr
      · rw [hr, hu]
        exact hmv
      · rw [hr]
        exact Or.inl rfl
      · rw [hr]
        exact Or.inr rfl
  · intro now id userData db1 u role hrole hup
    rw [UpdateUser_eq] at hup
    cases hfid : FindByID db id with
    | error e => simp [hfid] at hup
    | ok u0 =>
      simp only [hfid] at hup
      unfold Update at hup
      cases hs : db.Save now (domainToModel (patchUser u0 userData)) with
      | mk db2 r =>
        cases r with
        | error e => simp [hs] at hup
        | ok row =>
          simp only [hs, Prod.mk.injEq, Except.ok.injEq] at hup
          have hrow : (domainToModel (patchUser u0 userData)).UserType = role := by
            simp [domainToModel, patchUser, hrole]
          refine ⟨?_, ?_⟩
          · rw [← hup.2]
            simp [patchUser, hrole]
          · obtain ⟨m, hm, hmr⟩ := dbSave_ok_mem db db2 now _ row hs
            rw [← hup.1]
            exact ⟨m, hm, hmr.trans hrow⟩

set_option maxRecDepth 100000 in
/-- Witness of C18: on the table that holds alice, a registration and the admin
update that sets her role to admin. -/
theorem writes_keep_roles_valid_witness :
    (Register refHasher refLib serverConfig 1700000900000000000 1700000900000000000
        1700000900000000000 aliceDB clashBob).1.rolesValid
    ∧ (UpdateUser aliceDB 1700000900000000000 1 adminPayload).1.rolesValid :=
  ⟨(writes_keep_roles_valid aliceDB aliceDB_rolesValid).1 refHasher refLib serverConfig
      1700000900000000000 1700000900000000000 1700000900000000000 clashBob,
   (writes_keep_roles_valid aliceDB aliceDB_rolesValid).2.1 1700000900000000000 1 adminPayload
      (Or.inr (Or.inr (by rfl)))⟩

/-! ## C19 and C20: errors at the boundary -/

/-- The error of the three lookups after a failed insert is a DuplicateEntity
error or the wrapped insert error. -/
theorem createFailure_cases (db : DB) (u : User) (err : GormError) :
    (∃ message detail, createFailure db u err = .api (NewDuplicateEntityError message detail))
    ∨ ∃ text, createFailure db u err = .other ("创建用户错误: " ++ text) := by
  unfold createFailure
  split
  · exact Or.inl ⟨_, _, rfl⟩
  · split
    · exact Or.inl ⟨_, _, rfl⟩
    · split
      · exact Or.inl ⟨_, _, rfl⟩
      · exact Or.inr ⟨_, rfl⟩

/-- C19 as stated fails: with the connection lost, `GetUserByID` and `Register`
return errors that are not taxonomy errors but wrapped storage errors. -/
theorem raw_errors_are_returned :
    GetUserByID faultyDB 1
        = .error (.other "查询用户错误: dial tcp 10.0.0.5:3306: connect: connection refused")
    ∧ (Register refHasher refLib serverConfig 1700000900000000000 1700000900000000000
          1700000900000000000 faultyDB clashBob).2
        = .error (.other "创建用户错误: dial tcp 10.0.0.5:3306: connect: connection refused")
    ∧ GoError.isTaxonomy
        (.other "查询用户错误: dial tcp 10.0.0.5:3306: connect: connection refused") = false
    ∧ GoError.isTaxonomy
        (.other "创建用户错误: dial tcp 10.0.0.5:3306: connect: connection refused") = false := by
  refine ⟨by rfl, by rfl, by rfl, by rfl⟩

/-- C19, amended: every error `Register` returns is a DuplicateEntity error or a
wrapped hashing, insert or signing error; every error `Login` returns is the
Unauthorized error, the BadRequest error or a wrapped signing error; every
error `GetUserByID` returns is a NotFound error or a wrapped query error. The
wrapped errors are not taxonomy errors; `handleError` answers them with status
500 and code INTERNAL_SERVER_ERROR. -/
theorem service_errors_classified (hs : Hasher) (lib : JwtLib) (cfg : JWTConfig)
    (nowDB nowExp nowIat : Time) (db : DB) (input : CreateUserInput) (login : LoginUserInput)
    (id : Nat) :
    (∀ db1 e, Register hs lib cfg nowDB nowExp nowIat db input = (db1, .error e) →
      (∃ message detail, e = .api (NewDuplicateEntityError message detail))
      ∨ (∃ text, e = .other ("密码加密失败: " ++ text))
      ∨ (∃ text, e = .other ("创建用户错误: " ++ text))
      ∨ (∃ text, e = .other ("生成token失败: " ++ text)))
    ∧ (∀ e, Login hs lib cfg nowExp nowIat db login = .err e →
      e = .api (NewUnauthorizedError "登录失败" "邮箱或密码错误")
      ∨ e = .api (NewBadRequestError "登录失败" "请提供有效的登录凭证")
      ∨ (∃ text, e = .other ("生成token失败: " ++ text)))
    ∧ (∀ e, GetUserByID db id = .error e →
      (∃ detail, e = .api (NewNotFoundError "用户不存在" detail))
      ∨ (∃ text, e = .other ("查询用户错误: " ++ text)))
    ∧ (∀ text, GoError.isTaxonomy (.other text) = false
        ∧ (handleError (.other text)).status = 500
        ∧ (handleError (.other text)).error.code = "INTERNAL_SERVER_ERROR") := by
  refine ⟨?_, ?_, ?_, fun text => ⟨rfl, rfl, rfl⟩⟩
  · intro db1 e h
    rw [Register_split] at h
    cases hpre : registerPrecheck db input with
    | some e2 =>
      simp only [hpre, Prod.mk.injEq, Except.error.injEq] at h
      rw [← h.2]
      unfold registerPrecheck at hpre
      split at hpre
      · simp only [Option.some.injEq] at hpre
        exact Or.inl ⟨_, _, hpre.symm⟩
      · split at hpre
        · simp only [Option.some.injEq] at hpre
          exact Or.inl ⟨_, _, hpre.symm⟩
        · cases hpre
    | none =>
      simp only [hpre] at h
      unfold registerInsert at h
      cases hg : hs.GenerateFromPassword input.Password with
      | error e2 =>
        simp only [hg, Prod.mk.injEq, Except.error.injEq] at h
        exact Or.inr (Or.inl ⟨_, h.2.symm⟩)
      | ok hashed =>
        simp only [hg] at h
        cases hc : Create db nowDB (registerUser input hashed) with
        | mk db2 r =>
          cases r with
          | error e2 =>
            simp only [hc, Prod.mk.injEq, Except.error.injEq] at h
            cases hdc : (db.Create nowDB (domainToModel (registerUser input hashed))).2 with
            | error gerr =>
              have hcf := Create_of_insert_error db nowDB _ gerr hdc
              rw [hc] at hcf
              simp only [Prod.mk.injEq, Except.error.injEq] at hcf
              rw [← h.2, hcf.2]
              rcases createFailure_cases db (registerUser input hashed) gerr with hx | hx
              · exact Or.inl hx
              · exact Or.inr (Or.inr (Or.inl hx))
            | ok row =>
              exfalso
              unfold Create at hc
              cases hdc2 : db.Create nowDB (domainToModel (registerUser input hashed)) with
              | mk db3 r3 =>
                rw [hdc2] at hdc
                simp only at hdc
                subst hdc
                simp [hdc2] at hc
          | ok newUser =>
            simp only [hc] at h
            cases hj : GenerateJWT lib nowExp nowIat newUser.ID newUser.UserType
                newUser.WalletAddr cfg with
            | error e3 =>
              simp only [hj, Prod.mk.injEq, Except.error.injEq] at h
              exact Or.inr (Or.inr (Or.inr ⟨_, h.2.symm⟩))
            | ok tok => simp [hj] at h
  · intro e h
    unfold Login at h
    cases hres : loginResolve hs db login with
    | error e2 =>
      simp only [hres, Outcome.err.injEq] at h
      subst h
      unfold loginResolve at hres
      split at hres
      · split at hres
        · simp only [Except.error.injEq] at hres
          exact Or.inl hres.symm
        · split at hres
          · cases hres
          · simp only [Except.error.injEq] at hres
            exact Or.inl hres.symm
      · split at hres
        · cases hres
        · simp only [Except.error.injEq] at hres
          exact Or.inr (Or.inl hres.symm)
    | ok o =>
      cases o with
      | none => simp [hres] at h
      | some u =>
        simp only [hres] at h
        split at h
        · simp only [Outcome.err.injEq] at h
          exact Or.inr (Or.inr ⟨_, h.symm⟩)
        · cases h
  · intro e h
    unfold GetUserByID FindByID at h
    split at h
    · simp only [Except.error.injEq] at h
      exact Or.inl ⟨_, h.symm⟩
    · simp only [Except.error.injEq] at h
      exact Or.inr ⟨_, h.symm⟩
    · cases h

/-- Witness of C19: the error of `GetUserByID` on the store without connection. -/
theorem service_errors_classified_witness :
    (∃ detail, GoError.other
          "查询用户错误: dial tcp 10.0.0.5:3306: connect: connection refused"
        = .api (NewNotFoundError "用户不存在" detail))
    ∨ (∃ text, GoError.other "查询用户错误: dial tcp 10.0.0.5:3306: connect: connection refused"
        = .other ("查询用户错误: " ++ text)) :=
  (service_errors_classified refHasher refLib serverConfig 1700000900000000000
    1700000900000000000 1700000900000000000 faultyDB clashBob aliceLogin 1).2.2.1 _ (by rfl)

/-- C20 as stated fails: for the wrapped query error of a lost connection
`handleError` answers with status 500 and code INTERNAL_SERVER_ERROR, but the
detail of the body is the text of that error, not empty. -/
theorem handleError_sends_error_text :
    GetUserByID faultyDB 1
        = .error (.other "查询用户错误: dial tcp 10.0.0.5:3306: connect: connection refused")
    ∧ handleError (.other "查询用户错误: dial tcp 10.0.0.5:3306: connect: connection refused")
        = { status := 500,
            error := { code := "INTERNAL_SERVER_ERROR", message := "服务器内部错误",
                       detail := some
                         "查询用户错误: dial tcp 10.0.0.5:3306: connect: connection refused" } }
    ∧ (handleError
        (.other "查询用户错误: dial tcp 10.0.0.5:3306: connect: connection refused")).error.detail
        ≠ none := by
  refine ⟨by rfl, by rfl, ?_⟩
  intro h
  have h2 : (handleError
      (.other "查询用户错误: dial tcp 10.0.0.5:3306: connect: connection refused")).error.detail
      = some "查询用户错误: dial tcp 10.0.0.5:3306: connect: connection refused" := by rfl
  rw [h2] at h
  cases h

/-- C20, amended: for every error that is not a taxonomy error, `handleError`
answers with status 500 and a body of code INTERNAL_SERVER_ERROR whose message
is the fixed generic text and whose detail is the text of the underlying
error, left out only when that text is empty. -/
theorem handleError_internal (text : String) :
    handleError (.other text)
      = { status := 500,
          error := { code := "INTERNAL_SERVER_ERROR", message := "服务器内部错误",
                     detail := if text = "" then none else some text } } := by
  rfl

/-! ## C21: the claims GenerateJWT stamps -/

set_option maxRecDepth 100000 in
/-- C21 as stated fails: with `ExpireHours = 2562048` the claims `GenerateJWT`
signs at second 1700000000 have issued-at 1700000000 and expires-at
-7523371274, so their difference is not `3600 * 2562048`. -/
theorem expiry_wraps_for_large_ExpireHours :
    GenerateJWT refLib 1700000000000000000 1700000000000000000 7 "regular" "" overflowConfig
        = SignedString refLib
            (issuedClaims 1700000000000000000 1700000000000000000 7 "regular" "" overflowConfig)
            overflowConfig.Secret
    ∧ (issuedClaims 1700000000000000000 1700000000000000000 7 "regular" ""
        overflowConfig).IssuedAt = 1700000000
    ∧ (issuedClaims 1700000000000000000 1700000000000000000 7 "regular" ""
        overflowConfig).ExpiresAt = -7523371274
    ∧ (issuedClaims 1700000000000000000 1700000000000000000 7 "regular" ""
          overflowConfig).ExpiresAt
        - (issuedClaims 1700000000000000000 1700000000000000000 7 "regular" ""
          overflowConfig).IssuedAt
        ≠ 3600 * overflowConfig.ExpireHours := by
  refine ⟨rfl, by rfl, by rfl, ?_⟩
  have h1 : (issuedClaims 1700000000000000000 1700000000000000000 7 "regular" ""
      overflowConfig).ExpiresAt = -7523371274 := by rfl
  have h2 : (issuedClaims 1700000000000000000 1700000000000000000 7 "regular" ""
      overflowConfig).IssuedAt = 1700000000 := by rfl
  rw [h1, h2]
  decide

/-- C21, amended: for `-2562047 ≤ ExpireHours ≤ 2562047` (the range in which
`time.Hour * ExpireHours` fits a `time.Duration`), `GenerateJWT` signs claims
whose issued-at is the second clock reading in Unix seconds, whose expires-at
is the first clock reading in Unix seconds plus `3600 * ExpireHours` (so the
difference is `3600 * ExpireHours` when both readings are the same instant),
and whose user id, role and wallet address are the arguments; a lawful library
decodes the returned token back to exactly these claims. -/
theorem GenerateJWT_claims (lib : JwtLib) (cfg : JWTConfig) (nowExp nowIat : Time)
    (userID : Nat) (userType walletAddr : String)
    (h0 : -2562047 ≤ cfg.ExpireHours) (h1 : cfg.ExpireHours ≤ 2562047) :
    ∃ c, GenerateJWT lib nowExp nowIat userID userType walletAddr cfg
        = SignedString lib c cfg.Secret
      ∧ c.IssuedAt = nowIat.Unix
      ∧ c.ExpiresAt = nowExp.Unix + 3600 * cfg.ExpireHours
      ∧ (nowIat = nowExp → c.ExpiresAt - c.IssuedAt = 3600 * cfg.ExpireHours)
      ∧ c.UserID = userID ∧ c.UserType = userType ∧ c.WalletAddr = walletAddr
      ∧ (lib.Lawful → ∀ tok np,
          GenerateJWT lib nowExp nowIat userID userType walletAddr cfg = .ok tok →
          tokenClaims lib np tok cfg.Secret = c) := by
  have hE := issuedClaims_ExpiresAt nowExp nowIat userID userType walletAddr cfg h0 h1
  refine ⟨issuedClaims nowExp nowIat userID userType walletAddr cfg, GenerateJWT_eq _ _ _ _ _ _ _,
    rfl, hE, ?_, rfl, rfl, rfl, ?_⟩
  · intro hsame
    rw [hE, hsame]
    have : (issuedClaims nowExp nowExp userID userType walletAddr cfg).IssuedAt = nowExp.Unix :=
      rfl
    rw [this]
    omega
  · intro hl tok np hgen
    rw [GenerateJWT_eq] at hgen
    unfold tokenClaims
    rw [ParseWithClaims_SignedString lib hl np _ _ _ hgen]

set_option maxRecDepth 100000 in
/-- Witness of C21: the configuration with `ExpireHours = 24`. -/
theorem GenerateJWT_claims_witness :
    ∃ c, GenerateJWT refLib 1700000000000000000 1700000000000000000 7 "regular" "0xabc"
          serverConfig
        = SignedString refLib c serverConfig.Secret
      ∧ c.IssuedAt = Time.Unix 1700000000000000000
      ∧ c.ExpiresAt = Time.Unix 1700000000000000000 + 3600 * serverConfig.ExpireHours
      ∧ ((1700000000000000000 : Time) = 1700000000000000000 →
          c.ExpiresAt - c.IssuedAt = 3600 * serverConfig.ExpireHours)
      ∧ c.UserID = 7 ∧ c.UserType = "regular" ∧ c.WalletAddr = "0xabc"
      ∧ (refLib.Lawful → ∀ tok np,
          GenerateJWT refLib 1700000000000000000 1700000000000000000 7 "regular" "0xabc"
            serverConfig = .ok tok →
          tokenClaims refLib np tok serverConfig.Secret = c) :=
  GenerateJWT_claims refLib serverConfig 1700000000000000000 1700000000000000000 7 "regular"
    "0xabc" (by decide) (by decide)

/-! ## C23: registrations without a wallet address -/

set_option maxRecDepth 100000 in
/-- C23, evaluated at the failing input: alice registers without a wallet
address into the empty table and succeeds; carol, with another email and
another username and no wallet address either, then fails: both lookups at the
head of `Register` find nothing, the insert breaks the unique index on the
wallet column with the empty string, none of the three lookups after the
failure names a field, and `Register` returns the wrapped insert error, which
is not a DuplicateEntity error and which `handleError` answers with status 500. -/
theorem second_walletless_registration_fails :
    aliceInput.WalletAddr = "" ∧ carolInput.WalletAddr = ""
    ∧ aliceInput.Email ≠ carolInput.Email ∧ aliceInput.Username ≠ carolInput.Username
    ∧ Register refHasher refLib serverConfig 1700000000000000000 1700000000000000000
        1700000000000000000 emptyDB aliceInput = (aliceDB, .ok aliceOutput)
    ∧ registerPrecheck aliceDB carolInput = none
    ∧ Register refHasher refLib serverConfig 1700000900000000000 1700000900000000000
        1700000900000000000 aliceDB carolInput
        = (aliceDB, .error (.other "创建用户错误: Error 1062: Duplicate entry"))
    ∧ (handleError (.other "创建用户错误: Error 1062: Duplicate entry")).status = 500 := by
  refine ⟨rfl, rfl, by decide, by decide, by rfl, by rfl, by rfl, by rfl⟩

/-! ## C24: what UpdateUser hands to Update -/

/-- The test on a payload key fails exactly when the key is absent, holds a
value that is not a string, or holds the empty string. -/
theorem nonEmptyString_eq_none_iff (userData : UserData) (key : String) :
    userData.nonEmptyString key = none
      ↔ userData key = none ∨ (∃ text, userData key = some (.nonString text))
        ∨ userData key = some (.str "") := by
  unfold UserData.nonEmptyString
  cases h : userData key with
  | none => simp
  | some v =>
    cases v with
    | str s =>
      by_cases hs : s = ""
      · simp [hs]
      · simp [hs]
    | nonString t => simp

/-- The test on a payload key passes with `s` exactly when the key holds the
non-empty string `s`. -/
theorem nonEmptyString_eq_some_iff (userData : UserData) (key s : String) :
    userData.nonEmptyString key = some s ↔ userData key = some (.str s) ∧ s ≠ "" := by
  unfold UserData.nonEmptyString
  cases h : userData key with
  | none => simp
  | some v =>
    cases v with
    | str t =>
      by_cases ht : t = ""
      · subst ht
        simp only [ne_eq, not_true_eq_false, if_false, Option.some.injEq, JSONValue.str.injEq]
        constructor
        · intro h2
          cases h2
        · intro h2
          exact absurd h2.1.symm h2.2
      · simp only [ne_eq, ht, not_false_eq_true, if_true, Option.some.injEq,
          JSONValue.str.injEq]
        constructor
        · intro h2
          exact ⟨h2, by rw [← h2]; exact ht⟩
        · intro h2
          exact h2.1
    | nonString t => simp

/-- A field of the patched user: the non-empty string of the payload, or the
loaded value. -/
theorem getD_nonEmptyString (userData : UserData) (key old : String) :
    (∀ s, userData key = some (.str s) → s ≠ "" →
        (userData.nonEmptyString key).getD old = s)
    ∧ ((userData key = none ∨ (∃ text, userData key = some (.nonString text))
          ∨ userData key = some (.str "")) →
        (userData.nonEmptyString key).getD old = old) := by
  constructor
  · intro s h1 h2
    rw [(nonEmptyString_eq_some_iff userData key s).mpr ⟨h1, h2⟩]
    rfl
  · intro h
    rw [(nonEmptyString_eq_none_iff userData key).mpr h]
    rfl

/-- C24: when the identity is not found, `UpdateUser` returns the error of the
lookup and the store as it was, without calling `Update`. When it is found,
`UpdateUser` is `Update` applied to a user that has the id, password hash,
creation time and update time of the loaded identity and in which each of
username, email, role and wallet address is the string of the payload when the
payload maps its key to a non-empty string, and the loaded value when the key
is absent, mapped to a value that is not a string, or mapped to the empty
string. -/
theorem UpdateUser_frame (db : DB) (now : Time) (id : Nat) (userData : UserData) :
    (∀ e, FindByID db id = .error e → UpdateUser db now id userData = (db, .error e))
    ∧ (∀ u, FindByID db id = .ok u →
        ∃ u2, UpdateUser db now id userData = Update db now u2
          ∧ u2.ID = u.ID ∧ u2.Password = u.Password ∧ u2.CreatedAt = u.CreatedAt
          ∧ u2.UpdatedAt = u.UpdatedAt
          ∧ (∀ s, userData "username" = some (.str s) → s ≠ "" → u2.Username = s)
          ∧ ((userData "username" = none ∨ (∃ text, userData "username" = some (.nonString text))
                ∨ userData "username" = some (.str "")) → u2.Username = u.Username)
          ∧ (∀ s, userData "email" = some (.str s) → s ≠ "" → u2.Email = s)
          ∧ ((userData "email" = none ∨ (∃ text, userData "email" = some (.nonString text))
                ∨ userData "email" = some (.str "")) → u2.Email = u.Email)
          ∧ (∀ s, userData "user_type" = some (.str s) → s ≠ "" → u2.UserType = s)
          ∧ ((userData "user_type" = none
                ∨ (∃ text, userData "user_type" = some (.nonString text))
                ∨ userData "user_type" = some (.str "")) → u2.UserType = u.UserType)
          ∧ (∀ s, userData "wallet_addr" = some (.str s) → s ≠ "" → u2.WalletAddr = s)
          ∧ ((userData "wallet_addr" = none
                ∨ (∃ text, userData "wallet_addr" = some (.nonString text))
                ∨ userData "wallet_addr" = some (.str "")) → u2.WalletAddr = u.WalletAddr)) := by
  constructor
  · intro e h
    rw [UpdateUser_eq, h]
  · intro u h
    refine ⟨patchUser u userData, by rw [UpdateUser_eq, h], rfl, rfl, rfl, rfl,
      (getD_nonEmptyString userData "username" u.Username).1,
      (getD_nonEmptyString userData "username" u.Username).2,
      (getD_nonEmptyString userData "email" u.Email).1,
      (getD_nonEmptyString userData "email" u.Email).2,
      (getD_nonEmptyString userData "user_type" u.UserType).1,
      (getD_nonEmptyString userData "user_type" u.UserType).2,
      (getD_nonEmptyString userData "wallet_addr" u.WalletAddr).1,
      (getD_nonEmptyString userData "wallet_addr" u.WalletAddr).2⟩

set_option maxRecDepth 100000 in
/-- Witness of C24: the admin update of alice with a new username, an empty
email, a number as role and no wallet address. -/
theorem UpdateUser_frame_witness :
    ∃ u2, UpdateUser aliceDB 1700000900000000000 1 mixedPayload
        = Update aliceDB 1700000900000000000 u2
      ∧ u2.ID = aliceUser.ID ∧ u2.Password = aliceUser.Password
      ∧ u2.CreatedAt = aliceUser.CreatedAt ∧ u2.UpdatedAt = aliceUser.UpdatedAt
      ∧ (∀ s, mixedPayload "username" = some (.str s) → s ≠ "" → u2.Username = s)
      ∧ ((mixedPayload "username" = none
            ∨ (∃ text, mixedPayload "username" = some (.nonString text))
            ∨ mixedPayload "username" = some (.str "")) → u2.Username = aliceUser.Username)
      ∧ (∀ s, mixedPayload "email" = some (.str s) → s ≠ "" → u2.Email = s)
      ∧ ((mixedPayload "email" = none ∨ (∃ text, mixedPayload "email" = some (.nonString text))
            ∨ mixedPayload "email" = some (.str "")) → u2.Email = aliceUser.Email)
      ∧ (∀ s, mixedPayload "user_type" = some (.str s) → s ≠ "" → u2.UserType = s)
      ∧ ((mixedPayload "user_type" = none
            ∨ (∃ text, mixedPayload "user_type" = some (.nonString text))
            ∨ mixedPayload "user_type" = some (.str "")) → u2.UserType = aliceUser.UserType)
      ∧ (∀ s, mixedPayload "wallet_addr" = some (.str s) → s ≠ "" → u2.WalletAddr = s)
      ∧ ((mixedPayload "wallet_addr" = none
            ∨ (∃ text, mixedPayload "wallet_addr" = some (.nonString text))
            ∨ mixedPayload "wallet_addr" = some (.str "")) →
          u2.WalletAddr = aliceUser.WalletAddr) :=
  (UpdateUser_frame aliceDB 1700000900000000000 1 mixedPayload).2 aliceUser (by rfl)

/-! ## C22: two concurrent registrations -/

theorem run_done (c : RegCall) (n : Nat) (db : DB) (r : Except GoError UserOutput) :
    c.run n (db, .done r) = (db, .done r) := by
  induction n with
  | zero => rfl
  | succ k ih =>
    unfold RegCall.run
    exact ih

/-- The three lookups after a failed insert, run one after the other on the
same store, give the error of `GormUserRepository.Create`. -/
theorem run_lookups (c : RegCall) (db : DB) (u : User) (err : GormError) :
    c.run 3 (db, .lookupEmail u err) = (db, .done (.error (createFailure db u err))) := by
  unfold createFailure
  simp only [RegCall.run, RegCall.step]
  by_cases h1 : db.firstOk (fun m => m.Email == u.Email) = true
  · simp only [h1, if_true, RegCall.step]
  · simp only [h1, if_false, Bool.false_eq_true, RegCall.step]
    by_cases h2 : (decide (u.WalletAddr ≠ "")
        && db.firstOk (fun m => m.WalletAddr == u.WalletAddr)) = true
    · simp only [h2, if_true, RegCall.step]
    · simp only [h2, if_false, Bool.false_eq_true, RegCall.step]
      by_cases h3 : db.firstOk (fun m => m.Username == u.Username) = true
      · simp only [h3, if_true]
      · simp only [h3, if_false, Bool.false_eq_true]

/-- The statements of one call, run without interruption, are `Register`. -/
theorem run_solo (c : RegCall) (db : DB) :
    c.run 6 (db, .findEmail)
      = ((Register c.hs c.lib c.jwtConfig c.nowDB c.nowExp c.nowIat db c.input).1,
         .done (Register c.hs c.lib c.jwtConfig c.nowDB c.nowExp c.nowIat db c.input).2) := by
  rw [Register_split]
  unfold registerPrecheck
  unfold RegCall.run
  simp only [RegCall.step]
  cases hfe : FindByEmail db c.input.Email with
  | ok u =>
    simp only
    rw [run_done]
  | error e =>
    simp only
    unfold RegCall.run
    simp only [RegCall.step]
    by_cases hw : (decide (c.input.WalletAddr ≠ "")
        && (FindByWalletAddr db c.input.WalletAddr).toBool) = true
    · simp only [hw, if_true]
      rw [run_done]
    · simp only [hw, if_false, Bool.false_eq_true]
      unfold RegCall.run registerInsert
      simp only [RegCall.step]
      cases hg : c.hs.GenerateFromPassword c.input.Password with
      | error e2 =>
        simp only
        rw [run_done]
      | ok hashed =>
        simp only
        cases hc : db.Create c.nowDB (domainToModel (registerUser c.input hashed)) with
        | mk db1 r =>
          cases r with
          | error err =>
            have hcf := Create_of_insert_error db c.nowDB (registerUser c.input hashed) err
              (by rw [hc])
            have hdb := dbCreate_error db c.nowDB _ err (by rw [hc])
            rw [hc] at hdb
            simp only [Prod.mk.injEq] at hdb
            simp only [hcf]
            rw [hdb.1, run_lookups]
          | ok row =>
            have hcr : Create db c.nowDB (registerUser c.input hashed)
                = (db1, .ok { registerUser c.input hashed with
                    ID := row.ID, CreatedAt := row.CreatedAt, UpdatedAt := row.UpdatedAt }) := by
              unfold Create
              simp only [hc]
            simp only [hcr]
            have hut : (registerUser c.input hashed).UserType = UserTypeRegular := rfl
            have hwa : (registerUser c.input hashed).WalletAddr = c.input.WalletAddr := rfl
            simp only [hut, hwa]
            cases hj : GenerateJWT c.lib c.nowExp c.nowIat row.ID UserTypeRegular
                c.input.WalletAddr c.jwtConfig with
            | error e3 =>
              simp only
              rw [run_done]
            | ok tok =>
              simp only
              rw [run_done]
              rfl

/-- The lookup by email of a call passes when no live row has the email. -/
theorem step_findEmail_free (c : RegCall) (db : DB)
    (h : ¬ db.hasLive (fun m => m.Email == c.input.Email)) :
    c.step db .findEmail = (db, .findWallet) := by
  simp only [RegCall.step]
  cases hfe : FindByEmail db c.input.Email with
  | error e => rfl
  | ok u =>
    exfalso
    obtain ⟨m, hm, he, hd, _⟩ := FindByEmail_ok db _ u hfe
    exact h ⟨m, hm, hd, by simp [he]⟩

/-- The lookup by wallet address of a call passes when no live row has it. -/
theorem step_findWallet_free (c : RegCall) (db : DB)
    (h : ¬ db.hasLive (fun m => m.WalletAddr == c.input.WalletAddr)) :
    c.step db .findWallet = (db, .insert) := by
  simp only [RegCall.step]
  rw [FindByWalletAddr_toBool]
  have hf : db.firstOk (fun m => m.WalletAddr == c.input.WalletAddr) = false := by
    cases hx : db.firstOk (fun m => m.WalletAddr == c.input.WalletAddr) with
    | false => rfl
    | true => exact absurd ((firstOk_iff db _).mp hx).2 h
  simp [hf]

/-- The lookup by wallet address of a call stops it when a live row has it. -/
theorem step_findWallet_taken (c : RegCall) (db : DB) (hconn : db.fault = none)
    (hne : c.input.WalletAddr ≠ "")
    (h : db.hasLive (fun m => m.WalletAddr == c.input.WalletAddr)) :
    c.step db .findWallet = (db, .done c.walletTaken) := by
  simp only [RegCall.step]
  rw [FindByWalletAddr_toBool, (firstOk_iff db _).mpr ⟨hconn, h⟩]
  simp [hne, RegCall.walletTaken]

/-- On a store that is fresh for the input the insert of a call succeeds, when
the hash is made, the row fits its columns and the token is signed. -/
theorem step_insert_fresh (c : RegCall) (db : DB) (hashed : String) (hconn : db.fault = none)
    (hfresh : db.freshFor c.input)
    (hfits : (domainToModel (registerUser c.input hashed)).fitsColumns = true)
    (hhash : c.hs.GenerateFromPassword c.input.Password = .ok hashed) (hsign : c.lib.signs) :
    ∃ out, c.step db .insert = (c.after db hashed, .done (.ok out)) := by
  have hconf : db.conflicts (db.newRow c.nowDB (domainToModel (registerUser c.input hashed)))
      = false := by
    unfold DB.conflicts
    rw [Bool.eq_false_iff]
    intro hany
    rw [List.any_eq_true] at hany
    obtain ⟨r, hr, hc⟩ := hany
    obtain ⟨h1, h2, h3, h4⟩ := hfresh r hr
    simp only [DB.newRow, domainToModel, registerUser, if_true, Bool.or_eq_true,
      beq_iff_eq] at hc
    rcases hc with ((hc | hc) | hc) | hc
    · exact h1 hc
    · exact h2 hc
    · exact h3 hc
    · exact h4 hc
  have hcreate : db.Create c.nowDB (domainToModel (registerUser c.input hashed))
      = (c.after db hashed, .ok (c.row db hashed)) := by
    rw [dbCreate_inserts db c.nowDB _ hconn hfits hconf]
    rfl
  obtain ⟨tok, htok⟩ := GenerateJWT_ok_of_signs c.lib hsign c.nowExp c.nowIat
    (c.row db hashed).ID UserTypeRegular c.input.WalletAddr c.jwtConfig
  refine ⟨{ ID := (c.row db hashed).ID, Username := c.input.Username, Email := c.input.Email,
            WalletAddr := c.input.WalletAddr, UserType := UserTypeRegular,
            CreatedAt := (c.row db hashed).CreatedAt, Token := tok }, ?_⟩
  simp only [RegCall.step, hhash, hcreate, htok]

theorem Race.symm (a b : RegCall) (db : DB) (hashedA hashedB : String)
    (h : Race a b db hashedA hashedB) : Race b a db hashedB hashedA :=
  { conn := h.conn, freshA := h.freshB, freshB := h.freshA, fitsA := h.fitsB,
    fitsB := h.fitsA, wallet := h.wallet.symm,
    present := fun e => h.present (h.wallet.trans e), email := fun e => h.email e.symm,
    hashA := h.hashB, hashB := h.hashA, signA := h.signB, signB := h.signA }

/-- After the insert of the first call the store has its row, live and with the
shared wallet address. -/
theorem after_hasLive_wallet (x y : RegCall) (db : DB) (hx hy : String)
    (h : Race x y db hx hy) :
    (x.after db hx).hasLive (fun m => m.WalletAddr == y.input.WalletAddr) := by
  refine ⟨x.row db hx, ?_, rfl, ?_⟩
  · exact mem_insertByID _ _
  · simp [RegCall.row, DB.newRow, domainToModel, registerUser, h.wallet]

/-- After the insert of the first call no live row has the email of the second. -/
theorem after_not_hasLive_email (x y : RegCall) (db : DB) (hx hy : String)
    (h : Race x y db hx hy) :
    ¬ (x.after db hx).hasLive (fun m => m.Email == y.input.Email) := by
  rintro ⟨m, hm, _, hc⟩
  simp only [RegCall.after, mem_insertByID_iff] at hm
  simp only [beq_iff_eq] at hc
  rcases hm with rfl | hm
  · exact h.email hc
  · exact (h.freshB m hm).2.2.1 hc

/-- On the fresh store no live row has the email or the wallet address of a
call. -/
theorem fresh_not_hasLive (c : RegCall) (db : DB) (hf : db.freshFor c.input) :
    ¬ db.hasLive (fun m => m.Email == c.input.Email)
    ∧ ¬ db.hasLive (fun m => m.WalletAddr == c.input.WalletAddr) := by
  constructor
  · rintro ⟨m, hm, _, hc⟩
    exact (hf m hm).2.2.1 (by simpa using hc)
  · rintro ⟨m, hm, _, hc⟩
    exact (hf m hm).2.2.2 (by simpa using hc)

/-- After the insert of the first call the insert of the second fails. -/
theorem after_insert_fails (x y : RegCall) (db : DB) (hx hy : String)
    (h : Race x y db hx hy) :
    ∃ err, y.step (x.after db hx) .insert
      = (x.after db hx, .lookupEmail (registerUser y.input hy) err) := by
  obtain ⟨err, hfail⟩ := dbCreate_conflict (x.after db hx) y.nowDB
    (domainToModel (registerUser y.input hy)) h.conn
    ⟨x.row db hx, mem_insertByID _ _, Or.inr (Or.inr (by
      simp [RegCall.row, DB.newRow, domainToModel, registerUser, h.wallet]))⟩
  have hpair := dbCreate_error _ _ _ _ hfail
  refine ⟨err, ?_⟩
  simp only [RegCall.step, h.hashB, hpair]

/-- After the first call has inserted, a statement of the second call leaves the
store as it is and the second call short of success. -/
theorem late_step (x y : RegCall) (db : DB) (hx hy : String) (h : Race x y db hx hy)
    (t : RegTask) (ht : Late y hy t) :
    ∃ t2, y.step (x.after db hx) t = (x.after db hx, t2) ∧ Late y hy t2 := by
  have hconn : (x.after db hx).fault = none := h.conn
  have hw := after_hasLive_wallet x y db hx hy h
  have hne : y.input.WalletAddr ≠ "" := fun e => h.present (h.wallet.trans e)
  rcases ht with rfl | rfl | rfl | ⟨err, rfl⟩ | ⟨err, rfl⟩ | rfl
  · exact ⟨_, step_findEmail_free y _ (after_not_hasLive_email x y db hx hy h),
      Or.inr (Or.inl rfl)⟩
  · exact ⟨_, step_findWallet_taken y _ hconn hne hw,
      Or.inr (Or.inr (Or.inr (Or.inr (Or.inr rfl))))⟩
  · obtain ⟨err, he⟩ := after_insert_fails x y db hx hy h
    exact ⟨_, he, Or.inr (Or.inr (Or.inr (Or.inl ⟨err, rfl⟩)))⟩
  · refine ⟨.lookupWallet (registerUser y.input hy) err, ?_,
      Or.inr (Or.inr (Or.inr (Or.inr (Or.inl ⟨_, rfl⟩))))⟩
    have hf : (x.after db hx).firstOk (fun m => m.Email == (registerUser y.input hy).Email)
        = false := by
      cases hv : (x.after db hx).firstOk
          (fun m => m.Email == (registerUser y.input hy).Email) with
      | false => rfl
      | true =>
        exact absurd ((firstOk_iff _ _).mp hv).2 (after_not_hasLive_email x y db hx hy h)
    simp only [RegCall.step, hf, Bool.false_eq_true, if_false]
  · refine ⟨.done y.walletTaken, ?_, Or.inr (Or.inr (Or.inr (Or.inr (Or.inr rfl))))⟩
    have hf : (x.after db hx).firstOk
        (fun m => m.WalletAddr == (registerUser y.input hy).WalletAddr) = true :=
      (firstOk_iff _ _).mpr ⟨hconn, hw⟩
    have hne2 : (registerUser y.input hy).WalletAddr ≠ "" := hne
    simp only [RegCall.step, hf, hne2, ne_eq, not_false_eq_true, decide_True, Bool.and_self,
      if_true]
    rfl
  · exact ⟨_, rfl, Or.inr (Or.inr (Or.inr (Or.inr (Or.inr rfl))))⟩

/-- Every statement brings a call closer to its return. -/
theorem step_rank (c : RegCall) (db : DB) (t : RegTask) :
    (c.step db t).2.rank ≤ t.rank - 1 := by
  cases t with
  | findEmail =>
    simp only [RegCall.step]
    split <;> simp [RegTask.rank]
  | findWallet =>
    simp only [RegCall.step]
    split <;> simp [RegTask.rank]
  | insert =>
    simp only [RegCall.step]
    split
    · simp [RegTask.rank]
    · split
      · simp [RegTask.rank]
      · split <;> simp [RegTask.rank]
  | lookupEmail u e =>
    simp only [RegCall.step]
    split <;> simp [RegTask.rank]
  | lookupWallet u e =>
    simp only [RegCall.step]
    split <;> simp [RegTask.rank]
  | lookupUsername u e =>
    simp only [RegCall.step]
    split <;> simp [RegTask.rank]
  | done r => simp [RegCall.step, RegTask.rank]

/-- After the first call has inserted, the second call run to its end returns
the error that names the wallet address, and the store stays as it is. -/
theorem late_run (x y : RegCall) (db : DB) (hx hy : String) (h : Race x y db hx hy) (n : Nat) :
    ∀ t, Late y hy t → t.rank ≤ n →
      y.run n (x.after db hx, t) = (x.after db hx, .done y.walletTaken) := by
  induction n with
  | zero =>
    intro t ht hr
    rcases ht with rfl | rfl | rfl | ⟨err, rfl⟩ | ⟨err, rfl⟩ | rfl
    · simp [RegTask.rank] at hr
    · simp [RegTask.rank] at hr
    · simp [RegTask.rank] at hr
    · simp [RegTask.rank] at hr
    · simp [RegTask.rank] at hr
    · rfl
  | succ k ih =>
    intro t ht hr
    obtain ⟨t2, hstep, hl2⟩ := late_step x y db hx hy h t ht
    have hrank := step_rank y (x.after db hx) t
    rw [hstep] at hrank
    unfold RegCall.run
    simp only [hstep]
    exact ih t2 hl2 (by simp only at hrank; omega)

/-- While nothing has been inserted, a statement of a call either leaves the
store as it is and the call short of the insert, or it is the insert and
succeeds. -/
theorem early_step (c : RegCall) (db : DB) (hashed : String) (hconn : db.fault = none)
    (hfresh : db.freshFor c.input)
    (hfits : (domainToModel (registerUser c.input hashed)).fitsColumns = true)
    (hhash : c.hs.GenerateFromPassword c.input.Password = .ok hashed) (hsign : c.lib.signs)
    (t : RegTask) (ht : Early t) :
    (∃ t2, c.step db t = (db, t2) ∧ Early t2)
    ∨ (∃ out, c.step db t = (c.after db hashed, .done (.ok out))) := by
  rcases ht with rfl | rfl | rfl
  · exact Or.inl ⟨_, step_findEmail_free c db (fresh_not_hasLive c db hfresh).1,
      Or.inr (Or.inl rfl)⟩
  · exact Or.inl ⟨_, step_findWallet_free c db (fresh_not_hasLive c db hfresh).2,
      Or.inr (Or.inr rfl)⟩
  · exact Or.inr (step_insert_fresh c db hashed hconn hfresh hfits hhash hsign)

/-- While nothing has been inserted, a call run to its end inserts its row and
succeeds. -/
theorem early_run (c : RegCall) (db : DB) (hashed : String) (hconn : db.fault = none)
    (hfresh : db.freshFor c.input)
    (hfits : (domainToModel (registerUser c.input hashed)).fitsColumns = true)
    (hhash : c.hs.GenerateFromPassword c.input.Password = .ok hashed) (hsign : c.lib.signs)
    (n : Nat) : ∀ t, Early t → t.rank ≤ n + 3 →
      ∃ out, c.run (n + 3) (db, t) = (c.after db hashed, .done (.ok out)) := by
  induction n with
  | zero =>
    intro t ht hr
    rcases ht with rfl | rfl | rfl
    · simp [RegTask.rank] at hr
    · simp [RegTask.rank] at hr
    · obtain ⟨out, ho⟩ := step_insert_fresh c db hashed hconn hfresh hfits hhash hsign
      refine ⟨out, ?_⟩
      show c.run 3 (db, .insert) = _
      unfold RegCall.run
      simp only [ho]
      exact run_done c 2 _ _
  | succ k ih =>
    intro t ht hr
    rcases early_step c db hashed hconn hfresh hfits hhash hsign t ht with ⟨t2, hs, he⟩ | ⟨out, ho⟩
    · have hrank := step_rank c db t
      rw [hs] at hrank
      obtain ⟨out, hout⟩ := ih t2 he (by simp only at hrank; omega)
      refine ⟨out, ?_⟩
      show c.run (k + 3 + 1) (db, t) = _
      unfold RegCall.run
      simp only [hs]
      exact hout
    · refine ⟨out, ?_⟩
      show c.run (k + 3 + 1) (db, t) = _
      unfold RegCall.run
      simp only [ho]
      exact run_done c _ _ _

theorem rank_le_six (t : RegTask) : t.rank ≤ 6 := by
  cases t <;> simp [RegTask.rank]

theorem Late_of_Early (c : RegCall) (hashed : String) (t : RegTask) (h : Early t) :
    Late c hashed t := by
  rcases h with h | h | h
  · exact Or.inl h
  · exact Or.inr (Or.inl h)
  · exact Or.inr (Or.inr (Or.inl h))

theorem runSchedule_append (a b : RegCall) (l1 l2 : List Bool) (s : DB × RegTask × RegTask) :
    runSchedule a b (l1 ++ l2) s = runSchedule a b l2 (runSchedule a b l1 s) := by
  unfold runSchedule
  rw [List.foldl_append]

/-- A run of statements of the first call only. -/
theorem runSchedule_first (a b : RegCall) (n : Nat) :
    ∀ (db : DB) (tA tB : RegTask),
      runSchedule a b (List.replicate n true) (db, tA, tB)
        = ((a.run n (db, tA)).1, (a.run n (db, tA)).2, tB) := by
  induction n with
  | zero => intro db tA tB; rfl
  | succ k ih =>
    intro db tA tB
    have h1 : runSchedule a b (List.replicate (k + 1) true) (db, tA, tB)
        = runSchedule a b (List.replicate k true) (stepPair a b true (db, tA, tB)) := rfl
    rw [h1]
    have h2 : stepPair a b true (db, tA, tB) = ((a.step db tA).1, (a.step db tA).2, tB) := rfl
    rw [h2, ih]
    rfl

/-- A run of statements of the second call only. -/
theorem runSchedule_second (a b : RegCall) (n : Nat) :
    ∀ (db : DB) (tA tB : RegTask),
      runSchedule a b (List.replicate n false) (db, tA, tB)
        = ((b.run n (db, tB)).1, tA, (b.run n (db, tB)).2) := by
  induction n with
  | zero => intro db tA tB; rfl
  | succ k ih =>
    intro db tA tB
    have h1 : runSchedule a b (List.replicate (k + 1) false) (db, tA, tB)
        = runSchedule a b (List.replicate k false) (stepPair a b false (db, tA, tB)) := rfl
    rw [h1]
    have h2 : stepPair a b false (db, tA, tB) = ((b.step db tB).1, tA, (b.step db tB).2) := rfl
    rw [h2, ih]
    rfl

/-- A statement of either call keeps the two racing calls in the states of
`RaceInv`. -/
theorem RaceInv_step (a b : RegCall) (db : DB) (hA hB : String) (h : Race a b db hA hB)
    (first : Bool) (s : DB × RegTask × RegTask) (hs : RaceInv a b db hA hB s) :
    RaceInv a b db hA hB (stepPair a b first s) := by
  obtain ⟨sdb, tA, tB⟩ := s
  cases first with
  | true =>
    have hsp : stepPair a b true (sdb, tA, tB) = ((a.step sdb tA).1, (a.step sdb tA).2, tB) :=
      rfl
    rw [hsp]
    rcases hs with ⟨hd, hea, heb⟩ | ⟨hd, ⟨out, hda⟩, hlb⟩ | ⟨hd, hla, hdb⟩
    · simp only at hd hea heb
      subst hd
      rcases early_step a sdb hA h.conn h.freshA h.fitsA h.hashA h.signA tA hea with
        ⟨t2, hst, he2⟩ | ⟨out, hst⟩
      · rw [hst]
        exact Or.inl ⟨rfl, he2, heb⟩
      · rw [hst]
        exact Or.inr (Or.inl ⟨rfl, ⟨out, rfl⟩, Late_of_Early b hB tB heb⟩)
    · simp only at hd hda hlb
      subst hd
      subst hda
      exact Or.inr (Or.inl ⟨rfl, ⟨out, rfl⟩, hlb⟩)
    · simp only at hd hla hdb
      subst hd
      obtain ⟨t2, hst, hl2⟩ := late_step b a db hB hA (Race.symm a b db hA hB h) tA hla
      rw [hst]
      exact Or.inr (Or.inr ⟨rfl, hl2, hdb⟩)
  | false =>
    have hsp : stepPair a b false (sdb, tA, tB) = ((b.step sdb tB).1, tA, (b.step sdb tB).2) :=
      rfl
    rw [hsp]
    rcases hs with ⟨hd, hea, heb⟩ | ⟨hd, hda, hlb⟩ | ⟨hd, hla, ⟨out, hdb⟩⟩
    · simp only at hd hea heb
      subst hd
      rcases early_step b sdb hB h.conn h.freshB h.fitsB h.hashB h.signB tB heb with
        ⟨t2, hst, he2⟩ | ⟨out, hst⟩
      · rw [hst]
        exact Or.inl ⟨rfl, hea, he2⟩
      · rw [hst]
        exact Or.inr (Or.inr ⟨rfl, Late_of_Early a hA tA hea, ⟨out, rfl⟩⟩)
    · simp only at hd hda hlb
      subst hd
      obtain ⟨t2, hst, hl2⟩ := late_step a b db hA hB h tB hlb
      rw [hst]
      exact Or.inr (Or.inl ⟨rfl, hda, hl2⟩)
    · simp only at hd hla hdb
      subst hd
      subst hdb
      exact Or.inr (Or.inr ⟨rfl, hla, ⟨out, rfl⟩⟩)

/-- Every schedule keeps the two racing calls in the states of `RaceInv`. -/
theorem RaceInv_schedule (a b : RegCall) (db : DB) (hA hB : String) (h : Race a b db hA hB)
    (schedule : List Bool) :
    ∀ s, RaceInv a b db hA hB s → RaceInv a b db hA hB (runSchedule a b schedule s) := by
  induction schedule with
  | nil => intro s hs; exact hs
  | cons first rest ih =>
    intro s hs
    exact ih _ (RaceInv_step a b db hA hB h first s hs)

/-- From a state of `RaceInv`, running what is left of both calls ends with one
success and one error that names the wallet address. -/
theorem RaceInv_finish (a b : RegCall) (db : DB) (hA hB : String) (h : Race a b db hA hB)
    (s : DB × RegTask × RegTask) (hs : RaceInv a b db hA hB s) :
    (∃ out, runSchedule a b (List.replicate 6 true ++ List.replicate 6 false) s
        = (a.after db hA, .done (.ok out), .done b.walletTaken))
    ∨ (∃ out, runSchedule a b (List.replicate 6 true ++ List.replicate 6 false) s
        = (b.after db hB, .done a.walletTaken, .done (.ok out))) := by
  obtain ⟨sdb, tA, tB⟩ := s
  rw [runSchedule_append, runSchedule_first]
  rcases hs with ⟨hd, hea, heb⟩ | ⟨hd, ⟨out, hda⟩, hlb⟩ | ⟨hd, hla, ⟨out, hdb⟩⟩
  · simp only at hd hea heb
    subst hd
    obtain ⟨out, ho⟩ := early_run a sdb hA h.conn h.freshA h.fitsA h.hashA h.signA 3 tA hea
      (rank_le_six tA)
    left
    refine ⟨out, ?_⟩
    rw [ho, runSchedule_second]
    simp only
    rw [late_run a b sdb hA hB h 6 tB (Late_of_Early b hB tB heb) (rank_le_six tB)]
  · simp only at hd hda hlb
    subst hd
    subst hda
    left
    refine ⟨out, ?_⟩
    rw [run_done, runSchedule_second]
    simp only
    rw [late_run a b db hA hB h 6 tB hlb (rank_le_six tB)]
  · simp only at hd hla hdb
    subst hd
    subst hdb
    right
    refine ⟨out, ?_⟩
    rw [late_run b a db hB hA (Race.symm a b db hA hB h) 6 tA hla (rank_le_six tA),
      runSchedule_second]
    simp only
    rw [run_done]

/-- C22, amended: two calls of `Register` whose inputs carry the same non-empty
wallet address and different emails are started on a store with a working
connection that holds no row with the username, email or wallet address of
either input; the hashes are made, the rows to insert fit the columns of the
table and signing does not fail. Then under every schedule of their statements
on the store both calls return, exactly one of them with a result and the
other with the DUPLICATE_ENTITY error of status 409 that names the wallet
address, and the store holds the row of the successful call only. The
statements of one call run without interruption are `Register` itself. -/
theorem concurrent_registrations_same_wallet (a b : RegCall) (db : DB)
    (hashedA hashedB : String) (schedule : List Bool)
    (hconn : db.fault = none)
    (hfreshA : db.freshFor a.input) (hfreshB : db.freshFor b.input)
    (hfitsA : (domainToModel (registerUser a.input hashedA)).fitsColumns = true)
    (hfitsB : (domainToModel (registerUser b.input hashedB)).fitsColumns = true)
    (hwallet : a.input.WalletAddr = b.input.WalletAddr) (hpresent : a.input.WalletAddr ≠ "")
    (hemail : a.input.Email ≠ b.input.Email)
    (hhashA : a.hs.GenerateFromPassword a.input.Password = .ok hashedA)
    (hhashB : b.hs.GenerateFromPassword b.input.Password = .ok hashedB)
    (hsignA : a.lib.signs) (hsignB : b.lib.signs) :
    ((∃ out, interleave a b schedule db
        = (a.after db hashedA, .done (.ok out),
           .done (.error (.api { Code := "DUPLICATE_ENTITY", Message := "钱包地址已被绑定",
                                 Detail := b.input.WalletAddr, Status := 409 }))))
      ∨ (∃ out, interleave a b schedule db
        = (b.after db hashedB,
           .done (.error (.api { Code := "DUPLICATE_ENTITY", Message := "钱包地址已被绑定",
                                 Detail := a.input.WalletAddr, Status := 409 })),
           .done (.ok out))))
    ∧ (∀ db2, a.run 6 (db2, .findEmail)
        = ((Register a.hs a.lib a.jwtConfig a.nowDB a.nowExp a.nowIat db2 a.input).1,
           .done (Register a.hs a.lib a.jwtConfig a.nowDB a.nowExp a.nowIat db2 a.input).2)) := by
  have h : Race a b db hashedA hashedB :=
    { conn := hconn, freshA := hfreshA, freshB := hfreshB, fitsA := hfitsA,
      fitsB := hfitsB, wallet := hwallet,
      present := hpresent, email := hemail, hashA := hhashA, hashB := hhashB,
      signA := hsignA, signB := hsignB }
  refine ⟨?_, fun db2 => run_solo a db2⟩
  have hinv0 : RaceInv a b db hashedA hashedB (db, .findEmail, .findEmail) :=
    Or.inl ⟨rfl, Or.inl rfl, Or.inl rfl⟩
  have hinv := RaceInv_schedule a b db hashedA hashedB h schedule _ hinv0
  have hfin := RaceInv_finish a b db hashedA hashedB h _ hinv
  have hi : interleave a b schedule db
      = runSchedule a b (List.replicate 6 true ++ List.replicate 6 false)
          (runSchedule a b schedule (db, .findEmail, .findEmail)) := by
    unfold interleave
    rw [List.append_assoc, runSchedule_append]
  rw [hi]
  rcases hfin with ⟨out, ho⟩ | ⟨out, ho⟩
  · exact Or.inl ⟨out, ho⟩
  · exact Or.inr ⟨out, ho⟩

/-- Witness of C22: dave and erin register with the same wallet address on the
table that holds alice; erin runs her two lookups first, then dave runs his and
inserts, then erin tries to insert. -/
theorem concurrent_registrations_same_wallet_witness :
    ((∃ out, interleave daveCall erinCall [false, false, true, true, true, false] aliceDB
        = (daveCall.after aliceDB "$2a$10$password5", .done (.ok out),
           .done (.error (.api { Code := "DUPLICATE_ENTITY", Message := "钱包地址已被绑定",
                                 Detail := erinCall.input.WalletAddr, Status := 409 }))))
      ∨ (∃ out, interleave daveCall erinCall [false, false, true, true, true, false] aliceDB
        = (erinCall.after aliceDB "$2a$10$password6",
           .done (.error (.api { Code := "DUPLICATE_ENTITY", Message := "钱包地址已被绑定",
                                 Detail := daveCall.input.WalletAddr, Status := 409 })),
           .done (.ok out))))
    ∧ (∀ db2, daveCall.run 6 (db2, .findEmail)
        = ((Register daveCall.hs daveCall.lib daveCall.jwtConfig daveCall.nowDB daveCall.nowExp
              daveCall.nowIat db2 daveCall.input).1,
           .done (Register daveCall.hs daveCall.lib daveCall.jwtConfig daveCall.nowDB
              daveCall.nowExp daveCall.nowIat db2 daveCall.input).2)) :=
  concurrent_registrations_same_wallet daveCall erinCall aliceDB "$2a$10$password5"
    "$2a$10$password6" [false, false, true, true, true, false] rfl
    (by
      intro r hr
      simp only [aliceDB, List.mem_singleton] at hr
      subst hr
      decide)
    (by
      intro r hr
      simp only [aliceDB, List.mem_singleton] at hr
      subst hr
      decide)
    (by decide) (by decide)
    rfl (by decide) (by decide) (by rfl) (by rfl) (fun m k => ⟨refMac m k, rfl⟩)
    (fun m k => ⟨refMac m k, rfl⟩)

set_option maxRecDepth 100000 in
/-- C22 as stated fails: dave and erin register with the same wallet address,
different emails and different usernames, and no call succeeds. On the table
that holds bob, who has the wallet address already, both calls end with the
DUPLICATE_ENTITY error, under the schedule that lets erin look up first and
under the one that runs dave first. With the connection lost both calls end
with the wrapped connection error. With emails of 101 characters, which the
column of 100 does not hold, both calls end with the wrapped error of the
store. -/
theorem same_wallet_calls_can_both_fail :
    daveCall.input.WalletAddr = erinCall.input.WalletAddr
    ∧ daveCall.input.WalletAddr ≠ ""
    ∧ daveCall.input.Email ≠ erinCall.input.Email
    ∧ daveCall.input.Username ≠ erinCall.input.Username
    ∧ interleave daveCall erinCall [false, false, true, true, true, false] twoDB
        = (twoDB,
           .done (.error (.api { Code := "DUPLICATE_ENTITY", Message := "钱包地址已被绑定",
                                 Detail := bobWallet, Status := 409 })),
           .done (.error (.api { Code := "DUPLICATE_ENTITY", Message := "钱包地址已被绑定",
                                 Detail := bobWallet, Status := 409 })))
    ∧ interleave daveCall erinCall [] twoDB
        = (twoDB,
           .done (.error (.api { Code := "DUPLICATE_ENTITY", Message := "钱包地址已被绑定",
                                 Detail := bobWallet, Status := 409 })),
           .done (.error (.api { Code := "DUPLICATE_ENTITY", Message := "钱包地址已被绑定",
                                 Detail := bobWallet, Status := 409 })))
    ∧ interleave daveCall erinCall [false, false, true, true, true, false] faultyDB
        = (faultyDB,
           .done (.error
             (.other "创建用户错误: dial tcp 10.0.0.5:3306: connect: connection refused")),
           .done (.error
             (.other "创建用户错误: dial tcp 10.0.0.5:3306: connect: connection refused")))
    ∧ daveLongCall.input.WalletAddr = erinLongCall.input.WalletAddr
    ∧ daveLongCall.input.Email ≠ erinLongCall.input.Email
    ∧ daveLongCall.input.Email.length = 101
    ∧ erinLongCall.input.Email.length = 101
    ∧ interleave daveLongCall erinLongCall [false, false, true, true, true, false] aliceDB
        = (aliceDB,
           .done (.error (.other "创建用户错误: Error 1406: Data too long for column")),
           .done (.error (.other "创建用户错误: Error 1406: Data too long for column"))) :=
  ⟨by rfl, by decide, by decide, by decide, by rfl, by rfl, by rfl, by rfl, by decide, by rfl,
    by rfl, by rfl⟩

end Web3Ecommerce
